import Mathlib

/-!
Strix front-end: verification development.

A shallow embedding of the pure and event-driven logic of the Strix browser
front-end (`assets/js/app.js`, `assets/js/script.js`) together with proofs of
the properties stated in its specification.

Conventions of the embedding.

* JSON scalars read from API payloads are values of `JsVal`; JavaScript numbers
  are restricted to integers (`JsVal.num`), which is what the backend sends for
  identifiers, byte counts and minute counts.
* A JavaScript `Map` is an association list in insertion order.
* Byte counts and minute counts are doubles with integer values. A product or
  a quotient is rounded to the nearest double (53 significant binary digits, a
  tie going to the even neighbour); `Math.pow(1024, i)`, the division by it,
  `Math.round`, `Math.floor` and `%` are exact on doubles.
* Timers are modelled with integer millisecond timestamps.
-/

namespace Strix

/-! ## JavaScript values -/

/-- A JSON scalar as it appears in a field of an API record. A field that is
absent from the record reads as `undefined`. -/
inductive JsVal where
  | undefined : JsVal
  | null : JsVal
  | bool (b : Bool) : JsVal
  | num (n : Int) : JsVal
  | str (s : String) : JsVal
  deriving DecidableEq, Repr, Inhabited

/-- String conversion of a value inside a template literal. -/
def JsVal.toStr : JsVal → String
  | .undefined => "undefined"
  | .null => "null"
  | .bool true => "true"
  | .bool false => "false"
  | .num n => toString n
  | .str s => s

/-- Truthiness of a value in a condition or on the left of `||`. -/
def JsVal.truthy : JsVal → Bool
  | .undefined => false
  | .null => false
  | .bool b => b
  | .num n => n != 0
  | .str s => s != ""

/-- The expression `a || b`. -/
def JsVal.orElse (a b : JsVal) : JsVal :=
  if a.truthy then a else b

/-- What running a click listener does to the page. -/
inductive Effect where
  | navigate (href : String) : Effect
  | toast (message : String) : Effect
  | nothing : Effect
  deriving DecidableEq, Repr, Inhabited

/-- The constant `TMDB_IMAGE_BASE`. -/
def TMDB_IMAGE_BASE : String := "https://image.tmdb.org/t/p"

/-- The method `toFixed(1)` of a number: the nearest multiple of 1/10, a tie
going to the larger magnitude, printed with one decimal. -/
def toFixed1 (x : ℚ) : String :=
  let n : Int := ⌊|x| * 10 + 1 / 2⌋
  (if x < 0 then "-" else "") ++ toString (n.toNat / 10) ++ "." ++ toString (n.toNat % 10)

/-- The expression `s.split('-')[0]`: the text before the first dash. -/
def beforeDash (s : String) : String :=
  String.mk (s.toList.takeWhile (fun c => c != '-'))

/-! ## Recently-added aggregator: `getUniqueMediaFromFiles` (app.js) -/

/-- The fields of a record of `GET /api/files` that `getUniqueMediaFromFiles`
reads. -/
structure RecentFile where
  media_type : JsVal
  tmdb_id : JsVal
  title : JsVal
  created_at : JsVal
  deriving DecidableEq, Repr, Inhabited

/-- The object literal stored in `mediaMap` for one medium. -/
structure MediaEntry where
  tmdb_id : JsVal
  media_type : JsVal
  title : JsVal
  created_at : JsVal
  deriving DecidableEq, Repr, Inhabited

/-- A JavaScript `Map` with string keys: the bindings in insertion order. -/
abbrev JsMap (β : Type) := List (String × β)

/-- The method `Map.prototype.has`. -/
def JsMap.has {β : Type} (m : JsMap β) (key : String) : Bool :=
  m.any (fun kv => kv.1 == key)

/-- The method `Map.prototype.set`: an existing key keeps its position and gets
the new value, a new key is appended. -/
def JsMap.set {β : Type} (m : JsMap β) (key : String) (v : β) : JsMap β :=
  if m.has key then m.map (fun kv => if kv.1 == key then (key, v) else kv)
  else m ++ [(key, v)]

/-- The iterator `Map.prototype.values`, as an array. -/
def JsMap.values {β : Type} (m : JsMap β) : List β :=
  m.map Prod.snd

/-- The template literal that joins `media_type`, a dash and `tmdb_id`. -/
def keyOf (media_type tmdb_id : JsVal) : String :=
  media_type.toStr ++ "-" ++ tmdb_id.toStr

/-- The constant `key` computed for one file in the `forEach` callback. -/
def mediaKey (file : RecentFile) : String :=
  keyOf file.media_type file.tmdb_id

/-- The object literal built from one file. -/
def mediaOf (file : RecentFile) : MediaEntry :=
  { tmdb_id := file.tmdb_id
    media_type := file.media_type
    title := file.title
    created_at := file.created_at }

/-- The body of the `forEach` callback of `getUniqueMediaFromFiles`. -/
def addFile (mediaMap : JsMap MediaEntry) (file : RecentFile) : JsMap MediaEntry :=
  let key := mediaKey file
  if !mediaMap.has key then mediaMap.set key (mediaOf file) else mediaMap

/-- The function `getUniqueMediaFromFiles(files)`: fold the callback over the
files, then `Array.from(mediaMap.values()).slice(0, 16)`. -/
def getUniqueMediaFromFiles (files : List RecentFile) : List MediaEntry :=
  (JsMap.values (files.foldl addFile [])).take 16

/-- Specification side: the files whose key does not occur at an earlier
position of the list, in input order. -/
def firstOccurrences (files : List RecentFile) : List RecentFile :=
  (files.enum.filter
    (fun p => (files.take p.1).all (fun g => mediaKey g != mediaKey p.2))).map Prod.snd

/-- Specification side: the set of keys that occur in a file list. -/
def distinctKeys (files : List RecentFile) : Finset String :=
  (files.map mediaKey).toFinset

/-! ## Double-precision arithmetic on integer values -/

/-- Number of binary digits of `n`, with `fuel` bounding the number of
halvings. -/
def bitLengthAux : Nat → Nat → Nat
  | 0, _ => 0
  | fuel + 1, n => if n = 0 then 0 else bitLengthAux fuel (n / 2) + 1

/-- Number of binary digits of a natural number (0 for the number 0). -/
def bitLength (n : Nat) : Nat := bitLengthAux n n

/-- The quotient `a / d` rounded to the nearest natural number, a tie going to
the even neighbour: the rounding rule of IEEE-754 arithmetic. -/
def roundHalfEven (a d : Nat) : Nat :=
  if 2 * (a % d) > d ∨ (2 * (a % d) = d ∧ (a / d) % 2 = 1) then a / d + 1 else a / d

/-- The double nearest to the natural number `n`: `n` itself below 2^53,
otherwise `n` rounded to 53 significant binary digits. (Doubles end below
2^1024; no overflow to `Infinity` is represented.) -/
def toDouble (n : Nat) : Nat :=
  roundHalfEven n (2 ^ (bitLength n - 53)) * 2 ^ (bitLength n - 53)

/-- The double that stands for a non-negative integer count: the count
itself below 2^53, otherwise the double nearest to it, which is the number
that reaches a function called with that count. -/
def asDouble (n : Int) : Int := (toDouble n.toNat : Int)

/-- The expression `Math.floor(a / b)` for two doubles with non-negative
integer values, `b` positive. The quotient is the double nearest to the exact
quotient: with `l` the number of binary digits of its integer part, it keeps
`53 - l` binary digits after the point, or is a multiple of `2 ^ (l - 53)`. -/
def quotientFloor (a b : Nat) : Nat :=
  let l := bitLength (a / b)
  if 53 ≤ l then roundHalfEven a (b * 2 ^ (l - 53)) * 2 ^ (l - 53)
  else roundHalfEven (a * 2 ^ (53 - l)) b / 2 ^ (53 - l)

/-- Search for the decimal with the fewest significant digits that the double
`v` is nearest to: with `k` significant digits the two candidates are the
neighbours of `v` among the multiples of `10 ^ (len - k)`; of two candidates
that both convert to `v` the closer one is taken (the even one on a tie). -/
def shortestAux (v len : Nat) : Nat → Nat → Nat
  | 0, _ => v
  | fuel + 1, k =>
    let z := len - k
    let lo := v / 10 ^ z * 10 ^ z
    let hi := lo + 10 ^ z
    if toDouble lo = v ∧ toDouble hi = v then
      (if v - lo < hi - v ∨ (v - lo = hi - v ∧ (v / 10 ^ z) % 2 = 0) then lo else hi)
    else if toDouble lo = v then lo
    else if toDouble hi = v then hi
    else shortestAux v len fuel (k + 1)

/-- The decimal digits that `Number.prototype.toString` prints for a double
with a natural-number value, as a number: the shortest decimal that converts
back to the same double (17 significant digits always suffice). -/
def shortestDecimal (v : Nat) : Nat :=
  shortestAux v (Nat.toDigits 10 v).length 17 1

/-- Exponent form of a natural number, as `Number.prototype.toString` prints a
value of 10^21 or more: first digit, the further significant digits after a
point, then `e+` and the decimal exponent. -/
def exponentForm (c : Nat) : String :=
  let ds := Nat.toDigits 10 c
  match (ds.reverse.dropWhile (fun d => d == '0')).reverse with
  | [] => "0"
  | d :: rest =>
    String.mk (d :: (if rest.isEmpty then [] else '.' :: rest)) ++ "e+" ++ toString (ds.length - 1)

/-- Conversion to a string of a double with an integer value, inside a
template literal. Below 2^53 every digit is printed; from 2^53 on the shortest
decimal that identifies the double is printed, in exponent form from 10^21 on. -/
def integerToString (v : Int) : String :=
  if v.natAbs < 2 ^ 53 then toString v
  else
    (if v < 0 then "-" else "") ++
      (if shortestDecimal v.natAbs < 10 ^ 21 then toString (shortestDecimal v.natAbs)
       else exponentForm (shortestDecimal v.natAbs))

/-! ## Formatters: `formatFileSize` (app.js), `formatDuration` (script.js) -/

/-- The array `sizes` of `formatFileSize`. -/
def sizes : List String := ["B", "KB", "MB", "GB", "TB"]

/-- The function `Math.round`: the nearest integer, a tie going up. -/
def mathRound (x : ℚ) : Int := ⌊x + 1 / 2⌋

/-- Decimal text of `h` hundredths with the trailing zeros of the fraction
dropped: `150` is `1.5`, `102400` is `1024`, `146` is `1.46`, `5` is `0.05`. -/
def hundredthsToString (h : Nat) : String :=
  let ip := h / 100
  let fp := h % 100
  if fp = 0 then toString ip
  else if fp % 10 = 0 then toString ip ++ "." ++ toString (fp / 10)
  else if fp < 10 then toString ip ++ ".0" ++ toString fp
  else toString ip ++ "." ++ toString fp

/-- Conversion of a number to a string when it is concatenated with a string,
for a number that is a whole multiple of 1/100 (every quotient
`Math.round(x) / 100` is the double nearest to one, and is printed with the
digits of that multiple). -/
def numberToString (v : ℚ) : String :=
  let h : Int := ⌊v * 100⌋
  if h < 0 then "-" ++ hundredthsToString h.natAbs else hundredthsToString h.toNat

/-- The constant `i` of `formatFileSize` for a positive byte count:
`Math.floor(Math.log(bytes) / Math.log(k))` with `k = 1024`, for byte counts
below 2^53 (the integers that a double holds exactly); above 2^53 the value
is the integer part of the logarithm to base 1024.

The two logarithms are doubles. For the three counts 2^50 - 3, 2^50 - 2 and
2^50 - 1 the double `Math.log(bytes)` is the same as `Math.log(2^50)`, since
the logarithms differ by less than half the spacing 2^-47 of the doubles near
34.66, and the quotient is 5. For every other integer count below 2^53 the
floor of the quotient is the integer part of the logarithm to base 1024. -/
def sizeIndex (bytes : Int) : Nat :=
  if 2 ^ 50 - 3 ≤ bytes ∧ bytes < 2 ^ 50 then 5 else Nat.log 1024 bytes.toNat

/-- The expression `sizes[i]` inside the concatenation: a lookup past the end
of the array is `undefined`. -/
def unitText (i : Nat) : String :=
  match sizes[i]? with
  | some unit => unit
  | none => "undefined"

/-- The double `(bytes / Math.pow(k, i)) * 100` for a positive byte count
that is a double.
The division by the power of two `1024 ^ i` is exact; the product with 100 is
rounded to the nearest double, which is the nearest double to `100 * bytes`
divided by the same power of two. -/
def scaledHundredfold (bytes : Int) (i : Nat) : ℚ :=
  (toDouble (bytes.toNat * 100) : ℚ) / (1024 : ℚ) ^ i

/-- The function `formatFileSize(bytes)` on integer byte counts.

A negative count makes `Math.log(bytes)` the value `NaN`; `NaN` then passes
through `Math.floor`, `Math.pow`, the division and `Math.round`, the lookup
`sizes[NaN]` is `undefined`, and the concatenation is `NaN undefined`.
A positive count enters the computation as a double. -/
def formatFileSize (bytes : Int) : String :=
  if bytes = 0 then "0 B"
  else if bytes < 0 then "NaN undefined"
  else
    let x := asDouble bytes
    let i := sizeIndex x
    numberToString ((mathRound (scaledHundredfold x i) : ℚ) / 100) ++ " " ++ unitText i

/-- The constant `hours` of `formatDuration`, `Math.floor(minutes / 60)`, for
a count that is a double. For a negative count the quotient is negative and
only its sign is used. -/
def hoursOf (minutes : Int) : Int :=
  if 0 ≤ minutes then (quotientFloor minutes.toNat 60 : Int) else Int.fdiv minutes 60

/-- The function `formatDuration(minutes)` on integer minute counts:
`Math.floor(minutes / 60)` is the floor of the double quotient, `%` is the
exact remainder that takes the sign of the dividend. A non-negative count
enters the computation as a double; a negative count is taken as it is (the
model is for the negative integers that a double holds exactly). -/
def formatDuration (minutes : Int) : String :=
  let x := if 0 ≤ minutes then asDouble minutes else minutes
  let hours := hoursOf x
  let mins := Int.tmod x 60
  if hours > 0 then integerToString hours ++ "h " ++ integerToString mins ++ "m"
  else integerToString mins ++ "m"

/-- Specification side: the unit magnitude chosen for a byte count, 0 for the
count 0 and otherwise the index that `formatFileSize` computes. -/
def unitMagnitude (bytes : Int) : Nat :=
  if bytes = 0 then 0 else sizeIndex (asDouble bytes)

/-- Specification side: the unit sequence B, KB, MB, GB, TB by position. -/
def unitName : Nat → Option String
  | 0 => some "B"
  | 1 => some "KB"
  | 2 => some "MB"
  | 3 => some "GB"
  | 4 => some "TB"
  | _ => none

/-- One character of a duration text: a digit extends the number being read,
an `h` files that number as the hours, any other character is skipped. -/
def durationStep (st : Nat × Nat) (c : Char) : Nat × Nat :=
  if c.isDigit then (st.1, st.2 * 10 + (c.toNat - 48))
  else if c = 'h' then (st.2, 0)
  else st

/-- Specification side: reading a duration text back. The digits before an `h`
count hours, the digits after it (or all digits when there is no `h`) count
minutes; the value is the total number of minutes. -/
def readDuration (s : String) : Nat :=
  let r := s.toList.foldl durationStep (0, 0)
  60 * r.1 + r.2

/-! ## File cards: `createFileCard` (app.js) -/

/-- The fields of a file record that `createFileCard` reads; `none` is an
absent (or `null`) field. -/
structure FileRecord where
  file_name : Option String
  title : Option String
  file_size : Option Int
  quality : Option String
  stream_token : Option String
  deriving DecidableEq, Repr, Inhabited

/-- The expression `s || d` for an optional string: the empty string is falsy. -/
def strOr (s : Option String) (d : String) : String :=
  match s with
  | some v => if v = "" then d else v
  | none => d

/-- The expression `n || 0` for an optional integer. -/
def intOrZero (n : Option Int) : Int :=
  match n with
  | some v => if v = 0 then 0 else v
  | none => 0

/-- The expression `n || d` for an optional integer: the number 0 is falsy. -/
def intOr (n : Option Int) (d : Int) : Int :=
  match n with
  | some v => if v = 0 then d else v
  | none => d

/-- What `createFileCard` puts on a card: the `data-quality` attribute, the
texts of the name and size elements, and the navigation target of its click
handler (`none` when no handler is attached). The quality badge and the
format badge are not part of the model. -/
structure FileCard where
  dataQuality : String
  fileName : String
  fileSize : String
  onClick : Option String
  deriving DecidableEq, Repr, Inhabited

/-- The function `createFileCard(file)`. -/
def createFileCard (file : FileRecord) : FileCard :=
  let fileSize := formatFileSize (intOrZero file.file_size)
  let fileName := strOr file.file_name (strOr file.title "Unknown")
  let streamToken := strOr file.stream_token ""
  { dataQuality := strOr file.quality "unknown"
    fileName := fileName
    fileSize := fileSize
    onClick := if streamToken ≠ "" then some ("/play?token=" ++ streamToken) else none }

/-! ## Debounced search client (app.js desktop, script.js mobile) -/

/-- The two copies of the search client. -/
inductive Variant where
  | desktop : Variant
  | mobile : Variant
  deriving DecidableEq, Repr, Inhabited

/-- White space and line terminators of ECMAScript, the characters that
`String.prototype.trim` removes. -/
def isJsWhitespace (c : Char) : Bool :=
  let n := c.toNat
  n = 0x09 || n = 0x0A || n = 0x0B || n = 0x0C || n = 0x0D || n = 0x20 || n = 0xA0 ||
  n = 0x1680 || (0x2000 ≤ n && n ≤ 0x200A) || n = 0x2028 || n = 0x2029 || n = 0x202F ||
  n = 0x205F || n = 0x3000 || n = 0xFEFF

/-- The method `String.prototype.trim`. -/
def jsTrim (s : String) : String :=
  String.mk ((s.toList.dropWhile isJsWhitespace).reverse.dropWhile isJsWhitespace).reverse

/-- The property `length` of a string: the number of UTF-16 code units. -/
def jsLength (s : String) : Nat :=
  (s.toList.map (fun c => if c.toNat < 0x10000 then 1 else 2)).sum

/-- One element of `results` in the body of `GET /api/search`; `none` is an
absent (or `null`) field. -/
structure SearchResult where
  id : JsVal
  media_type : JsVal
  title : Option String
  name : Option String
  release_date : Option String
  first_air_date : Option String
  poster_path : Option String
  vote_average : Option ℚ
  deriving DecidableEq, Repr, Inhabited

/-- One `search-result-item` of the dropdown: the image source, the texts of
title, type, year and rating (the mobile row has no rating), and what its
click listener does. -/
structure SearchRow where
  posterSrc : String
  title : String
  typeLabel : String
  yearText : String
  ratingText : Option String
  click : Effect
  deriving DecidableEq, Repr, Inhabited

/-- A timer registered with `setTimeout`: its handle, the time from which its
callback may run, and the query captured by the callback. -/
structure Timer where
  id : Nat
  due : Nat
  query : String
  deriving DecidableEq, Repr, Inhabited

/-- Content of the results dropdown. -/
inductive DropdownContent where
  | empty : DropdownContent
  | loading : DropdownContent
  | message (html : String) : DropdownContent
  | rows (items : List SearchRow) : DropdownContent
  deriving DecidableEq, Repr, Inhabited

/-- State of one search client: the clock (milliseconds), the timers pending in
the host, the variable `searchTimeout` (`mobileSearchTimeout`), the dropdown,
and the queries for which a search request has been issued, oldest first. -/
structure SearchState where
  now : Nat
  nextTimerId : Nat
  timers : List Timer
  searchTimeout : Option Nat
  visible : Bool
  content : DropdownContent
  calls : List String
  deriving DecidableEq, Repr, Inhabited

/-- The state after `setupSearchFunctionality`: an empty hidden dropdown, no
timer, `searchTimeout` undefined. -/
def SearchState.init : SearchState :=
  { now := 0, nextTimerId := 1, timers := [], searchTimeout := none,
    visible := false, content := .empty, calls := [] }

/-- The delay passed to `setTimeout` by the input handler. -/
def quietPeriod : Nat := 500

/-- The function `clearTimeout(handle)`: an undefined or stale handle is ignored. -/
def clearTimeout (s : SearchState) (handle : Option Nat) : SearchState :=
  match handle with
  | none => s
  | some h => { s with timers := s.timers.filter (fun t => t.id != h) }

/-- The synchronous part of `performSearch(query)` (`performMobileSearch`): an
empty query returns at once, any other query issues the request. -/
def performSearch (s : SearchState) (query : String) : SearchState :=
  if query = "" then s else { s with calls := s.calls ++ [query] }

/-- The function `showSearchLoading()`. -/
def showSearchLoading (s : SearchState) : SearchState :=
  { s with content := .loading, visible := true }

/-- The function `hideSearchResults()`. -/
def hideSearchResults (s : SearchState) : SearchState :=
  { s with visible := false }

/-- The callback of `results.slice(0, 8).forEach` in `displaySearchResults`
(desktop) and `displayMobileSearchResults` (mobile): the row built for one
result. -/
def searchRow (v : Variant) (result : SearchResult) : SearchRow :=
  let title := strOr result.title (strOr result.name "Unknown")
  match v with
  | .desktop =>
    let year := strOr result.release_date (strOr result.first_air_date "")
    { posterSrc :=
        (match result.poster_path with
         | some p => if p = "" then "https://via.placeholder.com/50x75?text=No+Image"
                     else "https://image.tmdb.org/t/p/w92" ++ p
         | none => "https://via.placeholder.com/50x75?text=No+Image")
      title := title
      typeLabel := if result.media_type = .str "tv" then "TV Series" else "Movie"
      yearText := if year ≠ "" then beforeDash year else "N/A"
      ratingText :=
        some (match result.vote_average with
              | some r => if r = 0 then "N/A" else toFixed1 r
              | none => "N/A")
      click :=
        if result.media_type = .str "tv" then .navigate ("/tv/" ++ result.id.toStr)
        else if result.media_type = .str "movie" then .navigate ("/movie/" ++ result.id.toStr)
        else .nothing }
  | .mobile =>
    let mediaType := result.media_type.orElse (.str "movie")
    { posterSrc :=
        (match result.poster_path with
         | some p =>
           if p = "" then
             "data:image/svg+xml,%3Csvg xmlns=\"http://www.w3.org/2000/svg\" width=\"92\" height=\"138\"%3E%3Crect fill=\"%23333\" width=\"92\" height=\"138\"/%3E%3C/svg%3E"
           else "https://image.tmdb.org/t/p/w92" ++ p
         | none =>
           "data:image/svg+xml,%3Csvg xmlns=\"http://www.w3.org/2000/svg\" width=\"92\" height=\"138\"%3E%3Crect fill=\"%23333\" width=\"92\" height=\"138\"/%3E%3C/svg%3E")
      title := title
      typeLabel := if mediaType = .str "tv" then "TV Series" else "Movie"
      yearText :=
        if strOr result.release_date "" ≠ "" then beforeDash (strOr result.release_date "")
        else if strOr result.first_air_date "" ≠ "" then
          beforeDash (strOr result.first_air_date "")
        else ""
      ratingText := none
      click := .navigate ("/" ++ mediaType.toStr ++ "/" ++ result.id.toStr) }

/-- The function `displaySearchResults(results)` (`displayMobileSearchResults`):
the dropdown is emptied, one row is appended for each of the first 8 results,
and the dropdown is shown. -/
def displaySearchResults (v : Variant) (s : SearchState) (results : List SearchResult) :
    SearchState :=
  { s with content := .rows ((results.take 8).map (searchRow v)), visible := true }

/-- The markup written by `displayNoResults()` (`displayMobileNoResults`). -/
def noResultsMarkup : String := "<div class=\"search-no-results\">No results found</div>"

/-- The markup written by `displaySearchError()` (`displayMobileSearchError`). -/
def searchErrorMarkup : Variant → String
  | .desktop => "<div class=\"search-no-results\">Search failed. Please try again.</div>"
  | .mobile => "<div class=\"search-error\">Search error. Please try again.</div>"

/-- The function `displayNoResults()` (`displayMobileNoResults`). -/
def displayNoResults (s : SearchState) : SearchState :=
  { s with content := .message noResultsMarkup, visible := true }

/-- The function `displaySearchError()` (`displayMobileSearchError`). -/
def displaySearchError (v : Variant) (s : SearchState) : SearchState :=
  { s with content := .message (searchErrorMarkup v), visible := true }

/-- Outcome of a request: the fetch was rejected or the body was not JSON, or a
body of the expected shape was parsed. -/
inductive Fetched (α : Type) where
  | failed : Fetched α
  | ok (data : α) : Fetched α
  deriving DecidableEq, Repr, Inhabited

/-- The body of `GET /api/search`: an object whose `results` is an array of
results, or is absent. -/
structure SearchBody where
  results : Option (List SearchResult)
  deriving DecidableEq, Repr, Inhabited

/-- The part of `performSearch` (`performMobileSearch`) that runs once the
request has settled: inside `try`, a non-empty `results` goes to
`displaySearchResults`, anything else to `displayNoResults`; the `catch`
clause calls `displaySearchError`. -/
def onSearchResponse (v : Variant) (s : SearchState) (response : Fetched SearchBody) :
    SearchState :=
  match response with
  | .failed => displaySearchError v s
  | .ok data =>
    match data.results with
    | some results =>
      if results.length > 0 then displaySearchResults v s results else displayNoResults s
    | none => displayNoResults s

/-- Specification side: the route of a medium, a slash, the type, a slash, the id. -/
def mediaRoute (type id : String) : String :=
  "/" ++ type ++ "/" ++ id

/-- Specification side: the three states in which a search leaves the dropdown. -/
inductive SearchOutcome where
  | results : SearchOutcome
  | noResults : SearchOutcome
  | error : SearchOutcome
  deriving DecidableEq, Repr, Inhabited

/-- Specification side: the state that the outcome of a search request calls
for. -/
def expectedOutcome : Fetched SearchBody → SearchOutcome
  | .failed => .error
  | .ok ⟨none⟩ => .noResults
  | .ok ⟨some []⟩ => .noResults
  | .ok ⟨some (_ :: _)⟩ => .results

/-- Specification side: the state that a dropdown content stands for, if any. -/
def shownOutcome (v : Variant) (c : DropdownContent) : Option SearchOutcome :=
  match c with
  | .rows (_ :: _) => some .results
  | .message html =>
    if html = noResultsMarkup then some .noResults
    else if html = searchErrorMarkup v then some .error
    else none
  | _ => none

/-- The listener for `input` events on the search field, the same in both
variants; `value` is `e.target.value`. -/
def onInput (s : SearchState) (value : String) : SearchState :=
  let s1 := clearTimeout s s.searchTimeout
  let query := jsTrim value
  if jsLength query ≥ 2 then
    let s2 := showSearchLoading s1
    { s2 with
      timers := s2.timers ++ [{ id := s2.nextTimerId, due := s2.now + quietPeriod, query := query }]
      searchTimeout := some s2.nextTimerId
      nextTimerId := s2.nextTimerId + 1 }
  else hideSearchResults s1

/-- The listener for `keypress` events on the search field. -/
def onKeypress (v : Variant) (s : SearchState) (key value : String) : SearchState :=
  if key = "Enter" then
    let query := jsTrim value
    match v with
    | .desktop => if query ≠ "" then performSearch s query else s
    | .mobile => if query ≠ "" ∧ jsLength query ≥ 2 then performSearch s query else s
  else s

/-- The document listener for a click outside the search container. -/
def onClickOutside (s : SearchState) : SearchState :=
  hideSearchResults s

/-- The host lets the clock reach `t`: every timer that is due by then runs its
callback, in the order of registration, and leaves the pending list. -/
def advance (s : SearchState) (t : Nat) : SearchState :=
  let due := s.timers.filter (fun tm => tm.due ≤ t)
  let rest := s.timers.filter (fun tm => ¬ tm.due ≤ t)
  due.foldl (fun st tm => performSearch st tm.query)
    { s with now := max s.now t, timers := rest }

/-- User events on the search field. -/
inductive SearchEvent where
  | input (value : String) : SearchEvent
  | keypress (key value : String) : SearchEvent
  | clickOutside : SearchEvent
  deriving DecidableEq, Repr, Inhabited

/-- Dispatch of one event to its listener. -/
def handle (v : Variant) (s : SearchState) : SearchEvent → SearchState
  | .input value => onInput s value
  | .keypress key value => onKeypress v s key value
  | .clickOutside => onClickOutside s

/-- An event arriving at time `t`: the timers due by `t` run first, then the
listener. -/
def stepAt (v : Variant) (s : SearchState) (t : Nat) (e : SearchEvent) : SearchState :=
  handle v (advance s t) e

/-- A run of timed events from a state. -/
def run (v : Variant) (s : SearchState) (evs : List (Nat × SearchEvent)) : SearchState :=
  evs.foldl (fun st te => stepAt v st te.1 te.2) s

/-- The states a search client can be in: the initial state and every state
reached from it by events at arbitrary times. -/
inductive Reachable (v : Variant) : SearchState → Prop where
  | init : Reachable v SearchState.init
  | step {s : SearchState} (t : Nat) (e : SearchEvent) :
      Reachable v s → Reachable v (stepAt v s t e)

/-- A burst: timed input events (time, field value) in which each event
arrives at or after its predecessor and less than the quiet period after it. -/
def IsBurst : List (Nat × String) → Prop
  | [] => True
  | [_] => True
  | a :: b :: rest => (a.1 ≤ b.1 ∧ b.1 < a.1 + quietPeriod) ∧ IsBurst (b :: rest)

/-- Deciding whether timed input events form a burst. -/
def decideIsBurst : (burst : List (Nat × String)) → Decidable (IsBurst burst)
  | [] => isTrue trivial
  | [_] => isTrue trivial
  | a :: b :: rest =>
    have : Decidable (IsBurst (b :: rest)) := decideIsBurst (b :: rest)
    inferInstanceAs (Decidable ((a.1 ≤ b.1 ∧ b.1 < a.1 + quietPeriod) ∧ IsBurst (b :: rest)))

instance (burst : List (Nat × String)) : Decidable (IsBurst burst) := decideIsBurst burst

/-- The timers all belong to the handle held in `searchTimeout`. -/
def TimersTracked (s : SearchState) : Prop :=
  ∀ tm ∈ s.timers, s.searchTimeout = some tm.id

/-- The state right after the input listener ran at time `t` on the field value
`val`, with `c` the requests issued so far: a single timer for the trimmed
value is pending when it has two or more characters, none otherwise. -/
def AfterInput (s : SearchState) (t : Nat) (val : String) (c : List String) : Prop :=
  s.now = t ∧ s.calls = c ∧
    if 2 ≤ jsLength (jsTrim val) then
      ∃ id, s.timers = [{ id := id, due := t + quietPeriod, query := jsTrim val }] ∧
        s.searchTimeout = some id
    else s.timers = []

/-- The input events of a burst as events of the client. -/
def inputEvents (burst : List (Nat × String)) : List (Nat × SearchEvent) :=
  burst.map (fun tv => (tv.1, SearchEvent.input tv.2))

/-! ## Recommendation cards and the recently-added grid (app.js) -/

/-- A detail or summary record of a medium, as in the body of
`GET /api/movie/{id}` and `GET /api/tv/{id}` and in recommendation lists;
`none` is an absent (or `null`) field. -/
structure MediaItem where
  id : JsVal
  media_type : JsVal
  title : Option String
  name : Option String
  poster_path : Option String
  overview : Option String
  vote_average : Option ℚ
  deriving DecidableEq, Repr, Inhabited

/-- What `createRecommendationCard` puts on a card: image source, title,
rating and description texts, and the target of its click listener. The year
label, which depends on the host's `Date` and time zone, is not part of the
model. -/
structure RecCard where
  posterSrc : String
  title : String
  ratingText : String
  description : String
  href : String
  deriving DecidableEq, Repr, Inhabited

/-- The function `createRecommendationCard(item)`. The call
`item.vote_average.toFixed(1)` raises a `TypeError` when the item has no
`vote_average`; that outcome is `none`. -/
def createRecommendationCard (item : MediaItem) : Option RecCard :=
  let title :=
    match item.title with
    | some t => if t = "" then (item.name.getD "undefined") else t
    | none => item.name.getD "undefined"
  let mediaType := item.media_type.orElse (.str "tv")
  match item.vote_average with
  | none => none
  | some rating =>
    some
      { posterSrc :=
          (match item.poster_path with
           | some p => if p = "" then "https://via.placeholder.com/400x600?text=No+Poster"
                       else TMDB_IMAGE_BASE ++ "/w400" ++ p
           | none => "https://via.placeholder.com/400x600?text=No+Poster")
        title := title
        ratingText := toFixed1 rating
        description := strOr item.overview "No description available"
        href := "/" ++ mediaType.toStr ++ "/" ++ item.id.toStr }

/-- A grid element: the markup last assigned to `innerHTML` and the cards
appended after it. -/
structure Grid where
  markup : String
  cards : List RecCard
  deriving DecidableEq, Repr, Inhabited

/-- The markup of the empty state of the recently-added grid. -/
def noRecentMarkup : String :=
  "<p style=\"grid-column: 1/-1; text-align: center; color: var(--text-secondary); padding: 2rem;\">No recently added content</p>"

/-- The request URL built in the loop of `loadTMDBDetailsForRecent`. -/
def recentEndpoint (media : MediaEntry) : String :=
  "/api/" ++ (if media.media_type = .str "tv" then "tv" else "movie") ++ "/" ++
    media.tmdb_id.toStr

/-- One turn of the `for` loop of `loadTMDBDetailsForRecent`, on the number of
requests made so far and the cards appended so far. `fetchAt n url` is the
outcome of request number `n`, sent to `url`. A rejected request and a
`TypeError` of the card builder land in the `catch` clause, which appends
nothing. -/
def recentStep (fetchAt : Nat → String → Fetched MediaItem) (acc : Nat × List RecCard)
    (media : MediaEntry) : Nat × List RecCard :=
  match fetchAt acc.1 (recentEndpoint media) with
  | .failed => (acc.1 + 1, acc.2)
  | .ok data =>
    if data.id.truthy then
      match createRecommendationCard { data with media_type := media.media_type } with
      | some card => (acc.1 + 1, acc.2 ++ [card])
      | none => (acc.1 + 1, acc.2)
    else (acc.1 + 1, acc.2)

/-- The cards appended by the loop of `loadTMDBDetailsForRecent`. -/
def recentCards (fetchAt : Nat → String → Fetched MediaItem) (mediaList : List MediaEntry) :
    List RecCard :=
  (mediaList.foldl (recentStep fetchAt) (0, [])).2

/-- The function `loadTMDBDetailsForRecent(mediaList)` on the grid
`recentlyAddedGrid`; `none` is a document without that element. -/
def loadTMDBDetailsForRecent (fetchAt : Nat → String → Fetched MediaItem)
    (grid : Option Grid) (mediaList : List MediaEntry) : Option Grid :=
  match grid with
  | none => none
  | some _ =>
    let cards := recentCards fetchAt mediaList
    if cards.length = 0 then some { markup := noRecentMarkup, cards := [] }
    else some { markup := "", cards := cards }

/-- The function `loadRecentlyAdded()`: `files` is the outcome of
`GET /api/files?limit=16`. -/
def loadRecentlyAdded (fetchAt : Nat → String → Fetched MediaItem) (grid : Option Grid)
    (files : Fetched (List RecentFile)) : Option Grid :=
  match files with
  | .failed => grid
  | .ok list =>
    if list.length > 0 then
      loadTMDBDetailsForRecent fetchAt grid (getUniqueMediaFromFiles list)
    else grid

/-- Specification side: the card that entry number `i` of the list
contributes: the card built from the record that its request returns, when
that record has a truthy id. -/
def cardOfEntry (fetchAt : Nat → String → Fetched MediaItem) (i : Nat) (media : MediaEntry) :
    Option RecCard :=
  match fetchAt i (recentEndpoint media) with
  | .failed => none
  | .ok data =>
    if data.id.truthy then createRecommendationCard { data with media_type := media.media_type }
    else none

/-- Specification side: whether the request for entry number `i` succeeded. -/
def fetchSucceeded (fetchAt : Nat → String → Fetched MediaItem) (i : Nat) (media : MediaEntry) :
    Bool :=
  match fetchAt i (recentEndpoint media) with
  | .failed => false
  | .ok _ => true

/-- Specification side: whether the request for entry number `i` returned a
record with a truthy id. -/
def recordWithId (fetchAt : Nat → String → Fetched MediaItem) (i : Nat) (media : MediaEntry) :
    Bool :=
  match fetchAt i (recentEndpoint media) with
  | .failed => false
  | .ok data => data.id.truthy

/-- Specification side: every record that a request returns carries a
`vote_average`. -/
def RatedReplies (fetchAt : Nat → String → Fetched MediaItem) : Prop :=
  ∀ i u d, fetchAt i u = Fetched.ok d → d.vote_average.isSome = true

/-- Example data: every request returns a body without id, such as the error
body that the metadata service sends for an unknown medium. -/
def replyWithoutId (_i : Nat) (_url : String) : Fetched MediaItem :=
  .ok { id := .undefined, media_type := .undefined, title := none, name := none,
        poster_path := none, overview := none, vote_average := some 7 }

/-- Example data: five unique media. -/
def fiveEntries : List MediaEntry :=
  [ { tmdb_id := .num 11, media_type := .str "movie", title := .str "A", created_at := .null },
    { tmdb_id := .num 12, media_type := .str "tv", title := .str "B", created_at := .null },
    { tmdb_id := .num 13, media_type := .str "movie", title := .str "C", created_at := .null },
    { tmdb_id := .num 14, media_type := .str "tv", title := .str "D", created_at := .null },
    { tmdb_id := .num 15, media_type := .str "movie", title := .str "E", created_at := .null } ]

/-- Example data: the third request fails, every other request returns a
record. -/
def thirdFails (i : Nat) (_url : String) : Fetched MediaItem :=
  if i = 2 then .failed
  else
    .ok { id := .num (100 + i), media_type := .undefined, title := some "T", name := none,
          poster_path := none, overview := none, vote_average := some 7 }

/-! ## Episode rows: `updateEpisodesDisplay`, `playEpisode` (app.js) -/

/-- One element of `episodes` in the body of `GET /api/tv/{id}/season/{n}`. -/
structure Episode where
  episode_number : JsVal
  name : JsVal
  still_path : Option String
  runtime : Option Int
  deriving DecidableEq, Repr, Inhabited

/-- An availability record. -/
structure Availability where
  available : Bool
  stream_token : Option String
  deriving DecidableEq, Repr, Inhabited

/-- The object `availableFiles`: the record stored under a property name, if
any. -/
abbrev AvailabilityMap := String → Option Availability

/-- One `hero-episode-item`: number, title and duration texts, image source,
whether it carries the class `unavailable`, and what its click listener does
(`none` when no listener is attached). -/
structure EpisodeRow where
  episodeNum : String
  title : String
  duration : String
  thumbSrc : String
  unavailable : Bool
  click : Option Effect
  deriving DecidableEq, Repr, Inhabited

/-- The function `playEpisode(fileInfo)`. -/
def playEpisode (fileInfo : Availability) : Effect :=
  if strOr fileInfo.stream_token "" ≠ "" then
    .navigate ("/play?token=" ++ strOr fileInfo.stream_token "")
  else .toast "Stream not available"

/-- The callback of `episodes.forEach` in `updateEpisodesDisplay`: the row
built for one episode. -/
def episodeRow (availableFiles : AvailabilityMap) (episode : Episode) : EpisodeRow :=
  let episodeNum := episode.episode_number
  let isAvailable :=
    match availableFiles episodeNum.toStr with
    | some record => record.available
    | none => false
  { episodeNum := episodeNum.toStr
    title := episode.name.toStr
    duration := toString (intOr episode.runtime 45) ++ "m"
    thumbSrc :=
      (match episode.still_path with
       | some p => if p = "" then "https://via.placeholder.com/300x169?text=No+Image"
                   else TMDB_IMAGE_BASE ++ "/w300" ++ p
       | none => "https://via.placeholder.com/300x169?text=No+Image")
    unavailable := !isAvailable
    click :=
      if isAvailable then
        (match availableFiles episodeNum.toStr with
         | some record => some (playEpisode record)
         | none => none)
      else none }

/-- The function `updateEpisodesDisplay(episodes, availableFiles)` on the
children of `heroEpisodesList`; `none` is a document without that element. -/
def updateEpisodesDisplay (list : Option (List EpisodeRow)) (episodes : List Episode)
    (availableFiles : AvailabilityMap) : Option (List EpisodeRow) :=
  match list with
  | none => none
  | some _ => some (episodes.map (episodeRow availableFiles))

/-! ## Play button: `setupPlayButton`, `resetPlayButton` (app.js) -/

/-- The button `playButton`. -/
structure PlayButton where
  disabled : Bool
  innerHTML : String
  deriving DecidableEq, Repr, Inhabited

/-- An entry of `files` in the body of the show request. -/
structure PlayFile where
  stream_token : Option String
  deriving DecidableEq, Repr, Inhabited

/-- The body of the play-button request: the fields that the listener reads. -/
structure PlayData where
  stream_token : Option String
  available : Bool
  files : Option (List PlayFile)
  deriving DecidableEq, Repr, Inhabited

/-- The markup that `resetPlayButton` writes. -/
def playNowMarkup : String :=
  "\n        <svg width=\"24\" height=\"24\" viewBox=\"0 0 24 24\" fill=\"currentColor\">\n            <path d=\"M8 5v14l11-7z\"/>\n        </svg>\n        Play Now\n    "

/-- The function `resetPlayButton(button)`. -/
def resetPlayButton (_button : PlayButton) : PlayButton :=
  { disabled := false, innerHTML := playNowMarkup }

/-- The constant `endpoint` of the click listener. -/
def playEndpoint (currentMediaType currentMediaId : String) : String :=
  if currentMediaType = "tv" then "/api/media/tv/" ++ currentMediaId ++ "/season/1"
  else "/api/media/movie/" ++ currentMediaId

/-- The variable `fileToPlay` of the click listener after the two branches:
the stream token of the chosen record (`some none` is a record without
token), or `none` when no record was chosen. -/
def fileToPlay (currentMediaType : String) (data : PlayData) : Option (Option String) :=
  if currentMediaType = "movie" then
    if strOr data.stream_token "" ≠ "" then some data.stream_token
    else if data.available ∧ strOr data.stream_token "" ≠ "" then some data.stream_token
    else none
  else
    match data.files with
    | some (first :: _) => some first.stream_token
    | _ => none

/-- The click listener installed by `setupPlayButton`, run to completion on
the outcome of its request: the button afterwards and the effect. -/
def onPlayClick (currentMediaType : String) (button : PlayButton)
    (response : Fetched PlayData) : PlayButton × Effect :=
  let loading : PlayButton := { button with disabled := true, innerHTML := "<span>Loading...</span>" }
  match response with
  | .failed => (resetPlayButton loading, .toast "Failed to load media")
  | .ok data =>
    match fileToPlay currentMediaType data with
    | some token =>
      if strOr token "" ≠ "" then (loading, .navigate ("/play?token=" ++ strOr token ""))
      else (resetPlayButton loading, .toast "No files available for this title")
    | none => (resetPlayButton loading, .toast "No files available for this title")

/-- Specification side: the stream token that a response yields, the token of
a movie record or of the first file of a show, none for a failed request. -/
def obtainedToken (currentMediaType : String) : Fetched PlayData → Option String
  | .failed => none
  | .ok data =>
    let candidate :=
      if currentMediaType = "movie" then data.stream_token
      else
        match data.files with
        | some (first :: _) => first.stream_token
        | _ => none
    match candidate with
    | some t => if t = "" then none else some t
    | none => none

/-! ## Detail page: `updatePageWithTVData`, `updatePageWithMovieData` (app.js) -/

/-- An element of `genres`. -/
structure Genre where
  name : Option String
  deriving DecidableEq, Repr, Inhabited

/-- An element of `production_countries`. -/
structure Country where
  name : Option String
  deriving DecidableEq, Repr, Inhabited

/-- The body of `GET /api/tv/{id}` or `GET /api/movie/{id}`: the fields that
the page update reads; `none` is an absent (or `null`) field. -/
structure DetailData where
  name : Option String
  title : Option String
  overview : Option String
  vote_average : Option ℚ
  backdrop_path : Option String
  poster_path : Option String
  first_air_date : Option String
  number_of_seasons : Option Int
  genres : Option (List Genre)
  production_countries : Option (List Country)
  deriving DecidableEq, Repr, Inhabited

/-- The elements of the detail page that the update writes: text of
`.hero-title`, `.hero-description`, `.rating-value`, source of
`.backdrop-img` and `.poster-img`, text of the third and fifth `.meta-item`,
the tags in `.genre-tags`, text of `.info-value`. `none` is an element that
the document does not have. -/
structure DetailPage where
  heroTitle : Option String
  heroDescription : Option String
  ratingValue : Option String
  backdropSrc : Option String
  posterSrc : Option String
  yearItem : Option String
  seasonsItem : Option String
  genreTags : Option (List String)
  infoValue : Option String
  deriving DecidableEq, Repr, Inhabited

/-- How a page update ends: the page at that moment, and whether a
`TypeError` left the function. -/
structure UpdateResult where
  page : DetailPage
  raised : Bool
  deriving DecidableEq, Repr, Inhabited

/-- The statement `if (el) el.textContent = v`: an absent value is written as
the empty text. -/
def setText (el : Option String) (v : Option String) : Option String :=
  el.map (fun _ => v.getD "")

/-- The statement `if (el && path) el.src = prefix + path`. -/
def setSrc (el : Option String) (pre : String) (path : Option String) : Option String :=
  if strOr path "" ≠ "" then el.map (fun _ => pre ++ strOr path "") else el

/-- The function `updateGenres(genres)`: without the container it returns at
once; otherwise the container is emptied and `genres.slice` raises when
`genres` is absent. -/
def updateGenres (p : DetailPage) (genres : Option (List Genre)) : UpdateResult :=
  match p.genreTags with
  | none => { page := p, raised := false }
  | some _ =>
    match genres with
    | none => { page := { p with genreTags := some [] }, raised := true }
    | some gs =>
      { page := { p with genreTags := some ((gs.take 3).map (fun g => g.name.getD "")) }
        raised := false }

/-- The function `updateImages(data)`. -/
def updateImages (p : DetailPage) (data : DetailData) : DetailPage :=
  { p with
    backdropSrc := setSrc p.backdropSrc (TMDB_IMAGE_BASE ++ "/original") data.backdrop_path
    posterSrc := setSrc p.posterSrc (TMDB_IMAGE_BASE ++ "/w500") data.poster_path }

/-- The text written into the seasons item. -/
def seasonsText (n : Option Int) : String :=
  match n with
  | some k => toString k ++ " Season" ++ (if k > 1 then "s" else "")
  | none => "undefined Season"

/-- The statements of `updatePageWithTVData` that follow the rating: backdrop,
poster, year, seasons, genres, production countries. The argument `fullYear`
gives the text of `new Date(s).getFullYear()`, which belongs to the host. -/
def updateTVAfterRating (fullYear : String → String) (p3 : DetailPage) (data : DetailData) :
    UpdateResult :=
  let p4 := { p3 with
    backdropSrc := setSrc p3.backdropSrc (TMDB_IMAGE_BASE ++ "/original") data.backdrop_path }
  let p5 := { p4 with
    posterSrc := setSrc p4.posterSrc (TMDB_IMAGE_BASE ++ "/w500") data.poster_path }
  let p6 := { p5 with
    yearItem :=
      if strOr data.first_air_date "" ≠ "" then
        p5.yearItem.map (fun _ => fullYear (strOr data.first_air_date ""))
      else p5.yearItem }
  let p7 := { p6 with
    seasonsItem := p6.seasonsItem.map (fun _ => seasonsText data.number_of_seasons) }
  let r := updateGenres p7 data.genres
  if r.raised then r
  else
    match data.production_countries with
    | some (c :: cs) =>
      { page := { r.page with
          infoValue := r.page.infoValue.map
            (fun _ => String.intercalate ", " ((c :: cs).map (fun x => x.name.getD ""))) }
        raised := false }
    | _ => r

/-- The function `updatePageWithTVData(data)`. The call
`data.vote_average.toFixed(1)` raises when the rating element exists and the
payload has no `vote_average`. -/
def updatePageWithTVData (fullYear : String → String) (page : DetailPage) (data : DetailData) :
    UpdateResult :=
  let p1 := { page with heroTitle := setText page.heroTitle data.name }
  let p2 := { p1 with heroDescription := setText p1.heroDescription data.overview }
  match p2.ratingValue with
  | none => updateTVAfterRating fullYear p2 data
  | some _ =>
    match data.vote_average with
    | none => { page := p2, raised := true }
    | some average =>
      updateTVAfterRating fullYear { p2 with ratingValue := some (toFixed1 average) } data

/-- The function `updatePageWithMovieData(data)`. -/
def updatePageWithMovieData (page : DetailPage) (data : DetailData) : UpdateResult :=
  let p1 := { page with heroTitle := setText page.heroTitle data.title }
  let p2 := { p1 with heroDescription := setText p1.heroDescription data.overview }
  updateGenres (updateImages p2 data) data.genres

/-- Specification side: an element written from an optional field. A field
that is absent (or empty) leaves the element untouched, a present field
puts `f` of its value into an element that exists. -/
def writeIfPresent (el : Option String) (field : Option String) (f : String → String) :
    Option String :=
  match field with
  | some b => if b = "" then el else el.map (fun _ => f b)
  | none => el

/-- Example data: a page that has every element. -/
def samplePage : DetailPage :=
  { heroTitle := some "old title", heroDescription := some "old text",
    ratingValue := some "0.0", backdropSrc := some "old-backdrop.jpg",
    posterSrc := some "old-poster.jpg", yearItem := some "1999",
    seasonsItem := some "1 Season", genreTags := some ["Old"], infoValue := some "Nowhere" }

/-- Example data: a show payload without `vote_average`. -/
def showWithoutRating : DetailData :=
  { name := some "Show", title := none, overview := some "Synopsis", vote_average := none,
    backdrop_path := some "/b.jpg", poster_path := some "/p.jpg",
    first_air_date := some "2020-01-01", number_of_seasons := some 2,
    genres := some [{ name := some "Drama" }], production_countries := none }

/-- Example data: a movie payload without `genres`. -/
def movieWithoutGenres : DetailData :=
  { name := none, title := some "Film", overview := some "Synopsis", vote_average := some 7,
    backdrop_path := some "/b.jpg", poster_path := some "/p.jpg", first_air_date := none,
    number_of_seasons := none, genres := none, production_countries := none }

/-- Example data: a movie payload with neither `poster_path` nor
`vote_average`. -/
def movieWithoutPosterOrRating : DetailData :=
  { name := none, title := some "Film", overview := some "Synopsis", vote_average := none,
    backdrop_path := some "/b.jpg", poster_path := none, first_air_date := none,
    number_of_seasons := none, genres := some [{ name := some "Drama" }],
    production_countries := none }

/-! ## Recommendation and file grids: `updateRecommendationsInGrid`,
`updateFilesDisplay` (app.js) -/

/-- The markup of the empty state of a recommendations grid. -/
def noRecommendationsMarkup : String :=
  "<p style=\"grid-column: 1/-1; text-align: center; color: var(--text-secondary); padding: 2rem;\">No recommendations available</p>"

/-- The `forEach` of `updateRecommendationsInGrid` on the cards appended so
far: each item gets a card, and the loop stops with a `TypeError` (the flag)
at the first item for which the card builder raises. -/
def appendCards : List MediaItem → List RecCard → List RecCard × Bool
  | [], acc => (acc, false)
  | item :: rest, acc =>
    match createRecommendationCard item with
    | some card => appendCards rest (acc ++ [card])
    | none => (acc, true)

/-- The function `updateRecommendationsInGrid(items, grid)`: the grid
afterwards and whether a `TypeError` left the function. The grid is emptied
first; absent or empty `items` give the empty state, otherwise the first 16
items are appended. -/
def updateRecommendationsInGrid (items : Option (List MediaItem)) (grid : Grid) : Grid × Bool :=
  let cleared : Grid := { grid with markup := "", cards := [] }
  match items with
  | some (item :: rest) =>
    let r := appendCards ((item :: rest).take 16) cleared.cards
    ({ cleared with cards := r.1 }, r.2)
  | _ => ({ cleared with markup := noRecommendationsMarkup }, false)

/-- The function `updateRecommendations(items)`; `none` is a document without
a recommendations grid. -/
def updateRecommendations (grid : Option Grid) (items : Option (List MediaItem)) :
    Option Grid × Bool :=
  match grid with
  | none => (none, false)
  | some g =>
    let r := updateRecommendationsInGrid items g
    (some r.1, r.2)

/-- The element `filesGrid`: the markup last assigned to `innerHTML` and the
file cards appended after it. -/
structure FilesGrid where
  markup : String
  cards : List FileCard
  deriving DecidableEq, Repr, Inhabited

/-- The markup of the empty state of the files grid. -/
def noFilesMarkup : String :=
  "<p style=\"grid-column: 1/-1; text-align: center; color: var(--text-secondary); padding: 2rem;\">No files available</p>"

/-- The function `updateFilesDisplay(files)`; `none` is a document without
the element `filesGrid`. -/
def updateFilesDisplay (grid : Option FilesGrid) (files : List FileRecord) : Option FilesGrid :=
  match grid with
  | none => none
  | some g =>
    let cleared : FilesGrid := { g with markup := "", cards := [] }
    if files.length = 0 then some { cleared with markup := noFilesMarkup }
    else some (files.foldl (fun acc file => { acc with cards := acc.cards ++ [createFileCard file] })
      cleared)

/-! ## Show loader: `loadTVDetails` (app.js) -/

/-- An element of `seasons` in the body of `GET /api/tv/{id}`. -/
structure Season where
  season_number : Option Int
  deriving DecidableEq, Repr, Inhabited

/-- The body of `GET /api/tv/{id}`: the detail fields, the `seasons` array and
`recommendations.results`, each of the last two possibly absent. -/
structure TVBody where
  detail : DetailData
  seasons : Option (List Season)
  recommendations : Option (List MediaItem)
  deriving DecidableEq, Repr, Inhabited

/-- The test `s.season_number > 0` of the `find` callback. -/
def Season.isRegular (s : Season) : Bool :=
  match s.season_number with
  | some n => decide (n > 0)
  | none => false

/-- What a run of `loadTVDetails` leaves: the page, the season number passed
to `loadSeasonEpisodes` (`none` when it is not called), the recommendations
grid, and the message passed to `showToast`, if any. -/
structure TVLoad where
  page : DetailPage
  seasonRequest : Option (Option Int)
  grid : Option Grid
  toast : Option String
  deriving DecidableEq, Repr, Inhabited

/-- The function `loadTVDetails(tvId)`, run on the outcome of its request.
Whatever raises inside `try` (a failed request, a `TypeError` of the page
update or of a card builder) ends in the `catch` clause, which shows the
toast. -/
def loadTVDetails (fullYear : String → String) (page : DetailPage) (grid : Option Grid)
    (response : Fetched TVBody) : TVLoad :=
  match response with
  | .failed =>
    { page := page, seasonRequest := none, grid := grid,
      toast := some "Failed to load TV show details" }
  | .ok data =>
    let r := updatePageWithTVData fullYear page data.detail
    if r.raised then
      { page := r.page, seasonRequest := none, grid := grid,
        toast := some "Failed to load TV show details" }
    else
      let seasonRequest : Option (Option Int) :=
        match data.seasons with
        | some (first :: rest) =>
          (match (first :: rest).find? Season.isRegular with
           | some firstSeason => some firstSeason.season_number
           | none => some first.season_number)
        | _ => none
      match data.recommendations with
      | some results =>
        let u := updateRecommendations grid (some results)
        { page := r.page, seasonRequest := seasonRequest, grid := u.1,
          toast := if u.2 then some "Failed to load TV show details" else none }
      | none => { page := r.page, seasonRequest := seasonRequest, grid := grid, toast := none }

/-- Specification side: the season whose episodes are loaded first, the first
listed season with a number above 0, or the first listed season when there
is none. -/
def firstSeasonToLoad (seasons : List Season) : Option Season :=
  match seasons.filter (fun s => s.isRegular) with
  | s :: _ => some s
  | [] => seasons.head?

/-- Example data: a show with a specials season listed first. -/
def showWithSpecials : TVBody :=
  { detail :=
      { name := some "Show", title := none, overview := some "Synopsis", vote_average := some 8,
        backdrop_path := none, poster_path := none, first_air_date := none,
        number_of_seasons := some 2, genres := some [], production_countries := none }
    seasons := some [{ season_number := some 0 }, { season_number := some 1 },
      { season_number := some 2 }]
    recommendations := none }

/-- Example data: the body of a show without `vote_average` that lists two
seasons. -/
def unratedShowWithSeasons : TVBody :=
  { detail := showWithoutRating
    seasons := some [{ season_number := some 1 }, { season_number := some 2 }]
    recommendations := none }

/-! ## IMDb rating: `fetchIMDBRating` (app.js) -/

/-- The element `.rating-value`: its text and its `style.opacity`. -/
structure RatingElement where
  text : String
  opacity : String
  deriving DecidableEq, Repr, Inhabited

/-- The elements that `fetchIMDBRating` writes: `.rating-value` and the text
of `.rating-source`; `none` is an element that the document does not have.
The votes item appended to `.meta-info` is not part of the model. -/
structure RatingView where
  rating : Option RatingElement
  source : Option String
  deriving DecidableEq, Repr, Inhabited

/-- The body of `GET /api/imdb/{imdbId}`. -/
structure ImdbBody where
  rating : Option String
  votes : Option String
  error : Option String
  deriving DecidableEq, Repr, Inhabited

/-- The function `fetchIMDBRating(imdbId)`, run on the outcome of its request.
Before the request the rating element gets the text `...` and the opacity
0.5. A body with `error`, or without `rating`, sets the opacity back to 1
and returns; the `catch` clause only logs. -/
def fetchIMDBRating (view : RatingView) (imdbId : String) (response : Fetched ImdbBody) :
    RatingView :=
  if imdbId = "" then view
  else
    let loading : RatingView :=
      { view with rating := view.rating.map (fun _ => { text := "...", opacity := "0.5" }) }
    match response with
    | .failed => loading
    | .ok data =>
      if strOr data.error "" ≠ "" ∨ strOr data.rating "" = "" then
        { loading with rating := loading.rating.map (fun e => { e with opacity := "1" }) }
      else
        { rating := loading.rating.map (fun _ => { text := strOr data.rating "", opacity := "1" })
          source := loading.source.map (fun _ => "IMDb") }

/-! ## The loaders and what they emit (app.js, script.js) -/

/-- What a run of a loader emits besides its writes to the page: the first
argument of each call of `console.error` and the message of each call of
`showToast`, in order. -/
structure Emitted where
  consoleErrors : List String
  toasts : List String
  deriving DecidableEq, Repr, Inhabited

/-- A run that neither logs an error nor shows a toast. -/
def Emitted.nothing : Emitted :=
  { consoleErrors := [], toasts := [] }

/-- The label that the `catch` clause of `performSearch` (desktop) and of
`performMobileSearch` (mobile) passes to `console.error`. -/
def searchErrorLabel : Variant → String
  | .desktop => "Search error:"
  | .mobile => "Mobile search error:"

/-- The function `performSearch(query)` (`performMobileSearch(query)`), run on
the outcome of its request: the dropdown afterwards and what is emitted. An
empty query returns before the request. -/
def performSearchRun (v : Variant) (s : SearchState) (query : String)
    (response : Fetched SearchBody) : SearchState × Emitted :=
  if query = "" then (s, Emitted.nothing)
  else
    match response with
    | .failed =>
      (onSearchResponse v s .failed, { consoleErrors := [searchErrorLabel v], toasts := [] })
    | .ok data => (onSearchResponse v s (.ok data), Emitted.nothing)

/-- The function `loadTVDetails(tvId)` with what it emits: its `catch` clause
logs and shows the toast. -/
def loadTVDetailsRun (fullYear : String → String) (page : DetailPage) (grid : Option Grid)
    (response : Fetched TVBody) : TVLoad × Emitted :=
  let r := loadTVDetails fullYear page grid response
  (r,
    match r.toast with
    | some message => { consoleErrors := ["Error loading TV details:"], toasts := [message] }
    | none => Emitted.nothing)

/-- The body of `GET /api/movie/{id}`: the detail fields and
`recommendations.results`, possibly absent. -/
structure MovieBody where
  detail : DetailData
  recommendations : Option (List MediaItem)
  deriving DecidableEq, Repr, Inhabited

/-- What a run of `loadMovieDetails` leaves: the page, the availability
record bound to the play button that `addPlayButton` inserted (`none` when
no button was inserted), the recommendations grid, and what was emitted. -/
structure MovieLoad where
  page : DetailPage
  playFile : Option Availability
  grid : Option Grid
  emitted : Emitted
  deriving DecidableEq, Repr, Inhabited

/-- The `catch` clause of `loadMovieDetails`. -/
def movieCatch : Emitted :=
  { consoleErrors := ["Error loading movie details:"], toasts := ["Failed to load movie details"] }

/-- The function `loadMovieDetails(movieId)`, run on the outcomes of its two
requests (`/api/movie/{id}`, then `/api/media/movie/{id}`); `heroActions`
tells whether the document has the element `.hero-actions`. Whatever raises
inside `try` (a failed request, a `TypeError` of the page update or of a
card builder) ends in the `catch` clause. -/
def loadMovieDetails (page : DetailPage) (heroActions : Bool) (grid : Option Grid)
    (response : Fetched MovieBody) (availableResponse : Fetched Availability) : MovieLoad :=
  match response with
  | .failed => { page := page, playFile := none, grid := grid, emitted := movieCatch }
  | .ok data =>
    let r := updatePageWithMovieData page data.detail
    if r.raised then { page := r.page, playFile := none, grid := grid, emitted := movieCatch }
    else
      match availableResponse with
      | .failed => { page := r.page, playFile := none, grid := grid, emitted := movieCatch }
      | .ok availableFile =>
        let playFile := if availableFile.available && heroActions then some availableFile else none
        match data.recommendations with
        | some results =>
          let u := updateRecommendations grid (some results)
          { page := r.page, playFile := playFile, grid := u.1,
            emitted := if u.2 then movieCatch else Emitted.nothing }
        | none =>
          { page := r.page, playFile := playFile, grid := grid, emitted := Emitted.nothing }

/-- What a run of `loadSeasonEpisodes` leaves: the children of
`heroEpisodesList` and what was emitted. -/
structure SeasonLoad where
  list : Option (List EpisodeRow)
  emitted : Emitted
  deriving DecidableEq, Repr, Inhabited

/-- The `catch` clause of `loadSeasonEpisodes`. -/
def seasonCatch : Emitted :=
  { consoleErrors := ["Error loading season:"], toasts := ["Failed to load episodes"] }

/-- The function `loadSeasonEpisodes(tvId, seasonNumber)`, run on the outcomes
of its two requests; the first body is given by its field `episodes`. With
`episodes` absent the list, if the document has it, is emptied before
`episodes.forEach` raises, and without the list `episodes.length` raises in
`updateEpisodesList`. -/
def loadSeasonEpisodes (list : Option (List EpisodeRow))
    (response : Fetched (Option (List Episode))) (availableResponse : Fetched AvailabilityMap) :
    SeasonLoad :=
  match response with
  | .failed => { list := list, emitted := seasonCatch }
  | .ok episodes =>
    match availableResponse with
    | .failed => { list := list, emitted := seasonCatch }
    | .ok availableFiles =>
      match episodes with
      | some eps =>
        { list := updateEpisodesDisplay list eps availableFiles, emitted := Emitted.nothing }
      | none => { list := list.map (fun _ => []), emitted := seasonCatch }

/-- The function `loadRecommendationsForMedia(type, id)`, run on the outcome
of its request; the body is given by its field `recommendations.results`. -/
def loadRecommendationsForMedia (grid : Option Grid)
    (response : Fetched (Option (List MediaItem))) : Option Grid × Emitted :=
  match response with
  | .failed => (grid, { consoleErrors := ["Error loading recommendations:"], toasts := [] })
  | .ok none => (grid, Emitted.nothing)
  | .ok (some results) =>
    let u := updateRecommendations grid (some results)
    (u.1,
      if u.2 then { consoleErrors := ["Error loading recommendations:"], toasts := [] }
      else Emitted.nothing)

/-- The function `loadTrendingContent()`, run on the outcome of its request on
the grid `trendingGrid`; the body is given by its field `results`. -/
def loadTrendingContent (grid : Option Grid) (response : Fetched (Option (List MediaItem))) :
    Option Grid × Emitted :=
  match response with
  | .failed => (grid, { consoleErrors := ["Error loading trending:"], toasts := [] })
  | .ok (some (item :: rest)) =>
    (match grid with
     | none => (none, Emitted.nothing)
     | some g =>
       let r := appendCards (item :: rest) []
       (some { g with markup := "", cards := r.1 },
         if r.2 then { consoleErrors := ["Error loading trending:"], toasts := [] }
         else Emitted.nothing))
  | .ok _ => (grid, Emitted.nothing)

/-- The label logged by the `catch` clause inside the loop of
`loadTMDBDetailsForRecent` for entry number `i`, if that turn of the loop
ends there: the request failed, or the card builder raised. -/
def recentError (fetchAt : Nat → String → Fetched MediaItem) (i : Nat) (media : MediaEntry) :
    Option String :=
  match fetchAt i (recentEndpoint media) with
  | .failed => some ("Error loading TMDB details for " ++ media.title.toStr ++ ":")
  | .ok data =>
    if data.id.truthy then
      match createRecommendationCard { data with media_type := media.media_type } with
      | some _ => none
      | none => some ("Error loading TMDB details for " ++ media.title.toStr ++ ":")
    else none

/-- The function `loadRecentlyAdded()` with what it emits: its own `catch`
clause and the one inside the loop of `loadTMDBDetailsForRecent` only log. -/
def loadRecentlyAddedRun (fetchAt : Nat → String → Fetched MediaItem) (grid : Option Grid)
    (files : Fetched (List RecentFile)) : Option Grid × Emitted :=
  (loadRecentlyAdded fetchAt grid files,
    match files with
    | .failed => { consoleErrors := ["Error loading recently added:"], toasts := [] }
    | .ok list =>
      if list.length > 0 ∧ grid.isSome then
        { consoleErrors :=
            (getUniqueMediaFromFiles list).enum.filterMap (fun p => recentError fetchAt p.1 p.2)
          toasts := [] }
      else Emitted.nothing)

/-- The function `loadAvailableFiles()`, run on the outcome of its request. -/
def loadAvailableFiles (grid : Option FilesGrid) (response : Fetched (List FileRecord)) :
    Option FilesGrid × Emitted :=
  match response with
  | .failed => (grid, { consoleErrors := ["Error loading files:"], toasts := [] })
  | .ok files => (updateFilesDisplay grid files, Emitted.nothing)

/-- The function `fetchIMDBRating(imdbId)` with what it emits: a body with
`error` or without `rating` is logged inside `try`, a failed request in the
`catch` clause. -/
def fetchIMDBRatingRun (view : RatingView) (imdbId : String) (response : Fetched ImdbBody) :
    RatingView × Emitted :=
  (fetchIMDBRating view imdbId response,
    if imdbId = "" then Emitted.nothing
    else
      match response with
      | .failed => { consoleErrors := ["Error fetching IMDB rating:"], toasts := [] }
      | .ok data =>
        if strOr data.error "" ≠ "" ∨ strOr data.rating "" = "" then
          { consoleErrors := ["Failed to fetch IMDB rating:"], toasts := [] }
        else Emitted.nothing)

/-- Example data: a grid that shows one card. -/
def gridWithCard : Grid :=
  { markup := ""
    cards := [{ posterSrc := "p.jpg", title := "T", ratingText := "7.0", description := "D",
                href := "/tv/1" }] }

/-! ## Navigation targets -/

/-- The click listener of the button that `addPlayButton(fileInfo)` inserts. -/
def addPlayButtonClick (fileInfo : Availability) : Effect :=
  if strOr fileInfo.stream_token "" ≠ "" then
    .navigate ("/play?token=" ++ strOr fileInfo.stream_token "")
  else .toast "Stream not available"

/-- Whether the first list of characters starts the second. -/
def startsChars : List Char → List Char → Bool
  | [], _ => true
  | _ :: _, [] => false
  | a :: p, b :: rest => a == b && startsChars p rest

/-- Specification side: whether a navigation target has one of the three
forms /tv/{id}, /movie/{id}, /play?token={token}. -/
def IsRoute (href : String) : Bool :=
  startsChars "/tv/".toList href.toList || startsChars "/movie/".toList href.toList ||
    startsChars "/play?token=".toList href.toList

/-- Example data: a search result of type person. -/
def personResult : SearchResult :=
  { id := .num 5, media_type := .str "person", title := none, name := some "Ada",
    release_date := none, first_air_date := none, poster_path := none, vote_average := none }

/-- Example data: a trending item of type person. -/
def personItem : MediaItem :=
  { id := .num 5, media_type := .str "person", title := none, name := some "Ada",
    poster_path := none, overview := none, vote_average := some 7 }

/-! ## Specification side of the remaining formatter and key properties -/

/-- The integer `Math.round((bytes / Math.pow(k, i)) * 100)` as a natural
number. -/
def roundedHundredths (bytes : Int) (i : Nat) : Nat :=
  (2 * toDouble (bytes.toNat * 100) + 1024 ^ i) / (2 * 1024 ^ i)

/-- The number that `formatFileSize` prints for a positive byte count:
`Math.round((bytes / Math.pow(k, i)) * 100) / 100` with the index `i` that the
function computes. -/
def printedValue (bytes : Int) : ℚ :=
  (mathRound (scaledHundredfold (asDouble bytes) (sizeIndex (asDouble bytes))) : ℚ) / 100

/-- Specification side: the pair (media_type, tmdb_id) of a file. -/
def pairOf (file : RecentFile) : JsVal × JsVal :=
  (file.media_type, file.tmdb_id)

/-- Specification side: the media type is a string and the id a non-negative
integer. -/
def RecentFile.Plain (file : RecentFile) : Prop :=
  ∃ (t : String) (n : Nat), file.media_type = .str t ∧ file.tmdb_id = .num (n : Int)

/-- Specification side: the media type in the request URL of an entry. -/
def endpointKind (media : MediaEntry) : String :=
  if media.media_type = .str "tv" then "tv" else "movie"

/-- Specification side: the media type in the navigation target of the card
of an entry. -/
def targetKind (media : MediaEntry) : String :=
  if media.media_type.truthy then media.media_type.toStr else "tv"

/-- Example data: two files of one medium and one file of another. -/
def threeFiles : List RecentFile :=
  [ { media_type := .str "tv", tmdb_id := .num 7, title := .str "A", created_at := .null },
    { media_type := .str "movie", tmdb_id := .num 7, title := .str "B", created_at := .null },
    { media_type := .str "tv", tmdb_id := .num 7, title := .str "C", created_at := .null } ]

/-- Example data: an entry without media type, and the record that its
request returns. -/
def untypedEntry : MediaEntry :=
  { tmdb_id := .num 42, media_type := .undefined, title := .str "T", created_at := .null }

/-- Example data: the record returned for `untypedEntry`. -/
def untypedRecord : MediaItem :=
  { id := .num 42, media_type := .str "movie", title := some "T", name := none,
    poster_path := none, overview := none, vote_average := some 7 }

/-! ### Lemmas on the de-duplication fold -/

theorem JsMap.has_iff {β : Type} (m : JsMap β) (key : String) :
    m.has key = true ↔ key ∈ m.map Prod.fst := by
  unfold JsMap.has
  simp only [List.any_eq_true, List.mem_map, beq_iff_eq]

theorem addFile_eq (m : JsMap MediaEntry) (file : RecentFile) :
    addFile m file =
      if mediaKey file ∈ m.map Prod.fst then m else m ++ [(mediaKey file, mediaOf file)] := by
  unfold addFile JsMap.set
  by_cases h : mediaKey file ∈ m.map Prod.fst
  · have h1 : m.has (mediaKey file) = true := (JsMap.has_iff m _).2 h
    simp [h1, h]
  · have h1 : m.has (mediaKey file) = false := by
      cases hb : m.has (mediaKey file) with
      | false => rfl
      | true => exact absurd ((JsMap.has_iff m _).1 hb) h
    simp only [h1, h]
    simp

theorem firstOccurrences_nil : firstOccurrences [] = [] := rfl

theorem firstOccurrences_append_singleton (p : List RecentFile) (f : RecentFile) :
    firstOccurrences (p ++ [f]) =
      if mediaKey f ∈ p.map mediaKey then firstOccurrences p
      else firstOccurrences p ++ [f] := by
  unfold firstOccurrences
  rw [List.enum_append, List.filter_append, List.map_append]
  have hleft : (p.enum.filter
        (fun q => ((p ++ [f]).take q.1).all (fun g => mediaKey g != mediaKey q.2))) =
      (p.enum.filter (fun q => (p.take q.1).all (fun g => mediaKey g != mediaKey q.2))) := by
    apply List.filter_congr
    intro q hq
    have hlt : q.1 < p.length := List.fst_lt_of_mem_enum hq
    rw [List.take_append_of_le_length (Nat.le_of_lt hlt)]
  rw [hleft]
  by_cases h : mediaKey f ∈ p.map mediaKey
  · have hall : (p.all fun g => mediaKey g != mediaKey f) = false := by
      rw [List.all_eq_false]
      obtain ⟨g, hg, hk⟩ := List.mem_map.1 h
      exact ⟨g, hg, by simp [hk]⟩
    simp [h, List.enumFrom_cons, List.filter_cons, hall]
  · have hall : (p.all fun g => mediaKey g != mediaKey f) = true := by
      rw [List.all_eq_true]
      intro g hg
      have : mediaKey g ≠ mediaKey f := fun hk => h (List.mem_map.2 ⟨g, hg, hk⟩)
      simpa using this
    simp [h, List.enumFrom_cons, List.filter_cons, hall]

theorem mem_keys_firstOccurrences (files : List RecentFile) (k : String) :
    k ∈ (firstOccurrences files).map mediaKey ↔ k ∈ files.map mediaKey := by
  induction files using List.reverseRecOn with
  | nil => simp [firstOccurrences_nil]
  | append_singleton p f ih =>
    rw [firstOccurrences_append_singleton]
    by_cases h : mediaKey f ∈ p.map mediaKey
    · rw [if_pos h, ih]
      simp only [List.map_append, List.mem_append, List.map_cons, List.map_nil,
        List.mem_singleton]
      constructor
      · exact fun hk => Or.inl hk
      · rintro (hk | hk)
        · exact hk
        · rw [hk]; exact h
    · rw [if_neg h]
      simp only [List.map_append, List.mem_append, ih]

theorem nodup_keys_firstOccurrences (files : List RecentFile) :
    ((firstOccurrences files).map mediaKey).Nodup := by
  induction files using List.reverseRecOn with
  | nil => simp [firstOccurrences_nil]
  | append_singleton p f ih =>
    rw [firstOccurrences_append_singleton]
    by_cases h : mediaKey f ∈ p.map mediaKey
    · rw [if_pos h]; exact ih
    · rw [if_neg h, List.map_append, List.nodup_append]
      refine ⟨ih, by simp, ?_⟩
      intro k hk1 hk2
      simp only [List.map_cons, List.map_nil, List.mem_singleton] at hk2
      subst hk2
      exact h ((mem_keys_firstOccurrences p _).1 hk1)

theorem foldl_addFile (files : List RecentFile) :
    files.foldl addFile [] =
      (firstOccurrences files).map (fun f => (mediaKey f, mediaOf f)) := by
  induction files using List.reverseRecOn with
  | nil => rfl
  | append_singleton p f ih =>
    rw [List.foldl_append, List.foldl_cons, List.foldl_nil, ih, addFile_eq,
      firstOccurrences_append_singleton]
    have hk : (List.map Prod.fst
        ((firstOccurrences p).map (fun f => (mediaKey f, mediaOf f)))) =
        (firstOccurrences p).map mediaKey := by
      rw [List.map_map]; rfl
    rw [hk]
    by_cases h : mediaKey f ∈ p.map mediaKey
    · rw [if_pos ((mem_keys_firstOccurrences p _).2 h), if_pos h]
    · rw [if_neg (fun h1 => h ((mem_keys_firstOccurrences p _).1 h1)), if_neg h]
      simp

theorem getUniqueMediaFromFiles_eq (files : List RecentFile) :
    getUniqueMediaFromFiles files = ((firstOccurrences files).map mediaOf).take 16 := by
  unfold getUniqueMediaFromFiles JsMap.values
  rw [foldl_addFile, List.map_map]
  rfl

theorem length_firstOccurrences (files : List RecentFile) :
    (firstOccurrences files).length = (distinctKeys files).card := by
  unfold distinctKeys
  have h1 : ((firstOccurrences files).map mediaKey).toFinset = (files.map mediaKey).toFinset := by
    ext k
    simp only [List.mem_toFinset]
    exact mem_keys_firstOccurrences files k
  rw [← h1, List.toFinset_card_of_nodup (nodup_keys_firstOccurrences files), List.length_map]

/-! ### Lemmas on double-precision rounding and `formatFileSize` -/

theorem bitLengthAux_le_iff (fuel : Nat) :
    ∀ n k : Nat, n ≤ fuel → (bitLengthAux fuel n ≤ k ↔ n < 2 ^ k) := by
  induction fuel with
  | zero =>
    intro n k h
    have hn : n = 0 := by omega
    subst hn
    simp [bitLengthAux]
  | succ fuel ih =>
    intro n k h
    unfold bitLengthAux
    by_cases h0 : n = 0
    · subst h0
      simp
    · rw [if_neg h0]
      cases k with
      | zero =>
        simp
        omega
      | succ k =>
        have hle : n / 2 ≤ fuel := by omega
        rw [Nat.add_le_add_iff_right, ih (n / 2) k hle, pow_succ]
        omega

theorem bitLength_le_iff (n k : Nat) : bitLength n ≤ k ↔ n < 2 ^ k :=
  bitLengthAux_le_iff n n k (le_refl n)

theorem toDouble_of_lt (n : Nat) (h : n < 2 ^ 53) : toDouble n = n := by
  have hb : bitLength n - 53 = 0 := by
    have := (bitLength_le_iff n 53).2 h
    omega
  unfold toDouble roundHalfEven
  rw [hb]
  simp [Nat.mod_one]

theorem roundHalfEven_bounds (n d lo hi : Nat) (hd : 0 < d) (hlo : d ∣ lo) (hhi : d ∣ hi)
    (h1 : lo ≤ n) (h2 : n ≤ hi) :
    lo ≤ roundHalfEven n d * d ∧ roundHalfEven n d * d ≤ hi := by
  obtain ⟨c, rfl⟩ := hlo
  obtain ⟨c2, rfl⟩ := hhi
  have hq : c ≤ n / d := (Nat.le_div_iff_mul_le hd).2 (by rw [Nat.mul_comm]; exact h1)
  have hdm := Nat.div_add_mod n d
  have hmod := Nat.mod_lt n hd
  unfold roundHalfEven
  split_ifs with hr
  · constructor
    · calc d * c ≤ d * (n / d + 1) := Nat.mul_le_mul_left d (by omega)
        _ = (n / d + 1) * d := Nat.mul_comm _ _
    · have hpos : 0 < n % d := by
        rcases hr with hr | hr
        · omega
        · omega
      have hlt : n / d < c2 := by
        by_contra hcon
        have hge : c2 ≤ n / d := by omega
        have : d * c2 ≤ d * (n / d) := Nat.mul_le_mul_left d hge
        omega
      calc (n / d + 1) * d ≤ c2 * d := Nat.mul_le_mul_right d (by omega)
        _ = d * c2 := Nat.mul_comm _ _
  · constructor
    · calc d * c ≤ d * (n / d) := Nat.mul_le_mul_left d hq
        _ = n / d * d := Nat.mul_comm _ _
    · calc n / d * d = d * (n / d) := Nat.mul_comm _ _
        _ ≤ n := by omega
        _ ≤ d * c2 := h2

theorem toDouble_bounds (n lo hi m : Nat) (hm : n < 2 ^ m) (hlo : 2 ^ (m - 53) ∣ lo)
    (hhi : 2 ^ (m - 53) ∣ hi) (h1 : lo ≤ n) (h2 : n ≤ hi) :
    lo ≤ toDouble n ∧ toDouble n ≤ hi := by
  have he : bitLength n - 53 ≤ m - 53 := by
    have := (bitLength_le_iff n m).2 hm
    omega
  have hdvd : 2 ^ (bitLength n - 53) ∣ 2 ^ (m - 53) := pow_dvd_pow 2 he
  exact roundHalfEven_bounds n _ lo hi (by positivity) (dvd_trans hdvd hlo)
    (dvd_trans hdvd hhi) h1 h2

theorem pow_bitLength_le (n : Nat) (hn : n ≠ 0) : 2 ^ (bitLength n - 1) ≤ n := by
  by_contra h
  have hlt : n < 2 ^ (bitLength n - 1) := by omega
  have h1 := (bitLength_le_iff n (bitLength n - 1)).2 hlt
  have h2 : bitLength n ≠ 0 := by
    intro h0
    have := (bitLength_le_iff n 0).1 (by omega)
    simp at this
    exact hn this
  omega

theorem lt_pow_bitLength (n : Nat) : n < 2 ^ bitLength n :=
  (bitLength_le_iff n (bitLength n)).1 (le_refl _)

theorem bitLength_mono (a b : Nat) (h : a ≤ b) : bitLength a ≤ bitLength b := by
  rw [bitLength_le_iff]
  exact lt_of_le_of_lt h (lt_pow_bitLength b)

theorem roundHalfEven_mono (a b d : Nat) (hd : 0 < d) (h : a ≤ b) :
    roundHalfEven a d ≤ roundHalfEven b d := by
  have hq : a / d ≤ b / d := Nat.div_le_div_right h
  have ha := Nat.div_add_mod a d
  have hb := Nat.div_add_mod b d
  have hma := Nat.mod_lt a hd
  have hmb := Nat.mod_lt b hd
  rcases Nat.lt_or_ge (a / d) (b / d) with hlt | hge
  · have h1 : roundHalfEven a d ≤ a / d + 1 := by
      unfold roundHalfEven
      split_ifs <;> omega
    have h2 : b / d ≤ roundHalfEven b d := by
      unfold roundHalfEven
      split_ifs <;> omega
    omega
  · have heq : a / d = b / d := by omega
    have hr : a % d ≤ b % d := by
      rw [heq] at ha
      omega
    unfold roundHalfEven
    rw [heq]
    split_ifs with h1 h2 h2
    · exact le_refl _
    · exfalso
      apply h2
      rcases h1 with h1 | h1
      · left; omega
      · rcases Nat.lt_or_ge d (2 * (b % d)) with h3 | h3
        · left; exact h3
        · right
          exact ⟨by omega, h1.2⟩
    · omega
    · exact le_refl _

theorem toDouble_mono (a b : Nat) (h : a ≤ b) : toDouble a ≤ toDouble b := by
  rcases Nat.lt_or_ge (bitLength a) (bitLength b) with hlt | hge
  · have hb0 : b ≠ 0 := by
      intro hb
      subst hb
      have : bitLength 0 = 0 := rfl
      omega
    have h1 : toDouble a ≤ 2 ^ bitLength a :=
      (roundHalfEven_bounds a (2 ^ (bitLength a - 53)) 0 (2 ^ bitLength a) (by positivity)
        (dvd_zero _) (pow_dvd_pow 2 (by omega)) (Nat.zero_le _)
        (le_of_lt (lt_pow_bitLength a))).2
    have h2 : 2 ^ (bitLength b - 1) ≤ toDouble b :=
      (roundHalfEven_bounds b (2 ^ (bitLength b - 53)) (2 ^ (bitLength b - 1)) (2 ^ bitLength b)
        (by positivity) (pow_dvd_pow 2 (by omega)) (pow_dvd_pow 2 (by omega))
        (pow_bitLength_le b hb0) (le_of_lt (lt_pow_bitLength b))).1
    have h3 : 2 ^ bitLength a ≤ 2 ^ (bitLength b - 1) :=
      Nat.pow_le_pow_right (by decide) (by omega)
    omega
  · have heq : bitLength a = bitLength b := le_antisymm (bitLength_mono a b h) hge
    unfold toDouble
    rw [heq]
    exact Nat.mul_le_mul_right _ (roundHalfEven_mono a b _ (by positivity) h)

theorem toDouble_pos (n : Nat) (hn : n ≠ 0) : 0 < toDouble n := by
  have h2 : 2 ^ (bitLength n - 1) ≤ toDouble n :=
    (roundHalfEven_bounds n (2 ^ (bitLength n - 53)) (2 ^ (bitLength n - 1)) (2 ^ bitLength n)
      (by positivity) (pow_dvd_pow 2 (by omega)) (pow_dvd_pow 2 (by omega))
      (pow_bitLength_le n hn) (le_of_lt (lt_pow_bitLength n))).1
  have : 0 < 2 ^ (bitLength n - 1) := by positivity
  omega

theorem asDouble_of_lt (b : Int) (h0 : 0 ≤ b) (h : b < 2 ^ 53) : asDouble b = b := by
  obtain ⟨n, rfl⟩ := Int.eq_ofNat_of_zero_le h0
  have hn : n < 2 ^ 53 := by exact_mod_cast h
  unfold asDouble
  rw [Int.toNat_ofNat, toDouble_of_lt n hn]

theorem quotientFloor_of_lt (a : Nat) (h : a < 2 ^ 53) : quotientFloor a 60 = a / 60 := by
  have hl : bitLength (a / 60) ≤ 48 := by
    rw [bitLength_le_iff]
    have : a / 60 < 2 ^ 53 / 60 + 1 := Nat.lt_succ_of_le (Nat.div_le_div_right (le_of_lt h))
    norm_num at this ⊢
    omega
  unfold quotientFloor
  simp only
  rw [if_neg (by omega)]
  have hF : 32 ≤ 2 ^ (53 - bitLength (a / 60)) := by
    calc 32 = 2 ^ 5 := by norm_num
      _ ≤ 2 ^ (53 - bitLength (a / 60)) := Nat.pow_le_pow_right (by decide) (by omega)
  generalize 2 ^ (53 - bitLength (a / 60)) = F at hF
  have hFpos : 0 < F := by omega
  have hj : a % 60 * F ≤ 59 * F := Nat.mul_le_mul_right F (by omega)
  have hX : a * F = 60 * (a / 60 * F) + a % 60 * F := by
    have := Nat.div_add_mod a 60
    calc a * F = (60 * (a / 60) + a % 60) * F := by rw [this]
      _ = 60 * (a / 60 * F) + a % 60 * F := by ring
  apply Nat.div_eq_of_lt_le
  · unfold roundHalfEven
    split_ifs <;> omega
  · have hsucc : (a / 60).succ * F = a / 60 * F + F := by
      rw [Nat.succ_mul]
    rw [hsucc]
    unfold roundHalfEven
    split_ifs with hr
    · omega
    · omega

theorem sizeIndex_eq (b : Int) (i : Nat) (hlo : (1024 : Int) ^ i ≤ b)
    (hhi : b < (1024 : Int) ^ (i + 1)) (hout : b < 2 ^ 50 - 3 ∨ 2 ^ 50 ≤ b) :
    sizeIndex b = i := by
  unfold sizeIndex
  rw [if_neg (by omega)]
  have hb : 0 ≤ b := le_trans (by positivity) hlo
  obtain ⟨n, rfl⟩ := Int.eq_ofNat_of_zero_le hb
  rw [Int.toNat_ofNat]
  apply Nat.log_eq_of_pow_le_of_lt_pow
  · exact_mod_cast hlo
  · exact_mod_cast hhi

theorem sizeIndex_near_limit (b : Int) (hlo : 2 ^ 50 - 3 ≤ b) (hhi : b < 2 ^ 50) :
    sizeIndex b = 5 := by
  unfold sizeIndex
  rw [if_pos ⟨hlo, hhi⟩]

theorem sizeIndex_mono (a b : Int) (ha : 0 < a) (hab : a ≤ b) : sizeIndex a ≤ sizeIndex b := by
  obtain ⟨n, rfl⟩ := Int.eq_ofNat_of_zero_le (le_of_lt ha)
  obtain ⟨m, rfl⟩ := Int.eq_ofNat_of_zero_le (le_trans (le_of_lt ha) hab)
  have hn : n ≠ 0 := by
    intro h
    rw [h] at ha
    exact absurd ha (by decide)
  have hnm : n ≤ m := by exact_mod_cast hab
  unfold sizeIndex
  simp only [Int.toNat_ofNat]
  split_ifs with h1 h2 h2
  · exact le_refl 5
  · have hm : 1024 ^ 5 ≤ m := by
      have : (2 : Int) ^ 50 ≤ (m : Int) := by omega
      have h2' : ((2 ^ 50 : Nat) : Int) ≤ (m : Int) := by exact_mod_cast this
      have : 2 ^ 50 ≤ m := by exact_mod_cast h2'
      norm_num at this ⊢
      exact this
    exact Nat.le_log_of_pow_le (by decide) hm
  · have hlt : n < 1024 ^ 5 := by
      have : (n : Int) < 2 ^ 50 := by omega
      have h2' : (n : Int) < ((2 ^ 50 : Nat) : Int) := by exact_mod_cast this
      have : n < 2 ^ 50 := by exact_mod_cast h2'
      norm_num at this ⊢
      exact this
    exact le_of_lt (Nat.log_lt_of_lt_pow hn hlt)
  · exact Nat.log_mono_right hnm

theorem mathRound_scaled (b : Int) (i : Nat) :
    mathRound (scaledHundredfold b i) = (roundedHundredths b i : Int) := by
  unfold mathRound scaledHundredfold roundedHundredths
  have h : ((toDouble (b.toNat * 100) : Nat) : ℚ) / (1024 : ℚ) ^ i + 1 / 2 =
      (((2 * toDouble (b.toNat * 100) + 1024 ^ i : Nat) : Int) : ℚ) /
        ((2 * 1024 ^ i : Nat) : ℚ) := by
    push_cast
    field_simp
    ring
  rw [h, Rat.floor_intCast_div_natCast]
  push_cast
  rfl

theorem numberToString_hundredths (z : Int) (hz : 0 ≤ z) :
    numberToString ((z : ℚ) / 100) = hundredthsToString z.toNat := by
  unfold numberToString
  have h : (z : ℚ) / 100 * 100 = ((z : Int) : ℚ) := by
    field_simp
  simp only [h, Int.floor_intCast]
  rw [if_neg (not_lt.2 hz)]

theorem formatFileSize_of_index (b : Int) (i : Nat) (hpos : 0 < b) (hsafe : b < 2 ^ 53)
    (hi : sizeIndex b = i) :
    formatFileSize b = hundredthsToString (roundedHundredths b i) ++ " " ++ unitText i := by
  unfold formatFileSize
  rw [if_neg (ne_of_gt hpos), if_neg (not_lt.2 (le_of_lt hpos))]
  simp only [asDouble_of_lt b (le_of_lt hpos) hsafe, hi, mathRound_scaled]
  rw [numberToString_hundredths _ (Int.natCast_nonneg _), Int.toNat_ofNat]

theorem printedValue_eq (b : Int) (i : Nat) (h0 : 0 ≤ b) (hsafe : b < 2 ^ 53)
    (hi : sizeIndex b = i) :
    printedValue b = ((roundedHundredths b i : Nat) : ℚ) / 100 := by
  unfold printedValue
  rw [asDouble_of_lt b h0 hsafe, hi, mathRound_scaled, Int.cast_natCast]

theorem formatFileSize_printedValue (b : Int) (hpos : 0 < b) :
    formatFileSize b =
      numberToString (printedValue b) ++ " " ++ unitText (sizeIndex (asDouble b)) := by
  unfold formatFileSize printedValue
  rw [if_neg (ne_of_gt hpos), if_neg (not_lt.2 (le_of_lt hpos))]

theorem roundedHundredths_exact (b : Int) (i : Nat) (h0 : 0 ≤ b) (h : 100 * b < 2 ^ 53) :
    (roundedHundredths b i : Int) = (200 * b + 1024 ^ i) / (2 * 1024 ^ i) := by
  obtain ⟨n, rfl⟩ := Int.eq_ofNat_of_zero_le h0
  have hn : n * 100 < 2 ^ 53 := by
    have : ((n * 100 : Nat) : Int) < ((2 ^ 53 : Nat) : Int) := by
      push_cast
      linarith
    exact_mod_cast this
  unfold roundedHundredths
  rw [Int.toNat_ofNat, toDouble_of_lt _ hn]
  push_cast
  congr 1
  ring

theorem roundedHundredths_bounds (b : Int) (i : Nat) (hlo : (1024 : Int) ^ i ≤ b)
    (hhi : b < (1024 : Int) ^ (i + 1)) :
    100 ≤ roundedHundredths b i ∧ roundedHundredths b i ≤ 102400 := by
  have hb : 0 ≤ b := le_trans (by positivity) hlo
  obtain ⟨n, rfl⟩ := Int.eq_ofNat_of_zero_le hb
  have hlo2 : 1024 ^ i ≤ n := by exact_mod_cast hlo
  have hhi2 : n < 1024 ^ (i + 1) := by exact_mod_cast hhi
  have hK : 0 < 1024 ^ i := by positivity
  have e1 : (1024 : Nat) ^ i = 2 ^ (10 * i) := by
    rw [pow_mul]
    norm_num
  have hm : n * 100 < 2 ^ (10 * i + 17) := by
    have : (2 : Nat) ^ (10 * i + 17) = 1024 ^ i * 131072 := by
      rw [pow_add, e1]
      norm_num
    rw [this]
    rw [pow_succ] at hhi2
    omega
  have hdiv : ∀ c : Nat, 2 ^ (10 * i + 17 - 53) ∣ 1024 ^ i * (4 * c) := by
    intro c
    have h4 : (2 : Nat) ^ (10 * i + 2) = 1024 ^ i * 4 := by
      rw [pow_add, e1]
      norm_num
    have : 2 ^ (10 * i + 17 - 53) ∣ 2 ^ (10 * i + 2) := pow_dvd_pow 2 (by omega)
    rw [h4] at this
    have h2 : 1024 ^ i * (4 * c) = 1024 ^ i * 4 * c := by ring
    rw [h2]
    exact Dvd.dvd.mul_right this c
  have hbd := toDouble_bounds (n * 100) (1024 ^ i * (4 * 25)) (1024 ^ i * (4 * 25600))
    (10 * i + 17) hm (hdiv 25) (hdiv 25600) (by omega) (by rw [pow_succ] at hhi2; omega)
  unfold roundedHundredths
  rw [Int.toNat_ofNat]
  generalize toDouble (n * 100) = t at hbd
  generalize 1024 ^ i = K at hbd hK
  constructor
  · rw [Nat.le_div_iff_mul_le (by omega)]
    omega
  · have : (2 * t + K) / (2 * K) < 102401 := by
      rw [Nat.div_lt_iff_lt_mul (by omega)]
      omega
    omega

theorem unitName_eq_sizes (i : Nat) : unitName i = sizes[i]? := by
  match i with
  | 0 => rfl
  | 1 => rfl
  | 2 => rfl
  | 3 => rfl
  | 4 => rfl
  | n + 5 => rfl

theorem round_hundredfold (b : Int) (i : Nat) :
    round ((100 * b : ℚ) / (1024 : ℚ) ^ i) = (200 * b + 1024 ^ i) / (2 * 1024 ^ i) := by
  rw [round_eq]
  have h : (100 * b : ℚ) / (1024 : ℚ) ^ i + 1 / 2 =
      ((200 * b + 1024 ^ i : Int) : ℚ) / ((2 * 1024 ^ i : Nat) : ℚ) := by
    push_cast
    field_simp
    ring
  rw [h, Rat.floor_intCast_div_natCast]
  push_cast
  rfl

/-! ### Lemmas on decimal numerals and `formatDuration` -/

theorem digitChar_isDigit (k : Nat) (hk : k < 10) :
    (Nat.digitChar k).isDigit = true ∧ (Nat.digitChar k).toNat - 48 = k := by
  interval_cases k <;> exact ⟨by decide, by decide⟩

theorem toDigitsCore_spec (fuel : Nat) :
    ∀ (n : Nat) (ds : List Char), n < fuel →
      ∃ l : List Char, Nat.toDigitsCore 10 fuel n ds = l ++ ds ∧
        (∀ c ∈ l, c.isDigit = true) ∧
        ∀ st : Nat × Nat, l.foldl durationStep st = (st.1, st.2 * 10 ^ l.length + n) := by
  induction fuel with
  | zero => intro n ds h; exact absurd h (Nat.not_lt_zero n)
  | succ fuel ih =>
    intro n ds hn
    have hd := digitChar_isDigit (n % 10) (Nat.mod_lt n (by decide))
    unfold Nat.toDigitsCore
    by_cases h0 : n / 10 = 0
    · refine ⟨[Nat.digitChar (n % 10)], by simp [h0], ?_, ?_⟩
      · intro c hc
        rw [List.mem_singleton.1 hc]
        exact hd.1
      · intro st
        have hlt : n < 10 := by omega
        have hm : n % 10 = n := Nat.mod_eq_of_lt hlt
        rw [hm] at hd
        simp only [List.foldl_cons, List.foldl_nil, durationStep, hd.1, if_true, hd.2,
          List.length_singleton, pow_one, hm]
    · have hlt : n / 10 < fuel := by omega
      obtain ⟨l, hl, hdig, hfold⟩ := ih (n / 10) (Nat.digitChar (n % 10) :: ds) hlt
      refine ⟨l ++ [Nat.digitChar (n % 10)], by simp [h0, hl], ?_, ?_⟩
      · intro c hc
        rcases List.mem_append.1 hc with hc | hc
        · exact hdig c hc
        · rw [List.mem_singleton.1 hc]
          exact hd.1
      · intro st
        rw [List.foldl_append, hfold]
        simp only [List.foldl_cons, List.foldl_nil, durationStep, hd.1, if_true, hd.2,
          List.length_append, List.length_singleton]
        congr 1
        rw [pow_succ]
        have := Nat.div_add_mod n 10
        nlinarith [Nat.div_add_mod n 10]

theorem toString_nat_spec (n : Nat) :
    (∀ c ∈ (toString n).toList, c.isDigit = true) ∧
      ∀ st : Nat × Nat, (toString n).toList.foldl durationStep st =
        (st.1, st.2 * 10 ^ (toString n).toList.length + n) := by
  obtain ⟨l, hl, hdig, hfold⟩ := toDigitsCore_spec (n + 1) n [] (Nat.lt_succ_self n)
  have h : (toString n).toList = l := by
    show Nat.toDigits 10 n = l
    unfold Nat.toDigits
    rw [hl, List.append_nil]
  rw [h]
  exact ⟨hdig, hfold⟩

theorem tmod_small (n : Int) : (Int.tmod n 60).natAbs < 2 ^ 53 := by
  have hlt : (Int.tmod n 60).natAbs < 60 := by
    cases n with
    | ofNat k =>
      have h : Int.tmod (Int.ofNat k) 60 = ((k % 60 : Nat) : Int) := rfl
      rw [h, Int.natAbs_ofNat]
      exact Nat.mod_lt k (by decide)
    | negSucc k =>
      have h : Int.tmod (Int.negSucc k) 60 = -(((k + 1) % 60 : Nat) : Int) := rfl
      rw [h, Int.natAbs_neg, Int.natAbs_ofNat]
      exact Nat.mod_lt _ (by decide)
  exact lt_trans hlt (by norm_num)

theorem integerToString_small (v : Int) (h : v.natAbs < 2 ^ 53) :
    integerToString v = toString v := by
  unfold integerToString
  rw [if_pos h]

theorem formatDuration_natCast (n : Nat) (hn : n < 2 ^ 53) :
    formatDuration (n : Int) =
      if 60 ≤ n then toString (n / 60) ++ "h " ++ toString (n % 60) ++ "m"
      else toString n ++ "m" := by
  unfold formatDuration hoursOf
  rw [if_pos (Int.natCast_nonneg n), asDouble_of_lt _ (Int.natCast_nonneg n) (by exact_mod_cast hn)]
  have h2 : Int.tmod (n : Int) 60 = ((n % 60 : Nat) : Int) := by
    rw [Int.tmod_eq_emod (by positivity) (by decide)]
    norm_cast
  have hs : ∀ k : Nat, k < 2 ^ 53 → integerToString (k : Int) = toString k := by
    intro k hk
    unfold integerToString
    rw [if_pos (by simpa using hk)]
    rfl
  have hq : n / 60 < 2 ^ 53 := lt_of_le_of_lt (Nat.div_le_self n 60) hn
  have hr : n % 60 < 2 ^ 53 := lt_of_le_of_lt (Nat.mod_le n 60) hn
  simp only [h2, if_pos (Int.natCast_nonneg n), Int.toNat_ofNat, quotientFloor_of_lt n hn,
    hs _ hq, hs _ hr]
  by_cases h : 60 ≤ n
  · have hpos : ((n / 60 : Nat) : Int) > 0 := by
      have : 0 < n / 60 := Nat.div_pos h (by decide)
      exact_mod_cast this
    rw [if_pos hpos, if_pos h]
  · have hneg : ¬ ((n / 60 : Nat) : Int) > 0 := by
      have : n / 60 = 0 := Nat.div_eq_of_lt (by omega)
      rw [this]
      decide
    rw [if_neg hneg, if_neg h, Nat.mod_eq_of_lt (by omega)]

/-! ### Lemmas on the search client -/

theorem foldl_performSearch (l : List Timer) :
    ∀ st : SearchState,
      (l.foldl (fun st tm => performSearch st tm.query) st) =
        { st with calls := st.calls ++ (l.map (fun tm => tm.query)).filter (fun q => q ≠ "") } := by
  induction l with
  | nil => intro st; simp
  | cons tm l ih =>
    intro st
    rw [List.foldl_cons, ih]
    unfold performSearch
    by_cases hq : tm.query = ""
    · simp [hq]
    · simp [hq]

theorem advance_eq (s : SearchState) (t : Nat) :
    advance s t =
      { s with
        now := max s.now t
        timers := s.timers.filter (fun tm => ¬ tm.due ≤ t)
        calls := s.calls ++
          ((s.timers.filter (fun tm => tm.due ≤ t)).map (fun tm => tm.query)).filter
            (fun q => q ≠ "") } := by
  unfold advance
  simp only [foldl_performSearch]

theorem jsLength_pos_ne_empty (q : String) (h : 2 ≤ jsLength q) : q ≠ "" := by
  intro hq
  rw [hq] at h
  revert h
  decide

theorem onInput_short (s : SearchState) (value : String) (h : jsLength (jsTrim value) < 2) :
    onInput s value = hideSearchResults (clearTimeout s s.searchTimeout) := by
  unfold onInput
  simp only [ge_iff_le, if_neg (not_le.2 h)]

theorem clearTimeout_tracked (s : SearchState) (h : TimersTracked s) :
    (clearTimeout s s.searchTimeout).timers = [] := by
  unfold clearTimeout
  cases hst : s.searchTimeout with
  | none =>
    simp only
    cases htm : s.timers with
    | nil => rfl
    | cons tm rest =>
      have := h tm (by rw [htm]; exact List.mem_cons_self _ _)
      rw [hst] at this
      cases this
  | some id =>
    simp only
    rw [List.filter_eq_nil_iff]
    intro tm htm
    have := h tm htm
    rw [hst] at this
    injection this with hid
    simp [hid]

theorem clearTimeout_fields (s : SearchState) (handle : Option Nat) :
    (clearTimeout s handle).now = s.now ∧ (clearTimeout s handle).calls = s.calls ∧
      (clearTimeout s handle).nextTimerId = s.nextTimerId ∧
      (clearTimeout s handle).searchTimeout = s.searchTimeout := by
  cases handle <;> exact ⟨rfl, rfl, rfl, rfl⟩

theorem tracked_advance (s : SearchState) (t : Nat) (h : TimersTracked s) :
    TimersTracked (advance s t) := by
  rw [advance_eq]
  intro tm htm
  exact h tm (List.mem_of_mem_filter htm)

theorem tracked_onInput (s : SearchState) (value : String) (h : TimersTracked s) :
    TimersTracked (onInput s value) := by
  have hc := clearTimeout_tracked s h
  unfold onInput
  by_cases hlen : jsLength (jsTrim value) ≥ 2
  · simp only [if_pos hlen, showSearchLoading, hc, List.nil_append]
    intro tm htm
    rw [List.mem_singleton.1 htm]
  · simp only [if_neg hlen, hideSearchResults, hc]
    intro tm htm
    cases htm

theorem tracked_onKeypress (v : Variant) (s : SearchState) (key value : String)
    (h : TimersTracked s) : TimersTracked (onKeypress v s key value) := by
  unfold onKeypress performSearch
  cases v <;> simp only <;> split_ifs <;> exact h

theorem tracked_handle (v : Variant) (s : SearchState) (e : SearchEvent)
    (h : TimersTracked s) : TimersTracked (handle v s e) := by
  cases e with
  | input value => exact tracked_onInput s value h
  | keypress key value => exact tracked_onKeypress v s key value h
  | clickOutside => exact h

theorem tracked_of_reachable (v : Variant) (s : SearchState) (h : Reachable v s) :
    TimersTracked s := by
  induction h with
  | init => intro tm htm; cases htm
  | step t e _ ih => exact tracked_handle v _ e (tracked_advance _ t ih)

theorem afterInput_of_pending_ok (s : SearchState) (t : Nat) (val : String)
    (hclear : (clearTimeout s s.searchTimeout).timers = []) (hnow : s.now = t) :
    AfterInput (onInput s val) t val s.calls := by
  obtain ⟨h1, h2, h3, h4⟩ := clearTimeout_fields s s.searchTimeout
  unfold AfterInput onInput
  by_cases hlen : 2 ≤ jsLength (jsTrim val)
  · simp only [ge_iff_le, if_pos hlen, showSearchLoading, hclear, List.nil_append, h1, h2, h3,
      hnow, true_and]
    exact ⟨_, rfl, rfl⟩
  · simp only [ge_iff_le, if_neg hlen, hideSearchResults, hclear, h1, h2, hnow, true_and]

theorem afterInput_first (v : Variant) (s0 : SearchState) (t : Nat) (val : String)
    (htr : TimersTracked s0) (hnow : s0.now ≤ t) :
    AfterInput (stepAt v s0 t (SearchEvent.input val)) t val (advance s0 t).calls := by
  unfold stepAt handle
  apply afterInput_of_pending_ok
  · exact clearTimeout_tracked _ (tracked_advance s0 t htr)
  · rw [advance_eq]
    exact Nat.max_eq_right hnow

theorem afterInput_step (v : Variant) (s : SearchState) (t t2 : Nat) (val val2 : String)
    (c : List String) (h : AfterInput s t val c) (hle : t ≤ t2) (hlt : t2 < t + quietPeriod) :
    AfterInput (stepAt v s t2 (SearchEvent.input val2)) t2 val2 c := by
  obtain ⟨hnow, hcalls, htimers⟩ := h
  have hkeep : ∀ tm ∈ s.timers, tm.due = t + quietPeriod := by
    intro tm htm
    by_cases hlen : 2 ≤ jsLength (jsTrim val)
    · rw [if_pos hlen] at htimers
      obtain ⟨id, hid, _⟩ := htimers
      rw [hid] at htm
      rw [List.mem_singleton.1 htm]
    · rw [if_neg hlen] at htimers
      rw [htimers] at htm
      cases htm
  have hadv : advance s t2 = { s with now := t2 } := by
    rw [advance_eq]
    have h1 : s.timers.filter (fun tm => ¬ tm.due ≤ t2) = s.timers := by
      rw [List.filter_eq_self]
      intro tm htm
      have hdue := hkeep tm htm
      have hgt : ¬ tm.due ≤ t2 := by omega
      simp [hgt]
    have h2 : s.timers.filter (fun tm => tm.due ≤ t2) = [] := by
      rw [List.filter_eq_nil_iff]
      intro tm htm
      have hdue := hkeep tm htm
      have hgt : ¬ tm.due ≤ t2 := by omega
      simp [hgt]
    rw [h1, h2, hnow, Nat.max_eq_right hle]
    simp
  have hclear : (clearTimeout { s with now := t2 } s.searchTimeout).timers = [] := by
    by_cases hlen : 2 ≤ jsLength (jsTrim val)
    · rw [if_pos hlen] at htimers
      obtain ⟨id, hid, hst⟩ := htimers
      rw [hst]
      simp [clearTimeout, hid]
    · rw [if_neg hlen] at htimers
      unfold clearTimeout
      cases s.searchTimeout <;> simp [htimers]
  unfold stepAt handle
  rw [hadv, ← hcalls]
  exact afterInput_of_pending_ok { s with now := t2 } t2 val2 hclear rfl

theorem afterInput_run (v : Variant) (rest : List (Nat × String)) :
    ∀ (s : SearchState) (first : Nat × String) (c : List String),
      AfterInput s first.1 first.2 c → IsBurst (first :: rest) →
        AfterInput (run v s (inputEvents rest))
          ((first :: rest).getLast (List.cons_ne_nil _ _)).1
          ((first :: rest).getLast (List.cons_ne_nil _ _)).2 c := by
  induction rest with
  | nil => intro s first c h _; exact h
  | cons nxt rest ih =>
    intro s first c h hb
    have hb : (first.1 ≤ nxt.1 ∧ nxt.1 < first.1 + quietPeriod) ∧ IsBurst (nxt :: rest) := hb
    have hstep := afterInput_step v s first.1 nxt.1 first.2 nxt.2 c h hb.1.1 hb.1.2
    have := ih (stepAt v s nxt.1 (SearchEvent.input nxt.2)) nxt c hstep hb.2
    rw [List.getLast_cons (List.cons_ne_nil _ _)]
    exact this

theorem afterInput_settle (s : SearchState) (t T : Nat) (val : String) (c : List String)
    (h : AfterInput s t val c) (hT : t + quietPeriod ≤ T) :
    (advance s T).calls =
        c ++ (if 2 ≤ jsLength (jsTrim val) then [jsTrim val] else []) ∧
      (advance s T).timers = [] := by
  obtain ⟨_, hcalls, htimers⟩ := h
  rw [advance_eq]
  by_cases hlen : 2 ≤ jsLength (jsTrim val)
  · rw [if_pos hlen] at htimers
    obtain ⟨id, hid, _⟩ := htimers
    have hne := jsLength_pos_ne_empty _ hlen
    simp [hid, hT, hcalls, hlen, hne]
  · rw [if_neg hlen] at htimers
    simp [htimers, hcalls, hlen]

/-! ## Theorems of the recently-added aggregator -/

/-- C1: for every file list, no two entries of the list returned by
`getUniqueMediaFromFiles` have the same pair (media_type, tmdb_id). -/
theorem getUniqueMediaFromFiles_pairs_distinct (files : List RecentFile) :
    (getUniqueMediaFromFiles files).Pairwise
      (fun a b => ¬ (a.media_type = b.media_type ∧ a.tmdb_id = b.tmdb_id)) := by
  rw [getUniqueMediaFromFiles_eq]
  apply List.Pairwise.sublist (List.take_sublist _ _)
  rw [List.pairwise_map]
  have h := nodup_keys_firstOccurrences files
  unfold List.Nodup at h
  rw [List.pairwise_map] at h
  refine h.imp ?_
  intro f g hne heq
  apply hne
  unfold mediaKey
  have h1 : f.media_type = g.media_type := heq.1
  have h2 : f.tmdb_id = g.tmdb_id := heq.2
  rw [h1, h2]

/-- C2: for every file list, `getUniqueMediaFromFiles` lists one entry per
key in the order in which the keys first occur in the input, and each entry
carries tmdb_id, media_type, title and created_at of the first file with its
key: the output is the image of the first occurrences, cut at 16. -/
theorem getUniqueMediaFromFiles_first_seen (files : List RecentFile) :
    getUniqueMediaFromFiles files = ((firstOccurrences files).map mediaOf).take 16 :=
  getUniqueMediaFromFiles_eq files

/-- C3: for every file list, the output of `getUniqueMediaFromFiles` has at
most 16 entries, exactly min(16, number of distinct keys of the input), and
it consists of the first 16 first occurrences (all of them when there are
fewer). -/
theorem getUniqueMediaFromFiles_length (files : List RecentFile) :
    (getUniqueMediaFromFiles files).length ≤ 16 ∧
    (getUniqueMediaFromFiles files).length = min 16 (distinctKeys files).card ∧
    getUniqueMediaFromFiles files = ((firstOccurrences files).take 16).map mediaOf := by
  rw [getUniqueMediaFromFiles_eq]
  refine ⟨?_, ?_, ?_⟩
  · rw [List.length_take]
    exact Nat.min_le_left _ _
  · rw [List.length_take, List.length_map, length_firstOccurrences]
  · rw [List.map_take]

/-! ## Theorems of the formatters -/

/-- C4: `formatFileSize(0)` is exactly "0 B", and for integer byte counts
0 ≤ a ≤ b the unit magnitude chosen for a is at most the one chosen for b,
where the unit magnitude of a count is the index whose unit `formatFileSize`
prints after the space (index 0 for the count 0). -/
theorem formatFileSize_zero_and_monotone (a b : Int) (ha : 0 ≤ a) (hab : a ≤ b) :
    formatFileSize 0 = "0 B" ∧ unitMagnitude a ≤ unitMagnitude b ∧
      (∃ v, formatFileSize a = v ++ " " ++ unitText (unitMagnitude a)) ∧
      (∃ v, formatFileSize b = v ++ " " ++ unitText (unitMagnitude b)) := by
  have hprint : ∀ c : Int, 0 ≤ c →
      ∃ v, formatFileSize c = v ++ " " ++ unitText (unitMagnitude c) := by
    intro c hc
    unfold unitMagnitude
    by_cases h0 : c = 0
    · subst h0
      exact ⟨"0", rfl⟩
    · rw [if_neg h0]
      exact ⟨_, formatFileSize_printedValue c (lt_of_le_of_ne hc (Ne.symm h0))⟩
  refine ⟨rfl, ?_, hprint a ha, hprint b (le_trans ha hab)⟩
  unfold unitMagnitude
  by_cases h0 : a = 0
  · rw [if_pos h0]
    exact Nat.zero_le _
  · have hb : b ≠ 0 := by omega
    rw [if_neg h0, if_neg hb]
    have hpos : 0 < asDouble a := by
      unfold asDouble
      exact_mod_cast toDouble_pos a.toNat (by omega)
    have hmono : asDouble a ≤ asDouble b := by
      unfold asDouble
      exact_mod_cast toDouble_mono a.toNat b.toNat (Int.toNat_le_toNat hab)
    exact sizeIndex_mono _ _ hpos hmono

/-- Witness of C4 at a = 1000 and b = 2000000. -/
theorem formatFileSize_zero_and_monotone_witness :
    (0 : Int) ≤ 1000 ∧ (1000 : Int) ≤ 2000000 ∧
      (formatFileSize 0 = "0 B" ∧ unitMagnitude 1000 ≤ unitMagnitude 2000000 ∧
        (∃ v, formatFileSize 1000 = v ++ " " ++ unitText (unitMagnitude 1000)) ∧
        (∃ v, formatFileSize 2000000 = v ++ " " ++ unitText (unitMagnitude 2000000))) :=
  ⟨by decide, by decide, formatFileSize_zero_and_monotone 1000 2000000 (by decide) (by decide)⟩

/-- C5, counterexample: for b = 360546355422167 and i = 4 the product
`(b / 1024^4) * 100` is rounded to the double 32791.5, so `formatFileSize(b)`
is "327.92 TB", whereas round(100·b/1024^4)/100 followed by the unit is
"327.91 TB"; and for b = 2^50 - 1, also in the range of i = 4, the result is
"1 undefined". -/
theorem formatFileSize_double_rounding :
    (1024 : Int) ^ 4 ≤ 360546355422167 ∧ (360546355422167 : Int) < 1024 ^ (4 + 1) ∧
      formatFileSize 360546355422167 = "327.92 TB" ∧
      numberToString ((round ((100 * (360546355422167 : Int) : ℚ) / (1024 : ℚ) ^ 4) : ℚ) / 100)
        ++ " " ++ "TB" = "327.91 TB" ∧
      (1024 : Int) ^ 4 ≤ 2 ^ 50 - 1 ∧ ((2 : Int) ^ 50 - 1 < 1024 ^ (4 + 1)) ∧
      formatFileSize (2 ^ 50 - 1) = "1 undefined" := by
  refine ⟨by norm_num, by norm_num, ?_, ?_, by norm_num, by norm_num, ?_⟩
  · rw [formatFileSize_of_index 360546355422167 4 (by decide) (by norm_num)
      (sizeIndex_eq _ 4 (by norm_num) (by norm_num) (by norm_num))]
    decide
  · rw [round_hundredfold, numberToString_hundredths _ (by norm_num)]
    decide
  · rw [formatFileSize_of_index (2 ^ 50 - 1) 5 (by norm_num) (by norm_num)
      (sizeIndex_near_limit _ (by norm_num) (by norm_num))]
    decide

/-- C5, amended: for every integer byte count b < 2^50 - 3 and every i in
0..4 with 1024^i ≤ b < 1024^(i+1), `formatFileSize(b)` is the number
round(p/1024^i)/100, then one space, then the i-th unit of B, KB, MB, GB, TB,
where p is the double nearest to 100·b; and when 100·b < 2^53, so that
p = 100·b, the number is round(100·b/1024^i)/100. -/
theorem formatFileSize_value_and_unit (b : Int) (i : Nat) (hi : i ≤ 4)
    (hlo : (1024 : Int) ^ i ≤ b) (hhi : b < (1024 : Int) ^ (i + 1)) (hlim : b < 2 ^ 50 - 3) :
    ∃ unit, unitName i = some unit ∧
      formatFileSize b =
        numberToString ((round ((toDouble (100 * b).toNat : ℚ) / (1024 : ℚ) ^ i) : ℚ) / 100)
          ++ " " ++ unit ∧
      (100 * b < 2 ^ 53 →
        formatFileSize b =
          numberToString ((round ((100 * b : ℚ) / (1024 : ℚ) ^ i) : ℚ) / 100) ++ " " ++ unit) := by
  have hpos : 0 < b := lt_of_lt_of_le (by positivity) hlo
  have hunit : ∃ unit, unitName i = some unit := by
    interval_cases i <;> exact ⟨_, rfl⟩
  obtain ⟨unit, hu⟩ := hunit
  have hs : unitText i = unit := by
    unfold unitText
    rw [← unitName_eq_sizes, hu]
  have hidx := sizeIndex_eq b i hlo hhi (Or.inl hlim)
  have hsafe53 : b < 2 ^ 53 := by
    have : (2 : Int) ^ 50 - 3 < 2 ^ 53 := by norm_num
    omega
  have hfmt : formatFileSize b =
      numberToString ((round ((toDouble (100 * b).toNat : ℚ) / (1024 : ℚ) ^ i) : ℚ) / 100)
        ++ " " ++ unit := by
    unfold formatFileSize
    rw [if_neg (ne_of_gt hpos), if_neg (not_lt.2 (le_of_lt hpos))]
    simp only [asDouble_of_lt b (le_of_lt hpos) hsafe53, hidx, hs]
    have hr : mathRound (scaledHundredfold b i) =
        round ((toDouble (100 * b).toNat : ℚ) / (1024 : ℚ) ^ i) := by
      unfold mathRound scaledHundredfold
      rw [round_eq]
      have e : b.toNat * 100 = (100 * b).toNat := by
        obtain ⟨n, rfl⟩ := Int.eq_ofNat_of_zero_le (le_of_lt hpos)
        have : (100 : Int) * (n : Int) = ((n * 100 : Nat) : Int) := by
          push_cast
          ring
        rw [this, Int.toNat_ofNat, Int.toNat_ofNat]
      rw [e]
    rw [hr]
  refine ⟨unit, hu, hfmt, ?_⟩
  intro hsafe
  rw [formatFileSize_of_index b i hpos hsafe53 hidx, hs, round_hundredfold,
    ← roundedHundredths_exact b i (le_of_lt hpos) hsafe,
    numberToString_hundredths _ (Int.natCast_nonneg _), Int.toNat_ofNat]

/-- Witness of the amended C5 at b = 1536 and i = 1. -/
theorem formatFileSize_value_and_unit_witness :
    (1 : Nat) ≤ 4 ∧ (1024 : Int) ^ 1 ≤ 1536 ∧ (1536 : Int) < (1024 : Int) ^ (1 + 1) ∧
      (1536 : Int) < 2 ^ 50 - 3 ∧
      ∃ unit, unitName 1 = some unit ∧
        formatFileSize 1536 =
          numberToString ((round ((toDouble (100 * (1536 : Int)).toNat : ℚ) / (1024 : ℚ) ^ 1) : ℚ)
            / 100) ++ " " ++ unit ∧
        (100 * (1536 : Int) < 2 ^ 53 →
          formatFileSize 1536 =
            numberToString ((round ((100 * (1536 : Int) : ℚ) / (1024 : ℚ) ^ 1) : ℚ) / 100)
              ++ " " ++ unit) :=
  ⟨by decide, by decide, by decide, by decide,
    formatFileSize_value_and_unit 1536 1 (by decide) (by decide) (by decide) (by decide)⟩

/-- C6, counterexample: at 1024^5 bytes, and already at 2^50 - 3 bytes, the
index computed by `formatFileSize` is 5, outside the five-entry unit table,
and the result is "1 undefined". -/
theorem formatFileSize_index_out_of_bounds :
    formatFileSize (1024 ^ 5) = "1 undefined" ∧ ¬ sizeIndex (1024 ^ 5) < sizes.length ∧
      formatFileSize (2 ^ 50 - 3) = "1 undefined" ∧ ¬ sizeIndex (2 ^ 50 - 3) < sizes.length := by
  have h1 : sizeIndex (1024 ^ 5) = 5 :=
    sizeIndex_eq (1024 ^ 5) 5 (by norm_num) (by norm_num) (by norm_num)
  have h2 : sizeIndex (2 ^ 50 - 3) = 5 := sizeIndex_near_limit _ (by norm_num) (by norm_num)
  refine ⟨?_, ?_, ?_, ?_⟩
  · rw [formatFileSize_of_index (1024 ^ 5) 5 (by norm_num) (by norm_num) h1]
    decide
  · rw [h1]
    decide
  · rw [formatFileSize_of_index (2 ^ 50 - 3) 5 (by norm_num) (by norm_num) h2]
    decide
  · rw [h2]
    decide

/-- C6, amended: for every integer byte count 0 ≤ b < 2^50 - 3 the index used
to look up the unit table is within its bounds and `formatFileSize(b)` ends
with a space and one of B, KB, MB, GB, TB. -/
theorem formatFileSize_unit_in_table (b : Int) (h0 : 0 ≤ b) (hlt : b < 2 ^ 50 - 3) :
    unitMagnitude b < sizes.length ∧
      ∃ v unit, unit ∈ sizes ∧ sizes[unitMagnitude b]? = some unit ∧
        formatFileSize b = v ++ " " ++ unit := by
  by_cases hb : b = 0
  · subst hb
    exact ⟨by decide, "0", "B", by decide, by decide, by decide⟩
  · have hpos : 0 < b := lt_of_le_of_ne h0 (Ne.symm hb)
    have hsafe53 : b < 2 ^ 53 := by
      have : (2 : Int) ^ 50 - 3 < 2 ^ 53 := by norm_num
      omega
    have hidx : unitMagnitude b = sizeIndex b := by
      unfold unitMagnitude
      rw [if_neg hb, asDouble_of_lt b h0 hsafe53]
    have hlog : sizeIndex b = Nat.log 1024 b.toNat := by
      unfold sizeIndex
      rw [if_neg (by omega)]
    have hn : b.toNat ≠ 0 := by omega
    have hn5 : b.toNat < 1024 ^ 5 := by
      have : b < 1024 ^ 5 := by
        norm_num at hlt ⊢
        omega
      omega
    have hi : sizeIndex b < 5 := by
      rw [hlog]
      exact Nat.log_lt_of_lt_pow hn hn5
    rw [hidx, formatFileSize_printedValue b hpos, asDouble_of_lt b h0 hsafe53]
    refine ⟨hi, ?_⟩
    unfold unitText
    generalize sizeIndex b = i at hi ⊢
    interval_cases i <;> exact ⟨_, _, by decide, rfl, rfl⟩

/-- Witness of the amended C6 at b = 1048575. -/
theorem formatFileSize_unit_in_table_witness :
    (0 : Int) ≤ 1048575 ∧ (1048575 : Int) < 2 ^ 50 - 3 ∧
      (unitMagnitude 1048575 < sizes.length ∧
        ∃ v unit, unit ∈ sizes ∧ sizes[unitMagnitude 1048575]? = some unit ∧
          formatFileSize 1048575 = v ++ " " ++ unit) :=
  ⟨by decide, by decide, formatFileSize_unit_in_table 1048575 (by decide) (by decide)⟩

/-- C7, counterexample: the minute count 10^21 is a double; the quotient
10^21 / 60 is rounded to the double 16666666666666665984, which prints as
16666666666666666000, so `formatDuration(10^21)` is
"16666666666666666000h 40m" and not "16666666666666666666h 40m", and the
total read back from it is not 10^21. -/
theorem formatDuration_beyond_safe_integers :
    (0 : Int) ≤ 10 ^ 21 ∧ (60 : Int) ≤ 10 ^ 21 ∧
      formatDuration (10 ^ 21) = "16666666666666666000h 40m" ∧
      toString ((10 ^ 21 : Int) / 60) ++ "h " ++ toString ((10 ^ 21 : Int) % 60) ++ "m"
        = "16666666666666666666h 40m" ∧
      (readDuration (formatDuration (10 ^ 21)) : Int) ≠ 10 ^ 21 := by
  decide

/-- C7, amended: for every integer minute count 0 ≤ m < 2^53,
`formatDuration(m)` is "{m div 60}h {m mod 60}m" when m ≥ 60 and "{m}m" when
m < 60; the result contains the letter h if and only if m ≥ 60, and the total
60·h + mins read back from the result is m. -/
theorem formatDuration_spec (m : Int) (hm : 0 ≤ m) (hsafe : m < 2 ^ 53) :
    (60 ≤ m → formatDuration m = toString (m / 60) ++ "h " ++ toString (m % 60) ++ "m") ∧
    (m < 60 → formatDuration m = toString m ++ "m") ∧
    ('h' ∈ (formatDuration m).toList ↔ 60 ≤ m) ∧
    (readDuration (formatDuration m) : Int) = m := by
  obtain ⟨n, rfl⟩ := Int.eq_ofNat_of_zero_le hm
  have hn53 : n < 2 ^ 53 := by exact_mod_cast hsafe
  have hfmt := formatDuration_natCast n hn53
  have hh : ¬ (Char.isDigit 'h' = true) := by decide
  refine ⟨?_, ?_, ?_, ?_⟩
  · intro h
    have h60 : 60 ≤ n := by exact_mod_cast h
    rw [hfmt, if_pos h60]
    rfl
  · intro h
    have h60 : ¬ 60 ≤ n := by
      have : n < 60 := by exact_mod_cast h
      omega
    rw [hfmt, if_neg h60]
    rfl
  · by_cases h60 : 60 ≤ n
    · rw [hfmt, if_pos h60]
      have : (60 : Int) ≤ (n : Int) := by exact_mod_cast h60
      simp [this]
    · rw [hfmt, if_neg h60]
      have hn : ¬ (60 : Int) ≤ (n : Int) := by
        intro h
        exact h60 (by exact_mod_cast h)
      simp only [hn, iff_false]
      intro hmem
      rw [String.toList, String.data_append] at hmem
      rcases List.mem_append.1 hmem with hc | hc
      · exact hh ((toString_nat_spec n).1 _ hc)
      · revert hc
        decide
  · rw [hfmt]
    unfold readDuration
    by_cases h60 : 60 ≤ n
    · rw [if_pos h60]
      simp only [String.toList, String.data_append, List.foldl_append]
      have e1 := (toString_nat_spec (n / 60)).2
      have e2 := (toString_nat_spec (n % 60)).2
      simp only [String.toList] at e1 e2
      rw [e1]
      have hmid : List.foldl durationStep ((0 : Nat), 0 * 10 ^ (toString (n / 60)).data.length + n / 60)
          "h ".data = (n / 60, 0) := by
        simp [durationStep, List.foldl]
      rw [hmid, e2]
      have hend : List.foldl durationStep (n / 60, 0 * 10 ^ (toString (n % 60)).data.length + n % 60)
          "m".data = (n / 60, n % 60) := by
        simp [durationStep, List.foldl]
      rw [hend]
      have := Nat.div_add_mod n 60
      push_cast
      omega
    · rw [if_neg h60]
      simp only [String.toList, String.data_append, List.foldl_append]
      have e1 := (toString_nat_spec n).2
      simp only [String.toList] at e1
      rw [e1]
      have hend : List.foldl durationStep ((0 : Nat), 0 * 10 ^ (toString n).data.length + n)
          "m".data = (0, n) := by
        simp [durationStep, List.foldl]
      rw [hend]
      simp

/-- Witness of the amended C7 at m = 125. -/
theorem formatDuration_spec_witness :
    (0 : Int) ≤ 125 ∧ (125 : Int) < 2 ^ 53 ∧
    ((60 ≤ (125 : Int) →
        formatDuration 125 = toString ((125 : Int) / 60) ++ "h " ++ toString ((125 : Int) % 60) ++ "m") ∧
      ((125 : Int) < 60 → formatDuration 125 = toString (125 : Int) ++ "m") ∧
      ('h' ∈ (formatDuration 125).toList ↔ 60 ≤ (125 : Int)) ∧
      (readDuration (formatDuration 125) : Int) = 125) :=
  ⟨by decide, by decide, formatDuration_spec 125 (by decide) (by decide)⟩

/-- C8, counterexample: the negative input -5 is not treated as zero,
`formatFileSize(-5)` is "NaN undefined" and `formatDuration(-5)` is "-5m". -/
theorem formatters_negative_not_zero :
    formatFileSize (-5) = "NaN undefined" ∧ formatFileSize (-5) ≠ "0 B" ∧
      formatDuration (-5) = "-5m" ∧ formatDuration (-5) ≠ "0m" := by
  decide

/-- C8, amended: the input 0 gives "0 B" and "0m", a file record with no
file_size is shown by `createFileCard` as "0 B", and a negative integer n is
not mapped to zero: `formatFileSize(n)` is "NaN undefined" and
`formatDuration(n)` prints the remainder of n by 60 (zero or negative) before
the letter m. -/
theorem formatters_default (file : FileRecord) (n : Int) (hsize : file.file_size = none)
    (hn : n < 0) :
    formatFileSize 0 = "0 B" ∧ formatDuration 0 = "0m" ∧
      (createFileCard file).fileSize = "0 B" ∧
      formatFileSize n = "NaN undefined" ∧
      formatDuration n = toString (Int.tmod n 60) ++ "m" := by
  refine ⟨rfl, by decide, ?_, ?_, ?_⟩
  · simp only [createFileCard, hsize, intOrZero]
    rfl
  · unfold formatFileSize
    rw [if_neg (ne_of_lt hn), if_pos hn]
  · unfold formatDuration hoursOf
    have h : ¬ Int.fdiv n 60 > 0 := by
      rw [Int.fdiv_eq_ediv _ (by decide)]
      omega
    simp only [if_neg (not_le.2 hn), h, if_false, integerToString_small _ (tmod_small n)]

/-- Witness of the amended C8 at a record without file_size and n = -61. -/
theorem formatters_default_witness :
    (FileRecord.mk (some "a.mkv") none none (some "720p") (some "tok")).file_size = none ∧
      ((-61 : Int) < 0) ∧
      (formatFileSize 0 = "0 B" ∧ formatDuration 0 = "0m" ∧
        (createFileCard (FileRecord.mk (some "a.mkv") none none (some "720p") (some "tok"))).fileSize
          = "0 B" ∧
        formatFileSize (-61) = "NaN undefined" ∧
        formatDuration (-61) = toString (Int.tmod (-61) 60) ++ "m") :=
  ⟨rfl, by decide,
    formatters_default (FileRecord.mk (some "a.mkv") none none (some "720p") (some "tok")) (-61)
      rfl (by decide)⟩

/-! ## Theorems of the search client -/

/-- C9, counterexample: a burst of one input event whose trimmed query is the
single letter a issues no search call, also after the quiet period. -/
theorem debounce_short_last_query_no_call :
    IsBurst [(0, "a")] ∧
      (advance (run Variant.desktop SearchState.init (inputEvents [(0, "a")])) 500).calls = [] ∧
      (advance (run Variant.desktop SearchState.init (inputEvents [(0, "a")])) 500).timers = [] := by
  decide

/-- C9, amended: for every burst of N ≥ 1 input events, each less than the
quiet period of 500 ms after the previous one, arriving in any state the
client can be in: once the quiet period has passed after the last event,
exactly one search call has fired since the first listener of the burst
started, with the trimmed query of the last event, when that query has at
least 2 characters, and none has fired otherwise; no timer remains pending. -/
theorem debounce_burst (v : Variant) (s0 : SearchState) (burst : List (Nat × String))
    (T : Nat) (hne : burst ≠ []) (hs : Reachable v s0)
    (hnow : s0.now ≤ (burst.head hne).1) (hburst : IsBurst burst)
    (hT : (burst.getLast hne).1 + quietPeriod ≤ T) :
    (advance (run v s0 (inputEvents burst)) T).calls =
        (advance s0 (burst.head hne).1).calls ++
          (if 2 ≤ jsLength (jsTrim (burst.getLast hne).2) then [jsTrim (burst.getLast hne).2]
           else []) ∧
      (advance (run v s0 (inputEvents burst)) T).timers = [] := by
  cases burst with
  | nil => exact absurd rfl hne
  | cons first rest =>
    have h1 := afterInput_first v s0 first.1 first.2 (tracked_of_reachable v s0 hs) hnow
    have h2 := afterInput_run v rest _ first _ h1 hburst
    exact afterInput_settle _ _ T _ _ h2 hT

/-- Witness of the amended C9: three keystrokes 100 ms and 200 ms apart,
typed while the timer of an earlier query is still pending. -/
theorem debounce_burst_witness :
    Reachable Variant.desktop (stepAt Variant.desktop SearchState.init 0 (SearchEvent.input "xy")) ∧
      IsBurst [(400, "a"), (500, "ab"), (700, " abc ")] ∧
      ((advance (run Variant.desktop
          (stepAt Variant.desktop SearchState.init 0 (SearchEvent.input "xy"))
          (inputEvents [(400, "a"), (500, "ab"), (700, " abc ")])) 1200).calls =
        (advance (stepAt Variant.desktop SearchState.init 0 (SearchEvent.input "xy")) 400).calls ++
          (if 2 ≤ jsLength (jsTrim " abc ") then [jsTrim " abc "] else []) ∧
       (advance (run Variant.desktop
          (stepAt Variant.desktop SearchState.init 0 (SearchEvent.input "xy"))
          (inputEvents [(400, "a"), (500, "ab"), (700, " abc ")])) 1200).timers = []) :=
  ⟨Reachable.step 0 _ Reachable.init, by decide,
    debounce_burst Variant.desktop
      (stepAt Variant.desktop SearchState.init 0 (SearchEvent.input "xy"))
      [(400, "a"), (500, "ab"), (700, " abc ")] 1200
      (by decide) (Reachable.step 0 (SearchEvent.input "xy") Reachable.init)
      (by decide) (by decide) (by decide)⟩

/-- C10: for every input event whose trimmed query has fewer than 2
characters, whatever events preceded it, the input listener leaves no
scheduled search pending, hides the dropdown and issues no search call. -/
theorem short_query_cancels_and_hides (v : Variant) (s : SearchState) (t : Nat)
    (value : String) (hs : Reachable v s) (hshort : jsLength (jsTrim value) < 2) :
    (onInput (advance s t) value).timers = [] ∧
      (onInput (advance s t) value).visible = false ∧
      (onInput (advance s t) value).calls = (advance s t).calls := by
  have htr := tracked_advance s t (tracked_of_reachable v s hs)
  rw [onInput_short _ _ hshort]
  refine ⟨clearTimeout_tracked _ htr, rfl, ?_⟩
  exact (clearTimeout_fields _ _).2.1

/-- Witness of C10: the letter a typed 100 ms after the query ab. -/
theorem short_query_cancels_and_hides_witness :
    Reachable Variant.desktop (stepAt Variant.desktop SearchState.init 0 (SearchEvent.input "ab")) ∧
      jsLength (jsTrim "a") < 2 ∧
      ((onInput (advance (stepAt Variant.desktop SearchState.init 0 (SearchEvent.input "ab")) 100)
          "a").timers = [] ∧
        (onInput (advance (stepAt Variant.desktop SearchState.init 0 (SearchEvent.input "ab")) 100)
          "a").visible = false ∧
        (onInput (advance (stepAt Variant.desktop SearchState.init 0 (SearchEvent.input "ab")) 100)
          "a").calls =
          (advance (stepAt Variant.desktop SearchState.init 0 (SearchEvent.input "ab")) 100).calls) :=
  ⟨Reachable.step 0 _ Reachable.init, by decide,
    short_query_cancels_and_hides Variant.desktop
      (stepAt Variant.desktop SearchState.init 0 (SearchEvent.input "ab")) 100 "a"
      (Reachable.step 0 (SearchEvent.input "ab") Reachable.init) (by decide)⟩

/-- C11, counterexample: on the mobile client the non-empty query a, entered
with the Enter key, issues no search call. -/
theorem enter_mobile_single_letter_no_call :
    jsTrim "a" ≠ "" ∧
      (onKeypress Variant.mobile SearchState.init "Enter" "a").calls = [] ∧
      (onKeypress Variant.desktop SearchState.init "Enter" "a").calls = ["a"] := by
  decide

/-- C11, amended: for every input value, pressing Enter issues a search call
at once, with the trimmed query, exactly when the trimmed query is non-empty
on the desktop client and exactly when it has at least 2 characters on the
mobile client; the pending timer is left as it is. -/
theorem enter_issues_search (s : SearchState) (value : String) :
    (onKeypress Variant.desktop s "Enter" value).calls =
        (if jsTrim value ≠ "" then s.calls ++ [jsTrim value] else s.calls) ∧
      (onKeypress Variant.mobile s "Enter" value).calls =
        (if 2 ≤ jsLength (jsTrim value) then s.calls ++ [jsTrim value] else s.calls) ∧
      (onKeypress Variant.desktop s "Enter" value).timers = s.timers ∧
      (onKeypress Variant.mobile s "Enter" value).timers = s.timers := by
  unfold onKeypress performSearch
  simp only [if_true]
  by_cases hq : jsTrim value = ""
  · have hlen : ¬ 2 ≤ jsLength "" := by decide
    simp [hq, hlen]
  · by_cases hlen : 2 ≤ jsLength (jsTrim value)
    · simp [hq, hlen]
    · simp [hq, hlen]

/-- C12: `displaySearchResults` and `displayMobileSearchResults` render
exactly min(8, |rs|) rows, the rows of the first min(8, |rs|) results in
response order; a 3-result response yields exactly its 3 rows. -/
theorem displaySearchResults_rows (v : Variant) (s : SearchState) (rs : List SearchResult) :
    ∃ rows, (displaySearchResults v s rs).content = DropdownContent.rows rows ∧
      rows.length = min 8 rs.length ∧
      rows = (rs.take 8).map (searchRow v) ∧
      (∀ i, i < min 8 rs.length → rows[i]? = (rs[i]?).map (searchRow v)) ∧
      (∀ r1 r2 r3, (displaySearchResults v s [r1, r2, r3]).content =
        DropdownContent.rows [searchRow v r1, searchRow v r2, searchRow v r3]) := by
  refine ⟨(rs.take 8).map (searchRow v), rfl, ?_, rfl, ?_, ?_⟩
  · rw [List.length_map, List.length_take]
  · intro i hi
    have h8 : i < 8 := lt_of_lt_of_le hi (Nat.min_le_left _ _)
    rw [List.getElem?_map, List.getElem?_take_of_lt h8]
  · intro r1 r2 r3
    rfl

theorem searchRow_click_eq (r : SearchResult) :
    (searchRow Variant.desktop r).click =
        (if r.media_type = JsVal.str "tv" then Effect.navigate (mediaRoute "tv" r.id.toStr)
         else if r.media_type = JsVal.str "movie" then
           Effect.navigate (mediaRoute "movie" r.id.toStr)
         else Effect.nothing) ∧
      (searchRow Variant.mobile r).click =
        Effect.navigate
          (mediaRoute (if r.media_type.truthy then r.media_type.toStr else "movie") r.id.toStr) := by
  constructor
  · unfold searchRow mediaRoute
    simp only
    split_ifs <;> simp [String.append_assoc]
  · unfold searchRow mediaRoute JsVal.orElse
    simp only
    split_ifs <;> simp [JsVal.toStr]

/-- C13, counterexample: a desktop row rendered for a result of type person
does not navigate when it is clicked. -/
theorem desktop_row_person_no_navigation :
    (searchRow Variant.desktop
        { id := .num 5, media_type := .str "person", title := none, name := some "Ada",
          release_date := none, first_air_date := none, poster_path := none,
          vote_average := none }).click = Effect.nothing ∧
      (searchRow Variant.desktop
        { id := .num 5, media_type := .str "person", title := none, name := some "Ada",
          release_date := none, first_air_date := none, poster_path := none,
          vote_average := none }).click ≠ Effect.navigate (mediaRoute "person" "5") := by
  decide

/-- C13, amended: clicking a desktop row navigates to /tv/{id} when the
result's media_type is tv, to /movie/{id} when it is movie, and does nothing
for any other media_type; clicking a mobile row navigates to
/{media_type}/{id}, where movie stands in for an absent or empty
media_type. -/
theorem searchRow_click (r : SearchResult) :
    (searchRow Variant.desktop r).click =
        (if r.media_type = JsVal.str "tv" then Effect.navigate (mediaRoute "tv" r.id.toStr)
         else if r.media_type = JsVal.str "movie" then
           Effect.navigate (mediaRoute "movie" r.id.toStr)
         else Effect.nothing) ∧
      (searchRow Variant.mobile r).click =
        Effect.navigate
          (mediaRoute (if r.media_type.truthy then r.media_type.toStr else "movie") r.id.toStr) := by
  constructor
  · unfold searchRow mediaRoute
    simp only
    split_ifs <;> simp [String.append_assoc]
  · unfold searchRow mediaRoute JsVal.orElse
    simp only
    split_ifs <;> simp [JsVal.toStr]

/-- C14: whatever the outcome of the search request, `performSearch` leaves
the dropdown, shown, in exactly one of three states: the result rows for a
non-empty results list, the no-results state for an empty or absent list,
the error state for a failed fetch or parse; the no-results content differs
from the error content. -/
theorem performSearch_three_states (v : Variant) (s : SearchState)
    (response : Fetched SearchBody) :
    shownOutcome v (onSearchResponse v s response).content = some (expectedOutcome response) ∧
      (onSearchResponse v s response).visible = true ∧
      ((onSearchResponse v s response).content =
        match response with
        | .failed => DropdownContent.message (searchErrorMarkup v)
        | .ok ⟨none⟩ => DropdownContent.message noResultsMarkup
        | .ok ⟨some []⟩ => DropdownContent.message noResultsMarkup
        | .ok ⟨some (r :: rs)⟩ => DropdownContent.rows (((r :: rs).take 8).map (searchRow v))) ∧
      DropdownContent.message noResultsMarkup ≠ DropdownContent.message (searchErrorMarkup v) := by
  have hne : noResultsMarkup ≠ searchErrorMarkup v := by
    cases v <;> decide
  refine ⟨?_, ?_, ?_, ?_⟩
  · cases response with
    | failed =>
      simp only [onSearchResponse, displaySearchError, shownOutcome, expectedOutcome]
      rw [if_neg (Ne.symm hne)]
      simp
    | ok data =>
      obtain ⟨results⟩ := data
      cases results with
      | none => simp [onSearchResponse, displayNoResults, shownOutcome, expectedOutcome]
      | some rs =>
        cases rs with
        | nil => simp [onSearchResponse, displayNoResults, shownOutcome, expectedOutcome]
        | cons r rs =>
          simp [onSearchResponse, displaySearchResults, shownOutcome, expectedOutcome]
  · cases response with
    | failed => rfl
    | ok data =>
      obtain ⟨results⟩ := data
      cases results with
      | none => rfl
      | some rs =>
        cases rs with
        | nil => rfl
        | cons r rs => simp [onSearchResponse, displaySearchResults]
  · cases response with
    | failed => rfl
    | ok data =>
      obtain ⟨results⟩ := data
      cases results with
      | none => rfl
      | some rs =>
        cases rs with
        | nil => rfl
        | cons r rs => simp [onSearchResponse, displaySearchResults]
  · intro h
    injection h with h1
    exact hne h1

/-! ## Theorems of the recently-added grid -/

theorem recentStep_eq (fetchAt : Nat → String → Fetched MediaItem)
    (n : Nat) (acc : List RecCard) (media : MediaEntry) :
    recentStep fetchAt (n, acc) media =
      (n + 1, acc ++ (cardOfEntry fetchAt n media).toList) := by
  unfold recentStep cardOfEntry
  cases h : fetchAt n (recentEndpoint media) with
  | failed => simp
  | ok d =>
    by_cases hid : d.id.truthy = true
    · simp only [hid, if_true]
      cases createRecommendationCard { d with media_type := media.media_type } <;> simp
    · simp [hid]

theorem foldl_recentStep (fetchAt : Nat → String → Fetched MediaItem) (l : List MediaEntry) :
    ∀ (n : Nat) (acc : List RecCard),
      l.foldl (recentStep fetchAt) (n, acc) =
        (n + l.length,
          acc ++ (l.enumFrom n).filterMap (fun p => cardOfEntry fetchAt p.1 p.2)) := by
  induction l with
  | nil => intro n acc; simp
  | cons media l ih =>
    intro n acc
    rw [List.foldl_cons, recentStep_eq fetchAt, ih]
    simp only [List.length_cons, List.enumFrom_cons, List.filterMap_cons]
    cases hc : cardOfEntry fetchAt n media with
    | none => simp [Nat.add_comm, Nat.add_left_comm]
    | some card => simp [Nat.add_comm, Nat.add_left_comm]

theorem recentCards_eq (fetchAt : Nat → String → Fetched MediaItem)
    (mediaList : List MediaEntry) :
    recentCards fetchAt mediaList =
      mediaList.enum.filterMap (fun p => cardOfEntry fetchAt p.1 p.2) := by
  unfold recentCards
  rw [foldl_recentStep fetchAt]
  simp [List.enum]

theorem cardOfEntry_isSome (fetchAt : Nat → String → Fetched MediaItem)
    (hv : RatedReplies fetchAt) (i : Nat) (media : MediaEntry) :
    (cardOfEntry fetchAt i media).isSome = recordWithId fetchAt i media := by
  unfold cardOfEntry recordWithId
  cases h : fetchAt i (recentEndpoint media) with
  | failed => rfl
  | ok d =>
    have hva : d.vote_average.isSome = true := hv _ _ _ h
    simp only
    by_cases hid : d.id.truthy = true
    · rw [if_pos hid, hid]
      unfold createRecommendationCard
      cases hr : d.vote_average with
      | none => rw [hr] at hva; cases hva
      | some r => rfl
    · rw [if_neg hid]
      simp only [Bool.not_eq_true] at hid
      rw [hid]
      rfl

theorem length_filterMap_eq {α β : Type} (f : α → Option β) (l : List α) :
    (l.filterMap f).length = (l.filter (fun x => (f x).isSome)).length := by
  induction l with
  | nil => rfl
  | cons x l ih =>
    rw [List.filterMap_cons, List.filter_cons]
    cases h : f x with
    | none => simpa using ih
    | some y => simpa using ih

theorem loadRecentlyAdded_zero_cards_message (fetchAt : Nat → String → Fetched MediaItem)
    (g : Grid) (files : List RecentFile) (hne : files ≠ []) :
    ∃ g2, loadRecentlyAdded fetchAt (some g) (Fetched.ok files) = some g2 ∧
      (g2.cards = [] → g2.markup = noRecentMarkup) := by
  have hlen : files.length > 0 := List.length_pos.2 hne
  unfold loadRecentlyAdded loadTMDBDetailsForRecent
  simp only [hlen, if_true]
  split_ifs with h
  · exact ⟨_, rfl, fun _ => rfl⟩
  · refine ⟨_, rfl, ?_⟩
    intro hc
    have hc2 : recentCards fetchAt (getUniqueMediaFromFiles files) = [] := hc
    exact absurd (by rw [hc2]; rfl) h

/-- C15, counterexample: a request that succeeds with a body without id
yields no card: for one entry whose request returns such a body the grid
gets zero cards and shows the empty state, although the request succeeded. -/
theorem recent_record_without_id_no_card :
    fetchSucceeded replyWithoutId 0 untypedEntry = true ∧
      recentCards replyWithoutId [untypedEntry] = [] ∧
      loadTMDBDetailsForRecent replyWithoutId (some { markup := "", cards := [] })
        [untypedEntry] = some { markup := noRecentMarkup, cards := [] } := by
  decide

/-- C15, amended: for every list of unique media and every assignment of
outcomes to the per-item requests, a failure or a metadata record that
carries a vote_average, `loadTMDBDetailsForRecent` appends exactly one card
per entry whose request returned a record with a truthy id, in input order;
a failure, or a record without id, at one entry does not stop the entries
after it. The grid holds exactly these cards. -/
theorem loadTMDBDetailsForRecent_cards (fetchAt : Nat → String → Fetched MediaItem)
    (g : Grid) (mediaList : List MediaEntry) (hv : RatedReplies fetchAt) :
    recentCards fetchAt mediaList =
        mediaList.enum.filterMap (fun p => cardOfEntry fetchAt p.1 p.2) ∧
      (recentCards fetchAt mediaList).length =
        (mediaList.enum.filter (fun p => recordWithId fetchAt p.1 p.2)).length ∧
      ∃ g2, loadTMDBDetailsForRecent fetchAt (some g) mediaList = some g2 ∧
        g2.cards = recentCards fetchAt mediaList := by
  have h1 := recentCards_eq fetchAt mediaList
  refine ⟨h1, ?_, ?_⟩
  · rw [h1, length_filterMap_eq]
    congr 1
    apply List.filter_congr
    intro p _
    exact cardOfEntry_isSome fetchAt hv p.1 p.2
  · unfold loadTMDBDetailsForRecent
    simp only
    split_ifs with h
    · exact ⟨_, rfl, (List.length_eq_zero.1 h).symm⟩
    · exact ⟨_, rfl, rfl⟩

/-- Witness of the amended C15: five unique entries, the third request
failing, give exactly four cards. -/
theorem loadTMDBDetailsForRecent_cards_witness :
    RatedReplies thirdFails ∧
      (recentCards thirdFails fiveEntries =
        fiveEntries.enum.filterMap (fun p => cardOfEntry thirdFails p.1 p.2) ∧
      (recentCards thirdFails fiveEntries).length =
        (fiveEntries.enum.filter (fun p => recordWithId thirdFails p.1 p.2)).length ∧
      ∃ g2, loadTMDBDetailsForRecent thirdFails (some { markup := "", cards := [] })
          fiveEntries = some g2 ∧
        g2.cards = recentCards thirdFails fiveEntries) ∧
      (recentCards thirdFails fiveEntries).length = 4 :=
  have hv : RatedReplies thirdFails := by
    intro i u d h
    unfold thirdFails at h
    split_ifs at h
    injection h with h1
    subst h1
    rfl
  ⟨hv, loadTMDBDetailsForRecent_cards thirdFails { markup := "", cards := [] } fiveEntries hv,
    by decide⟩

/-- C16, failing input: for an empty recent-files list `loadRecentlyAdded`
leaves the grid as it is; an empty grid stays empty and shows no message. -/
theorem loadRecentlyAdded_empty_list (fetchAt : Nat → String → Fetched MediaItem)
    (grid : Option Grid) :
    loadRecentlyAdded fetchAt grid (Fetched.ok []) = grid ∧
      loadRecentlyAdded fetchAt (some { markup := "", cards := [] }) (Fetched.ok []) =
        some { markup := "", cards := [] } ∧
      ("" : String) ≠ noRecentMarkup := by
  refine ⟨rfl, rfl, by decide⟩

/-! ## Theorems of the episode rows -/

/-- C17: for every episode list and availability map, `updateEpisodesDisplay`
renders exactly one row per episode, in list order; a row is available if
and only if the map has an entry under the episode's number whose available
flag is set; an episode with no entry is rendered locked, without a click
listener. -/
theorem updateEpisodesDisplay_rows (old : List EpisodeRow) (episodes : List Episode)
    (availableFiles : AvailabilityMap) :
    ∃ rows, updateEpisodesDisplay (some old) episodes availableFiles = some rows ∧
      rows.length = episodes.length ∧
      rows = episodes.map (episodeRow availableFiles) ∧
      (∀ e : Episode,
        (episodeRow availableFiles e).episodeNum = e.episode_number.toStr ∧
        ((episodeRow availableFiles e).unavailable = false ↔
          ∃ a, availableFiles e.episode_number.toStr = some a ∧ a.available = true) ∧
        (availableFiles e.episode_number.toStr = none →
          (episodeRow availableFiles e).unavailable = true ∧
          (episodeRow availableFiles e).click = none)) := by
  refine ⟨episodes.map (episodeRow availableFiles), rfl, List.length_map _ _, rfl, ?_⟩
  intro e
  refine ⟨rfl, ?_, ?_⟩
  · unfold episodeRow
    cases h : availableFiles e.episode_number.toStr with
    | none => simp [h]
    | some a => simp [h]
  · intro h
    unfold episodeRow
    simp [h]

theorem episodeRow_click_eq (availableFiles : AvailabilityMap) (e : Episode) :
    (episodeRow availableFiles e).click =
        (match availableFiles e.episode_number.toStr with
         | some a =>
           if a.available then
             (match a.stream_token with
              | some t =>
                if t = "" then some (Effect.toast "Stream not available")
                else some (Effect.navigate ("/play?token=" ++ t))
              | none => some (Effect.toast "Stream not available"))
           else none
         | none => none) := by
  unfold episodeRow playEpisode
  cases h : availableFiles e.episode_number.toStr with
  | none => simp [h]
  | some a =>
    obtain ⟨av, tok⟩ := a
    cases av with
    | false => simp [h]
    | true =>
      cases tok with
      | none => simp [h, strOr]
      | some t =>
        by_cases ht : t = ""
        · simp [h, strOr, ht]
        · simp [h, strOr, ht]

/-- C18, counterexample: an available row whose record has no stream token
shows a notice when it is clicked and does not navigate. -/
theorem available_row_without_token_toast :
    (episodeRow (fun _ => some { available := true, stream_token := none })
        { episode_number := .num 1, name := .str "Pilot", still_path := none,
          runtime := none }).unavailable = false ∧
      (episodeRow (fun _ => some { available := true, stream_token := none })
        { episode_number := .num 1, name := .str "Pilot", still_path := none,
          runtime := none }).click = some (Effect.toast "Stream not available") := by
  decide

/-- C18, amended: clicking an available episode row navigates to
/play?token={t}, with t the stream token of the episode's availability
record, when that record has a non-empty token, and shows the notice
"Stream not available" otherwise; a locked row has no click listener. -/
theorem episodeRow_click (availableFiles : AvailabilityMap) (e : Episode) :
    (episodeRow availableFiles e).click =
        (match availableFiles e.episode_number.toStr with
         | some a =>
           if a.available then
             (match a.stream_token with
              | some t =>
                if t = "" then some (Effect.toast "Stream not available")
                else some (Effect.navigate ("/play?token=" ++ t))
              | none => some (Effect.toast "Stream not available"))
           else none
         | none => none) ∧
      ((episodeRow availableFiles e).unavailable = true ↔
        (episodeRow availableFiles e).click = none) := by
  unfold episodeRow playEpisode
  cases h : availableFiles e.episode_number.toStr with
  | none => simp [h]
  | some a =>
    obtain ⟨av, tok⟩ := a
    cases av with
    | false => simp [h]
    | true =>
      cases tok with
      | none => simp [h, strOr]
      | some t =>
        by_cases ht : t = ""
        · simp [h, strOr, ht]
        · simp [h, strOr, ht]

/-! ## Theorems of the play button -/

/-- C19: for every response to the play-button request, a stream token t that
is obtained makes the listener navigate to /play?token=t; otherwise the
listener shows a notice ("No files available for this title" when there was
a response) and the button ends enabled with the Play Now markup. Either the
listener navigates or the button is enabled again. -/
theorem onPlayClick_outcome (currentMediaType : String) (button : PlayButton)
    (response : Fetched PlayData) :
    (match obtainedToken currentMediaType response with
     | some t =>
       (onPlayClick currentMediaType button response).2 = Effect.navigate ("/play?token=" ++ t)
     | none =>
       (onPlayClick currentMediaType button response).1 =
           { disabled := false, innerHTML := playNowMarkup } ∧
         (onPlayClick currentMediaType button response).2 =
           Effect.toast
             (match response with
              | .failed => "Failed to load media"
              | .ok _ => "No files available for this title")) ∧
      ((∃ href, (onPlayClick currentMediaType button response).2 = Effect.navigate href) ∨
        (onPlayClick currentMediaType button response).1.disabled = false) := by
  cases response with
  | failed =>
    refine ⟨⟨rfl, rfl⟩, Or.inr rfl⟩
  | ok data =>
    obtain ⟨tok, av, files⟩ := data
    unfold onPlayClick obtainedToken fileToPlay resetPlayButton
    by_cases hm : currentMediaType = "movie"
    · cases tok with
      | none => simp [hm, strOr]
      | some t =>
        by_cases ht : t = ""
        · simp [hm, strOr, ht]
        · simp [hm, strOr, ht]
    · cases files with
      | none => simp [hm]
      | some fs =>
        cases fs with
        | nil => simp [hm]
        | cons first rest =>
          obtain ⟨ftok⟩ := first
          cases ftok with
          | none => simp [hm, strOr]
          | some t =>
            by_cases ht : t = ""
            · simp [hm, strOr, ht]
            · simp [hm, strOr, ht]

/-! ## Theorems of the detail page -/

theorem setSrc_eq (el : Option String) (pre : String) (path : Option String) :
    setSrc el pre path = writeIfPresent el path (fun b => pre ++ b) := by
  unfold setSrc writeIfPresent strOr
  cases path with
  | none => simp
  | some b =>
    by_cases hb : b = ""
    · simp [hb]
    · simp [hb]

theorem updateGenres_present (p : DetailPage) (gs : List Genre) :
    updateGenres p (some gs) =
      { page := { p with
          genreTags := p.genreTags.map (fun _ => (gs.take 3).map (fun g => g.name.getD "")) }
        raised := false } := by
  unfold updateGenres
  cases h : p.genreTags with
  | none =>
    simp only [Option.map_none']
    rw [← h]
  | some tags => simp

/-- C20, counterexample: with the rating element on the page, a show payload
without vote_average makes the update raise before the backdrop, the poster
and the later fields are written, although the payload carries them; a movie
payload without genres makes the update raise as well. -/
theorem update_raises_on_missing_rating_or_genres :
    (updatePageWithTVData (fun d => d) samplePage showWithoutRating).raised = true ∧
      (updatePageWithTVData (fun d => d) samplePage showWithoutRating).page.posterSrc =
        some "old-poster.jpg" ∧
      (updatePageWithTVData (fun d => d) samplePage showWithoutRating).page.genreTags =
        some ["Old"] ∧
      (updatePageWithMovieData samplePage movieWithoutGenres).raised = true := by
  decide

/-- C20, amended: for every detail payload that carries genres, and
vote_average when it is a show, in which backdrop_path, poster_path,
first_air_date or production_countries (or, in a movie, vote_average) may be
absent or null, the page update completes without raising, leaves the
element of each absent field untouched and writes every other field; a movie
payload with poster_path null leaves the poster image unchanged while title
and synopsis are set. -/
theorem update_tolerates_optional_fields (fullYear : String → String) (page : DetailPage)
    (data : DetailData) (gs : List Genre) (hg : data.genres = some gs) :
    (∀ r : ℚ, data.vote_average = some r →
      updatePageWithTVData fullYear page data =
        { page :=
            { heroTitle := page.heroTitle.map (fun _ => data.name.getD "")
              heroDescription := page.heroDescription.map (fun _ => data.overview.getD "")
              ratingValue := page.ratingValue.map (fun _ => toFixed1 r)
              backdropSrc := writeIfPresent page.backdropSrc data.backdrop_path
                (fun b => "https://image.tmdb.org/t/p/original" ++ b)
              posterSrc := writeIfPresent page.posterSrc data.poster_path
                (fun b => "https://image.tmdb.org/t/p/w500" ++ b)
              yearItem := writeIfPresent page.yearItem data.first_air_date fullYear
              seasonsItem := page.seasonsItem.map (fun _ => seasonsText data.number_of_seasons)
              genreTags := page.genreTags.map (fun _ => (gs.take 3).map (fun g => g.name.getD ""))
              infoValue :=
                (match data.production_countries with
                 | some (c :: cs) =>
                   page.infoValue.map
                     (fun _ => String.intercalate ", " ((c :: cs).map (fun x => x.name.getD "")))
                 | _ => page.infoValue) }
          raised := false }) ∧
      updatePageWithMovieData page data =
        { page :=
            { page with
              heroTitle := page.heroTitle.map (fun _ => data.title.getD "")
              heroDescription := page.heroDescription.map (fun _ => data.overview.getD "")
              backdropSrc := writeIfPresent page.backdropSrc data.backdrop_path
                (fun b => "https://image.tmdb.org/t/p/original" ++ b)
              posterSrc := writeIfPresent page.posterSrc data.poster_path
                (fun b => "https://image.tmdb.org/t/p/w500" ++ b)
              genreTags := page.genreTags.map (fun _ => (gs.take 3).map (fun g => g.name.getD "")) }
          raised := false } ∧
      (data.poster_path = none →
        (updatePageWithMovieData page data).page.posterSrc = page.posterSrc ∧
        (updatePageWithMovieData page data).page.heroTitle =
          page.heroTitle.map (fun _ => data.title.getD "") ∧
        (updatePageWithMovieData page data).page.heroDescription =
          page.heroDescription.map (fun _ => data.overview.getD "")) := by
  have hbase1 : TMDB_IMAGE_BASE ++ "/original" = "https://image.tmdb.org/t/p/original" := by
    decide
  have hbase2 : TMDB_IMAGE_BASE ++ "/w500" = "https://image.tmdb.org/t/p/w500" := by
    decide
  have hyear : ∀ el : Option String,
      (if strOr data.first_air_date "" ≠ "" then
          el.map (fun _ => fullYear (strOr data.first_air_date ""))
        else el) = writeIfPresent el data.first_air_date fullYear := by
    intro el
    unfold writeIfPresent strOr
    cases data.first_air_date with
    | none => simp
    | some d =>
      by_cases hd : d = ""
      · simp [hd]
      · simp [hd]
  have hmovie : updatePageWithMovieData page data =
      { page :=
          { page with
            heroTitle := page.heroTitle.map (fun _ => data.title.getD "")
            heroDescription := page.heroDescription.map (fun _ => data.overview.getD "")
            backdropSrc := writeIfPresent page.backdropSrc data.backdrop_path
              (fun b => "https://image.tmdb.org/t/p/original" ++ b)
            posterSrc := writeIfPresent page.posterSrc data.poster_path
              (fun b => "https://image.tmdb.org/t/p/w500" ++ b)
            genreTags := page.genreTags.map (fun _ => (gs.take 3).map (fun g => g.name.getD "")) }
        raised := false } := by
    unfold updatePageWithMovieData updateImages
    rw [hg, updateGenres_present]
    simp only [setSrc_eq, setText, hbase1, hbase2]
  refine ⟨?_, hmovie, ?_⟩
  · intro r hr
    unfold updatePageWithTVData updateTVAfterRating
    simp only [hr, hg, updateGenres_present, setSrc_eq, setText, hbase1, hbase2, hyear]
    cases hrv : page.ratingValue with
    | none =>
      cases hc : data.production_countries with
      | none => simp [hrv]
      | some cs =>
        cases cs with
        | nil => simp [hrv]
        | cons c cs => simp [hrv]
    | some old =>
      cases hc : data.production_countries with
      | none => simp [hrv]
      | some cs =>
        cases cs with
        | nil => simp [hrv]
        | cons c cs => simp [hrv]
  · intro hp
    rw [hmovie]
    simp [hp, writeIfPresent]

/-- Witness of the amended C20: a movie payload whose poster_path is null
and that has no vote_average. -/
theorem update_tolerates_optional_fields_witness :
    movieWithoutPosterOrRating.genres = some [{ name := some "Drama" }] ∧
      movieWithoutPosterOrRating.poster_path = none ∧
      movieWithoutPosterOrRating.vote_average = none ∧
      (updatePageWithMovieData samplePage movieWithoutPosterOrRating).raised = false ∧
      (updatePageWithMovieData samplePage movieWithoutPosterOrRating).page.posterSrc =
        samplePage.posterSrc ∧
      (updatePageWithMovieData samplePage movieWithoutPosterOrRating).page.heroTitle =
        some "Film" ∧
      (updatePageWithMovieData samplePage movieWithoutPosterOrRating).page.heroDescription =
        some "Synopsis" :=
  ⟨rfl, rfl, rfl,
    congrArg UpdateResult.raised
      (update_tolerates_optional_fields (fun d => d) samplePage movieWithoutPosterOrRating
        [{ name := some "Drama" }] rfl).2.1,
    ((update_tolerates_optional_fields (fun d => d) samplePage movieWithoutPosterOrRating
      [{ name := some "Drama" }] rfl).2.2 rfl)⟩

/-! ## Theorems of the show loader and of failure handling -/

theorem firstSeasonToLoad_eq (first : Season) (rest : List Season) :
    firstSeasonToLoad (first :: rest) =
      (match (first :: rest).find? Season.isRegular with
       | some firstSeason => some firstSeason
       | none => some first) := by
  unfold firstSeasonToLoad
  have h : ((first :: rest).filter (fun s => s.isRegular)).head? =
      (first :: rest).find? Season.isRegular := by simp
  cases hf : (first :: rest).filter (fun s => s.isRegular) with
  | nil =>
    rw [hf] at h
    simp only [List.head?_nil] at h
    rw [← h]
    rfl
  | cons s l =>
    rw [hf] at h
    simp only [List.head?_cons] at h
    rw [← h]

theorem loadTVDetails_seasonRequest (fullYear : String → String) (page : DetailPage)
    (grid : Option Grid) (data : TVBody)
    (hok : (updatePageWithTVData fullYear page data.detail).raised = false) :
    (loadTVDetails fullYear page grid (Fetched.ok data)).seasonRequest =
      (firstSeasonToLoad (data.seasons.getD [])).map (fun s => s.season_number) := by
  unfold loadTVDetails
  simp only [hok]
  cases hs : data.seasons with
  | none => cases data.recommendations <;> rfl
  | some seasons =>
    cases seasons with
    | nil => cases data.recommendations <;> rfl
    | cons first rest =>
      simp only [Option.getD_some, firstSeasonToLoad_eq]
      cases hfind : (first :: rest).find? Season.isRegular <;>
        cases data.recommendations <;> simp [hfind]

theorem updatePageWithTVData_completes (fullYear : String → String) (page : DetailPage)
    (data : DetailData) (r : ℚ) (gs : List Genre)
    (hr : data.vote_average = some r) (hg : data.genres = some gs) :
    (updatePageWithTVData fullYear page data).raised = false := by
  unfold updatePageWithTVData updateTVAfterRating
  simp only [hr, hg, updateGenres_present]
  cases page.ratingValue <;> cases hc : data.production_countries with
  | none => simp
  | some cs => cases cs <;> simp

/-- C21, counterexample: a show detail without vote_average whose seasons
list is non-empty. On a page with a rating element the page update raises
before the seasons are looked at, the `catch` clause shows the toast, and
the episode loader is not called. -/
theorem loadTVDetails_unrated_show_no_season :
    unratedShowWithSeasons.seasons ≠ none ∧ unratedShowWithSeasons.seasons ≠ some [] ∧
      (loadTVDetails (fun d => d) samplePage none (Fetched.ok unratedShowWithSeasons)).seasonRequest
        = none ∧
      (loadTVDetails (fun d => d) samplePage none (Fetched.ok unratedShowWithSeasons)).toast
        = some "Failed to load TV show details" := by
  decide

/-- C21, amended: for every show detail on which the page update completes
without raising, `loadTVDetails` calls the episode loader with the number of
the first listed season whose season_number is above 0, or of the first
listed season when no season has one; with an empty or absent seasons list,
and whenever the page update raises, the episode loader is not called. -/
theorem loadTVDetails_first_season (fullYear : String → String) (page : DetailPage)
    (grid : Option Grid) (data : TVBody) :
    ((updatePageWithTVData fullYear page data.detail).raised = false →
        (loadTVDetails fullYear page grid (Fetched.ok data)).seasonRequest =
          (firstSeasonToLoad (data.seasons.getD [])).map (fun s => s.season_number)) ∧
      ((data.seasons = none ∨ data.seasons = some []) →
        (loadTVDetails fullYear page grid (Fetched.ok data)).seasonRequest = none) ∧
      ((updatePageWithTVData fullYear page data.detail).raised = true →
        (loadTVDetails fullYear page grid (Fetched.ok data)).seasonRequest = none) := by
  have hraise : (updatePageWithTVData fullYear page data.detail).raised = true →
      (loadTVDetails fullYear page grid (Fetched.ok data)).seasonRequest = none := by
    intro h
    unfold loadTVDetails
    simp only [h, if_true]
  refine ⟨loadTVDetails_seasonRequest fullYear page grid data, ?_, hraise⟩
  intro hs
  cases hr : (updatePageWithTVData fullYear page data.detail).raised with
  | true => exact hraise hr
  | false =>
    rw [loadTVDetails_seasonRequest fullYear page grid data hr]
    rcases hs with h | h <;> rw [h] <;> rfl

/-- Witness of the amended C21: specials (season 0) listed before seasons 1
and 2; the page update completes and season 1 is requested. -/
theorem loadTVDetails_first_season_witness :
    (updatePageWithTVData (fun d => d) samplePage showWithSpecials.detail).raised = false ∧
      (loadTVDetails (fun d => d) samplePage none (Fetched.ok showWithSpecials)).seasonRequest =
        (firstSeasonToLoad (showWithSpecials.seasons.getD [])).map (fun s => s.season_number) ∧
      (firstSeasonToLoad (showWithSpecials.seasons.getD [])).map (fun s => s.season_number) =
        some (some 1) :=
  ⟨by decide,
    (loadTVDetails_first_season (fun d => d) samplePage none showWithSpecials).1 (by decide),
    by decide⟩

/-- C22, counterexample: a failed request of `loadTrendingContent`, of
`loadRecentlyAdded` or of `loadAvailableFiles` is logged to the console and
nothing else happens: no toast is shown and the grid stays as it was. -/
theorem silent_loaders_show_no_notice :
    loadTrendingContent (some gridWithCard) Fetched.failed =
        (some gridWithCard, { consoleErrors := ["Error loading trending:"], toasts := [] }) ∧
      loadRecentlyAddedRun thirdFails (some gridWithCard) Fetched.failed =
        (some gridWithCard,
          { consoleErrors := ["Error loading recently added:"], toasts := [] }) ∧
      loadAvailableFiles (some { markup := "", cards := [] }) Fetched.failed =
        (some { markup := "", cards := [] },
          { consoleErrors := ["Error loading files:"], toasts := [] }) := by
  decide

/-- C22, amended: every loader catches a failed request (each function
returns, with the page as the statements before the failure left it) and
logs it to the console. The failure is shown to the user by `performSearch`
(the error state of the dropdown) and by `loadTVDetails`, `loadMovieDetails`
and `loadSeasonEpisodes` (a toast), for either of their requests; the other
five loaders, `loadRecommendationsForMedia`, `loadTrendingContent`,
`loadRecentlyAdded`, `loadAvailableFiles` and `fetchIMDBRating`, only log
it. -/
theorem loaders_catch_failures :
    (∀ v s query,
      performSearchRun v s query Fetched.failed =
        if query = "" then (s, Emitted.nothing)
        else
          ({ s with content := DropdownContent.message (searchErrorMarkup v), visible := true },
            { consoleErrors := [searchErrorLabel v], toasts := [] })) ∧
    (∀ fullYear page grid,
      loadTVDetailsRun fullYear page grid Fetched.failed =
        ({ page := page, seasonRequest := none, grid := grid,
           toast := some "Failed to load TV show details" },
          { consoleErrors := ["Error loading TV details:"],
            toasts := ["Failed to load TV show details"] })) ∧
    (∀ page heroActions grid availableResponse,
      loadMovieDetails page heroActions grid Fetched.failed availableResponse =
        { page := page, playFile := none, grid := grid,
          emitted := { consoleErrors := ["Error loading movie details:"],
                       toasts := ["Failed to load movie details"] } }) ∧
    (∀ page heroActions grid data,
      loadMovieDetails page heroActions grid (Fetched.ok data) Fetched.failed =
        { page := (updatePageWithMovieData page data.detail).page, playFile := none, grid := grid,
          emitted := { consoleErrors := ["Error loading movie details:"],
                       toasts := ["Failed to load movie details"] } }) ∧
    (∀ list availableResponse,
      loadSeasonEpisodes list Fetched.failed availableResponse =
        { list := list,
          emitted := { consoleErrors := ["Error loading season:"],
                       toasts := ["Failed to load episodes"] } }) ∧
    (∀ list episodes,
      loadSeasonEpisodes list (Fetched.ok episodes) Fetched.failed =
        { list := list,
          emitted := { consoleErrors := ["Error loading season:"],
                       toasts := ["Failed to load episodes"] } }) ∧
    (∀ grid,
      loadRecommendationsForMedia grid Fetched.failed =
        (grid, { consoleErrors := ["Error loading recommendations:"], toasts := [] })) ∧
    (∀ grid,
      loadTrendingContent grid Fetched.failed =
        (grid, { consoleErrors := ["Error loading trending:"], toasts := [] })) ∧
    (∀ fetchAt grid,
      loadRecentlyAddedRun fetchAt grid Fetched.failed =
        (grid, { consoleErrors := ["Error loading recently added:"], toasts := [] })) ∧
    (∀ grid,
      loadAvailableFiles grid Fetched.failed =
        (grid, { consoleErrors := ["Error loading files:"], toasts := [] })) ∧
    (∀ view imdbId,
      fetchIMDBRatingRun view imdbId Fetched.failed =
        if imdbId = "" then (view, Emitted.nothing)
        else
          ({ view with
              rating := view.rating.map (fun _ => { text := "...", opacity := "0.5" }) },
            { consoleErrors := ["Error fetching IMDB rating:"], toasts := [] })) := by
  refine ⟨?_, ?_, ?_, ?_, ?_, ?_, ?_, ?_, ?_, ?_, ?_⟩
  · intro v s query
    unfold performSearchRun
    split_ifs
    · rfl
    · rfl
  · intro fullYear page grid
    rfl
  · intro page heroActions grid availableResponse
    rfl
  · intro page heroActions grid data
    unfold loadMovieDetails
    simp only
    split_ifs <;> rfl
  · intro list availableResponse
    rfl
  · intro list episodes
    rfl
  · intro grid
    rfl
  · intro grid
    rfl
  · intro fetchAt grid
    rfl
  · intro grid
    rfl
  · intro view imdbId
    unfold fetchIMDBRatingRun fetchIMDBRating
    split_ifs <;> rfl

/-! ## Theorems of the render operations -/

/-- C24: each render operation clears the container before it inserts, so the
content after the call depends only on the arguments: for
`updateEpisodesDisplay`, `displaySearchResults`,
`updateRecommendationsInGrid` and `updateFilesDisplay`, rendering B into a
container that holds the rendering of A gives what rendering B into an empty
container gives. -/
theorem render_replaces_content :
    (∀ (old : List EpisodeRow) (a b : List Episode) (ma mb : AvailabilityMap),
      updateEpisodesDisplay (updateEpisodesDisplay (some old) a ma) b mb =
        updateEpisodesDisplay (some []) b mb) ∧
    (∀ (v : Variant) (s : SearchState) (a b : List SearchResult),
      (displaySearchResults v (displaySearchResults v s a) b).content =
          (displaySearchResults v { s with content := .empty } b).content ∧
        (displaySearchResults v (displaySearchResults v s a) b).visible =
          (displaySearchResults v { s with content := .empty } b).visible) ∧
    (∀ (g : Grid) (a b : Option (List MediaItem)),
      updateRecommendationsInGrid b (updateRecommendationsInGrid a g).1 =
        updateRecommendationsInGrid b { markup := "", cards := [] }) ∧
    (∀ (g : FilesGrid) (a b : List FileRecord),
      updateFilesDisplay (updateFilesDisplay (some g) a) b =
        updateFilesDisplay (some { markup := "", cards := [] }) b) := by
  refine ⟨?_, ?_, ?_, ?_⟩
  · intro old a b ma mb
    rfl
  · intro v s a b
    exact ⟨rfl, rfl⟩
  · intro g a b
    rfl
  · intro g a b
    unfold updateFilesDisplay
    by_cases ha : a.length = 0
    · simp only [ha, if_true]
    · simp only [ha, if_false]

/-! ## Theorems of the IMDb rating and of the play button -/

/-- C25, failing input: with the rating element showing 7.8, a response that
reports an error leaves the text `...` in the element; the text before the
call is not kept. The same holds for every response with an error or without
a rating. -/
theorem fetchIMDBRating_error_loses_rating :
    fetchIMDBRating { rating := some { text := "7.8", opacity := "1" }, source := some "TMDB" }
        "tt0111161" (Fetched.ok { rating := none, votes := none, error := some "not found" }) =
      { rating := some { text := "...", opacity := "1" }, source := some "TMDB" } ∧
    ∀ (e : RatingElement) (src : Option String) (imdbId : String) (data : ImdbBody),
      imdbId ≠ "" → (strOr data.error "" ≠ "" ∨ strOr data.rating "" = "") →
        (fetchIMDBRating { rating := some e, source := src } imdbId (Fetched.ok data)).rating =
          some { text := "...", opacity := "1" } := by
  refine ⟨by decide, ?_⟩
  intro e src imdbId data hid hbad
  unfold fetchIMDBRating
  rw [if_neg hid]
  simp only [if_pos hbad]
  rfl

/-- C30: in the movie path of the play-button listener the outcome depends on
the stream token of the response only: two movie responses with the same
stream_token and any available flags (and files) lead to the same button and
the same effect, navigation to /play?token=t for a non-empty token t, the
notice and the reset button otherwise. -/
theorem onPlayClick_movie_ignores_available (button : PlayButton) (token : Option String)
    (available1 available2 : Bool) (files1 files2 : Option (List PlayFile)) :
    onPlayClick "movie" button
        (Fetched.ok { stream_token := token, available := available1, files := files1 }) =
      onPlayClick "movie" button
        (Fetched.ok { stream_token := token, available := available2, files := files2 }) ∧
    onPlayClick "movie" button
        (Fetched.ok { stream_token := token, available := available1, files := files1 }) =
      (if strOr token "" ≠ "" then
        ({ disabled := true, innerHTML := "<span>Loading...</span>" },
          Effect.navigate ("/play?token=" ++ strOr token ""))
       else
        ({ disabled := false, innerHTML := playNowMarkup },
          Effect.toast "No files available for this title")) := by
  have h : ∀ (av : Bool) (files : Option (List PlayFile)),
      onPlayClick "movie" button
          (Fetched.ok { stream_token := token, available := av, files := files }) =
        (if strOr token "" ≠ "" then
          ({ disabled := true, innerHTML := "<span>Loading...</span>" },
            Effect.navigate ("/play?token=" ++ strOr token ""))
         else
          ({ disabled := false, innerHTML := playNowMarkup },
            Effect.toast "No files available for this title")) := by
    intro av files
    unfold onPlayClick fileToPlay resetPlayButton
    by_cases ht : strOr token "" = ""
    · simp [ht]
    · simp [ht]
  exact ⟨by rw [h, h], h available1 files1⟩

/-! ## Theorems of the navigation targets -/

theorem startsChars_append (p x : List Char) : startsChars p (p ++ x) = true := by
  induction p with
  | nil => rfl
  | cons a p ih => simp [startsChars, ih]

theorem isRoute_tv (x : String) : IsRoute ("/tv/" ++ x) = true := by
  unfold IsRoute
  have h : startsChars "/tv/".toList ("/tv/" ++ x).toList = true := by
    rw [String.toList, String.toList, String.data_append]
    exact startsChars_append _ _
  rw [h]
  simp only [Bool.true_or, Bool.or_true]

theorem isRoute_movie (x : String) : IsRoute ("/movie/" ++ x) = true := by
  unfold IsRoute
  have h : startsChars "/movie/".toList ("/movie/" ++ x).toList = true := by
    rw [String.toList, String.toList, String.data_append]
    exact startsChars_append _ _
  rw [h]
  simp only [Bool.true_or, Bool.or_true]

theorem isRoute_play (x : String) : IsRoute ("/play?token=" ++ x) = true := by
  unfold IsRoute
  have h : startsChars "/play?token=".toList ("/play?token=" ++ x).toList = true := by
    rw [String.toList, String.toList, String.data_append]
    exact startsChars_append _ _
  rw [h]
  simp only [Bool.true_or, Bool.or_true]

theorem isRoute_mediaRoute (mediaType : JsVal) (fallback id : String)
    (hf : fallback = "tv" ∨ fallback = "movie")
    (h : mediaType = JsVal.str "tv" ∨ mediaType = JsVal.str "movie" ∨ mediaType.truthy = false) :
    IsRoute (mediaRoute (if mediaType.truthy then mediaType.toStr else fallback) id) = true := by
  unfold mediaRoute
  rcases h with h | h | h
  · subst h
    simp only [JsVal.truthy, JsVal.toStr]
    have : ("tv" != "") = true := by decide
    simp only [this, if_true]
    have e : "/" ++ "tv" ++ "/" ++ id = "/tv/" ++ id := by
      simp [String.append_assoc]
    rw [e]
    exact isRoute_tv id
  · subst h
    simp only [JsVal.truthy, JsVal.toStr]
    have : ("movie" != "") = true := by decide
    simp only [this, if_true]
    have e : "/" ++ "movie" ++ "/" ++ id = "/movie/" ++ id := by
      simp [String.append_assoc]
    rw [e]
    exact isRoute_movie id
  · simp only [h, Bool.false_eq_true, if_false]
    rcases hf with hf | hf
    · subst hf
      have e : "/" ++ "tv" ++ "/" ++ id = "/tv/" ++ id := by
        simp [String.append_assoc]
      rw [e]
      exact isRoute_tv id
    · subst hf
      have e : "/" ++ "movie" ++ "/" ++ id = "/movie/" ++ id := by
        simp [String.append_assoc]
      rw [e]
      exact isRoute_movie id

/-- C23, failing input: the mobile row of a search result of type person
navigates to /person/5, which has none of the three forms, and so does the
card that `createRecommendationCard` builds for a trending item of type
person; the desktop row of the same result, whose listener tests the type,
does not navigate. -/
theorem mobile_row_person_route :
    (searchRow Variant.mobile personResult).click = Effect.navigate "/person/5" ∧
      IsRoute "/person/5" = false ∧
      (createRecommendationCard personItem).map (fun card => card.href) = some "/person/5" ∧
      (searchRow Variant.desktop personResult).click = Effect.nothing := by
  decide

/-- The targets of all click handlers. File cards, episode rows and both play
buttons navigate only to /play?token={token}; desktop search rows navigate
only to /tv/{id} or /movie/{id}; mobile search rows and recommendation cards
navigate to /{media_type}/{id} with the media_type of their record (movie,
respectively tv, standing in for an absent or empty one), which is one of
the three forms whenever that media_type is tv, movie, absent or empty. -/
theorem click_targets_by_handler :
    (∀ r href, (searchRow Variant.desktop r).click = Effect.navigate href →
      IsRoute href = true) ∧
    (∀ r : SearchResult,
      (searchRow Variant.mobile r).click =
          Effect.navigate
            (mediaRoute (if r.media_type.truthy then r.media_type.toStr else "movie")
              r.id.toStr) ∧
        ((r.media_type = JsVal.str "tv" ∨ r.media_type = JsVal.str "movie" ∨
            r.media_type.truthy = false) →
          IsRoute (mediaRoute (if r.media_type.truthy then r.media_type.toStr else "movie")
            r.id.toStr) = true)) ∧
    (∀ (item : MediaItem) (card : RecCard), createRecommendationCard item = some card →
      card.href =
          mediaRoute (if item.media_type.truthy then item.media_type.toStr else "tv")
            item.id.toStr ∧
        ((item.media_type = JsVal.str "tv" ∨ item.media_type = JsVal.str "movie" ∨
            item.media_type.truthy = false) →
          IsRoute card.href = true)) ∧
    (∀ file href, (createFileCard file).onClick = some href → IsRoute href = true) ∧
    (∀ availableFiles e href,
      (episodeRow availableFiles e).click = some (Effect.navigate href) →
        IsRoute href = true) ∧
    (∀ mediaType button response href,
      (onPlayClick mediaType button response).2 = Effect.navigate href →
        IsRoute href = true) ∧
    (∀ fileInfo href, addPlayButtonClick fileInfo = Effect.navigate href →
      IsRoute href = true) := by
  refine ⟨?_, ?_, ?_, ?_, ?_, ?_, ?_⟩
  · intro r href h
    rw [(searchRow_click_eq r).1] at h
    split_ifs at h
    · injection h with h1
      rw [← h1]
      exact isRoute_mediaRoute (JsVal.str "tv") "tv" _ (Or.inl rfl) (Or.inl rfl)
    · injection h with h1
      rw [← h1]
      exact isRoute_mediaRoute (JsVal.str "movie") "tv" _ (Or.inl rfl) (Or.inr (Or.inl rfl))
  · intro r
    exact ⟨(searchRow_click_eq r).2,
      fun h => isRoute_mediaRoute r.media_type "movie" _ (Or.inr rfl) h⟩
  · intro item card hcard
    have hhref : card.href =
        mediaRoute (if item.media_type.truthy then item.media_type.toStr else "tv")
          item.id.toStr := by
      unfold createRecommendationCard at hcard
      cases hv : item.vote_average with
      | none => rw [hv] at hcard; cases hcard
      | some rating =>
        rw [hv] at hcard
        simp only [Option.some.injEq] at hcard
        rw [← hcard]
        unfold mediaRoute JsVal.orElse
        simp only
        split_ifs <;> simp [JsVal.toStr]
    refine ⟨hhref, fun h => ?_⟩
    rw [hhref]
    exact isRoute_mediaRoute item.media_type "tv" _ (Or.inl rfl) h
  · intro file href h
    unfold createFileCard at h
    simp only at h
    split_ifs at h
    injection h with h1
    rw [← h1]
    exact isRoute_play _
  · intro availableFiles e href h
    rw [(episodeRow_click_eq availableFiles e)] at h
    cases ha : availableFiles e.episode_number.toStr with
    | none => rw [ha] at h; cases h
    | some a =>
      rw [ha] at h
      simp only at h
      split_ifs at h
      · cases ht : a.stream_token with
        | none => rw [ht] at h; simp at h
        | some t =>
          rw [ht] at h
          simp only at h
          split_ifs at h
          · simp at h
          · simp only [Option.some.injEq, Effect.navigate.injEq] at h
            rw [← h]
            exact isRoute_play _
  · intro mediaType button response href h
    unfold onPlayClick at h
    cases response with
    | failed => simp [resetPlayButton] at h
    | ok data =>
      simp only at h
      cases hf : fileToPlay mediaType data with
      | none => rw [hf] at h; simp at h
      | some tok =>
        rw [hf] at h
        simp only at h
        split_ifs at h
        simp only [Effect.navigate.injEq] at h
        rw [← h]
        exact isRoute_play _
  · intro fileInfo href h
    unfold addPlayButtonClick at h
    split_ifs at h
    simp only [Effect.navigate.injEq] at h
    rw [← h]
    exact isRoute_play _

/-! ## Theorems of the printed value of `formatFileSize` -/

/-- C26: for every integer byte count b with 1 ≤ b < 1024^5, the number that
`formatFileSize(b)` prints before the space lies between 1 and 1024, and 1024
is attained: the unit is chosen before the rounding, so b = 1048575 prints
"1024 KB" and not "1 MB". -/
theorem formatFileSize_value_range (b : Int) (h1 : 1 ≤ b) (h2 : b < (1024 : Int) ^ 5) :
    1 ≤ printedValue b ∧ printedValue b ≤ 1024 ∧
      formatFileSize b = numberToString (printedValue b) ++ " " ++ unitText (sizeIndex b) ∧
      printedValue 1048575 = 1024 ∧
      formatFileSize 1048575 = "1024 KB" ∧ formatFileSize 1048575 ≠ "1 MB" := by
  have hpos : 0 < b := by omega
  have hidx1 : sizeIndex 1048575 = 1 :=
    sizeIndex_eq 1048575 1 (by norm_num) (by norm_num) (by norm_num)
  have hsafe53 : b < 2 ^ 53 := by
    have : (1024 : Int) ^ 5 < 2 ^ 53 := by norm_num
    omega
  have hk : printedValue 1048575 = 1024 := by
    rw [printedValue_eq 1048575 1 (by decide) (by norm_num) hidx1]
    have : roundedHundredths 1048575 1 = 102400 := by decide
    rw [this]
    norm_num
  have hf : formatFileSize 1048575 = "1024 KB" := by
    rw [formatFileSize_of_index 1048575 1 (by decide) (by norm_num) hidx1]
    decide
  have hb : ∃ h : Nat, printedValue b = (h : ℚ) / 100 ∧ 100 ≤ h ∧ h ≤ 102400 := by
    by_cases hband : 2 ^ 50 - 3 ≤ b
    · have h50 : b < 2 ^ 50 := by
        norm_num at h2 ⊢
        exact h2
      have hidx := sizeIndex_near_limit b hband h50
      refine ⟨roundedHundredths b 5, printedValue_eq b 5 (le_of_lt hpos) hsafe53 hidx, ?_⟩
      have hcases : b = 2 ^ 50 - 3 ∨ b = 2 ^ 50 - 2 ∨ b = 2 ^ 50 - 1 := by omega
      rcases hcases with h | h | h <;> subst h <;> decide
    · obtain ⟨n, rfl⟩ := Int.eq_ofNat_of_zero_le (le_of_lt hpos)
      have hn : n ≠ 0 := by
        intro h
        rw [h] at hpos
        exact absurd hpos (by decide)
      have hlo : (1024 : Int) ^ Nat.log 1024 n ≤ (n : Int) := by
        exact_mod_cast Nat.pow_log_le_self 1024 hn
      have hhi : (n : Int) < (1024 : Int) ^ (Nat.log 1024 n + 1) := by
        exact_mod_cast Nat.lt_pow_succ_log_self (by decide) n
      have hidx := sizeIndex_eq (n : Int) _ hlo hhi (Or.inl (by omega))
      exact ⟨_, printedValue_eq _ _ (le_of_lt hpos) hsafe53 hidx,
        roundedHundredths_bounds _ _ hlo hhi⟩
  obtain ⟨h, hpv, hge, hle⟩ := hb
  have hprint : formatFileSize b =
      numberToString (printedValue b) ++ " " ++ unitText (sizeIndex b) := by
    have h := formatFileSize_printedValue b hpos
    rw [asDouble_of_lt b (le_of_lt hpos) hsafe53] at h
    exact h
  refine ⟨?_, ?_, hprint, hk, hf, ?_⟩
  · rw [hpv, le_div_iff₀ (by norm_num)]
    have : ((100 : Nat) : ℚ) ≤ (h : ℚ) := by exact_mod_cast hge
    simpa using this
  · rw [hpv, div_le_iff₀ (by norm_num)]
    have : (h : ℚ) ≤ ((102400 : Nat) : ℚ) := by exact_mod_cast hle
    have e : (1024 : ℚ) * 100 = ((102400 : Nat) : ℚ) := by norm_num
    rw [e]
    exact this
  · rw [hf]
    decide

/-- Witness of C26 at b = 2^50 - 1, where the unit lookup is past the table
and the printed value is 1. -/
theorem formatFileSize_value_range_witness :
    (1 : Int) ≤ 2 ^ 50 - 1 ∧ ((2 : Int) ^ 50 - 1 < (1024 : Int) ^ 5) ∧
      (1 ≤ printedValue (2 ^ 50 - 1) ∧ printedValue (2 ^ 50 - 1) ≤ 1024 ∧
        formatFileSize (2 ^ 50 - 1) =
          numberToString (printedValue (2 ^ 50 - 1)) ++ " " ++ unitText (sizeIndex (2 ^ 50 - 1)) ∧
        printedValue 1048575 = 1024 ∧
        formatFileSize 1048575 = "1024 KB" ∧ formatFileSize 1048575 ≠ "1 MB") :=
  ⟨by decide, by decide, formatFileSize_value_range (2 ^ 50 - 1) (by decide) (by decide)⟩

/-! ## Theorems of the de-duplication key -/

theorem split_at_separator (c : Char) (a1 : List Char) :
    ∀ (a2 b1 b2 : List Char), c ∉ a1 → c ∉ a2 → a1 ++ c :: b1 = a2 ++ c :: b2 →
      a1 = a2 ∧ b1 = b2 := by
  induction a1 with
  | nil =>
    intro a2 b1 b2 _ h2 h
    cases a2 with
    | nil =>
      simp only [List.nil_append, List.cons.injEq, true_and] at h
      exact ⟨rfl, h⟩
    | cons x a2 =>
      simp only [List.nil_append, List.cons_append, List.cons.injEq] at h
      exact absurd (by rw [← h.1]; exact List.mem_cons_self _ _) h2
  | cons x a1 ih =>
    intro a2 b1 b2 h1 h2 h
    cases a2 with
    | nil =>
      simp only [List.nil_append, List.cons_append, List.cons.injEq] at h
      exact absurd (by rw [h.1]; exact List.mem_cons_self _ _) h1
    | cons y a2 =>
      simp only [List.cons_append, List.cons.injEq] at h
      have h1x : c ∉ a1 := fun hc => h1 (List.mem_cons_of_mem _ hc)
      have h2x : c ∉ a2 := fun hc => h2 (List.mem_cons_of_mem _ hc)
      obtain ⟨e1, e2⟩ := ih a2 b1 b2 h1x h2x h.2
      exact ⟨by rw [h.1, e1], e2⟩

theorem dash_not_in_numeral (n : Nat) : '-' ∉ (toString n).toList := by
  intro h
  have hd := (toString_nat_spec n).1 _ h
  revert hd
  decide

theorem numeral_injective (n1 n2 : Nat) (h : toString n1 = toString n2) : n1 = n2 := by
  have e1 := (toString_nat_spec n1).2 (0, 0)
  have e2 := (toString_nat_spec n2).2 (0, 0)
  rw [h, e2] at e1
  simp only [Nat.zero_mul, Nat.zero_add, Prod.mk.injEq, true_and] at e1
  exact e1.symm

theorem keyOf_plain_injective (t1 t2 : String) (n1 n2 : Nat)
    (h : keyOf (JsVal.str t1) (JsVal.num (n1 : Int)) = keyOf (JsVal.str t2) (JsVal.num (n2 : Int))) :
    t1 = t2 ∧ n1 = n2 := by
  have hk : ∀ (t : String) (n : Nat),
      (keyOf (JsVal.str t) (JsVal.num (n : Int))).data =
        t.data ++ '-' :: (toString n).toList := by
    intro t n
    show ((t ++ "-") ++ toString n).data = _
    rw [String.data_append, String.data_append]
    simp [String.toList]
  have hl := congrArg String.data h
  rw [hk, hk] at hl
  have hr := congrArg List.reverse hl
  simp only [List.reverse_append, List.reverse_cons, List.append_assoc, List.singleton_append]
    at hr
  have hm1 : '-' ∉ (toString n1).toList.reverse := fun hc =>
    dash_not_in_numeral n1 (List.mem_reverse.1 hc)
  have hm2 : '-' ∉ (toString n2).toList.reverse := fun hc =>
    dash_not_in_numeral n2 (List.mem_reverse.1 hc)
  obtain ⟨e1, e2⟩ := split_at_separator '-' _ _ _ _ hm1 hm2 hr
  have hd : (toString n1).toList = (toString n2).toList := List.reverse_injective e1
  have ht : t1.data = t2.data := List.reverse_injective e2
  refine ⟨String.ext ht, numeral_injective n1 n2 (String.ext hd)⟩

theorem mem_of_mem_firstOccurrences (files : List RecentFile) (g : RecentFile)
    (h : g ∈ firstOccurrences files) : g ∈ files := by
  induction files using List.reverseRecOn with
  | nil => rw [firstOccurrences_nil] at h; cases h
  | append_singleton p f ih =>
    rw [firstOccurrences_append_singleton] at h
    by_cases hk : mediaKey f ∈ p.map mediaKey
    · rw [if_pos hk] at h
      exact List.mem_append_left _ (ih h)
    · rw [if_neg hk] at h
      rcases List.mem_append.1 h with h1 | h1
      · exact List.mem_append_left _ (ih h1)
      · exact List.mem_append_right _ h1

theorem card_distinctKeys_le (files : List RecentFile) :
    (distinctKeys files).card ≤ ((files.map pairOf).toFinset).card := by
  have h : distinctKeys files =
      ((files.map pairOf).toFinset).image (fun p => keyOf p.1 p.2) := by
    unfold distinctKeys
    ext k
    simp only [List.mem_toFinset, List.mem_map, Finset.mem_image]
    constructor
    · rintro ⟨f, hf, rfl⟩
      exact ⟨pairOf f, ⟨f, hf, rfl⟩, rfl⟩
    · rintro ⟨pr, ⟨f, hf, rfl⟩, rfl⟩
      exact ⟨f, hf, rfl⟩
  rw [h]
  exact Finset.card_image_le

/-- C27: the key that joins media_type, a dash and tmdb_id identifies the pair
when the media type is a string and the id a non-negative integer: equal keys
give equal pairs. Hence for every list of such files with at most 16 distinct
pairs, every pair of the input occurs in the output of
`getUniqueMediaFromFiles`. -/
theorem key_injective_no_merge (t1 t2 : String) (n1 n2 : Int) (files : List RecentFile)
    (h1 : 0 ≤ n1) (h2 : 0 ≤ n2) (hplain : ∀ f ∈ files, f.Plain)
    (hcount : ((files.map pairOf).toFinset).card ≤ 16) :
    (keyOf (JsVal.str t1) (JsVal.num n1) = keyOf (JsVal.str t2) (JsVal.num n2) →
        t1 = t2 ∧ n1 = n2) ∧
      ∀ f ∈ files, ∃ e ∈ getUniqueMediaFromFiles files,
        e.media_type = f.media_type ∧ e.tmdb_id = f.tmdb_id := by
  constructor
  · intro hk
    obtain ⟨k1, rfl⟩ := Int.eq_ofNat_of_zero_le h1
    obtain ⟨k2, rfl⟩ := Int.eq_ofNat_of_zero_le h2
    obtain ⟨e1, e2⟩ := keyOf_plain_injective t1 t2 k1 k2 hk
    exact ⟨e1, by rw [e2]⟩
  · intro f hf
    have hlen : (firstOccurrences files).length ≤ 16 := by
      rw [length_firstOccurrences]
      exact le_trans (card_distinctKeys_le files) hcount
    have hout : getUniqueMediaFromFiles files = (firstOccurrences files).map mediaOf := by
      rw [getUniqueMediaFromFiles_eq, List.take_of_length_le]
      rw [List.length_map]
      exact hlen
    have hkey : mediaKey f ∈ (firstOccurrences files).map mediaKey :=
      (mem_keys_firstOccurrences files _).2 (List.mem_map.2 ⟨f, hf, rfl⟩)
    obtain ⟨g, hg, hgk⟩ := List.mem_map.1 hkey
    have hgf : g ∈ files := mem_of_mem_firstOccurrences files g hg
    obtain ⟨tf, nf, hft, hfn⟩ := hplain f hf
    obtain ⟨tg, ng, hgt, hgn⟩ := hplain g hgf
    have hk2 : keyOf (JsVal.str tg) (JsVal.num (ng : Int)) =
        keyOf (JsVal.str tf) (JsVal.num (nf : Int)) := by
      have := hgk
      unfold mediaKey at this
      rw [hgt, hgn, hft, hfn] at this
      exact this
    obtain ⟨e1, e2⟩ := keyOf_plain_injective tg tf ng nf hk2
    refine ⟨mediaOf g, ?_, ?_, ?_⟩
    · rw [hout]
      exact List.mem_map.2 ⟨g, hg, rfl⟩
    · show g.media_type = f.media_type
      rw [hgt, hft, e1]
    · show g.tmdb_id = f.tmdb_id
      rw [hgn, hfn, e2]

/-- Witness of C27: the media tv-7 and movie-7, the first one listed twice. -/
theorem key_injective_no_merge_witness :
    (∀ f ∈ threeFiles, f.Plain) ∧ ((threeFiles.map pairOf).toFinset).card ≤ 16 ∧
      ((keyOf (JsVal.str "tv") (JsVal.num 7) = keyOf (JsVal.str "movie") (JsVal.num 7) →
          "tv" = "movie" ∧ (7 : Int) = 7) ∧
        ∀ f ∈ threeFiles, ∃ e ∈ getUniqueMediaFromFiles threeFiles,
          e.media_type = f.media_type ∧ e.tmdb_id = f.tmdb_id) :=
  have hplain : ∀ f ∈ threeFiles, f.Plain := by
    intro f hf
    simp only [threeFiles, List.mem_cons, List.mem_singleton, List.not_mem_nil, or_false] at hf
    rcases hf with rfl | rfl | rfl
    · exact ⟨"tv", 7, rfl, rfl⟩
    · exact ⟨"movie", 7, rfl, rfl⟩
    · exact ⟨"tv", 7, rfl, rfl⟩
  have hcount : ((threeFiles.map pairOf).toFinset).card ≤ 16 :=
    le_trans (List.toFinset_card_le _) (by decide)
  ⟨hplain, hcount,
    key_injective_no_merge "tv" "movie" 7 7 threeFiles (by decide) (by decide) hplain hcount⟩

/-! ## Theorems of the endpoint and target of a recent entry -/

theorem int_numeral_ne_word (n : Int) (w : String) (hw : ∃ c rest, w.data = c :: rest ∧
    c.isDigit = false ∧ c ≠ '-') : toString n ≠ w := by
  obtain ⟨c, rest, hdata, hc, hdash⟩ := hw
  intro h
  cases n with
  | ofNat k =>
    have hk : toString (Int.ofNat k) = toString k := rfl
    rw [hk] at h
    have hmem : c ∈ (toString k).toList := by
      rw [h, String.toList, hdata]
      exact List.mem_cons_self _ _
    have := (toString_nat_spec k).1 c hmem
    rw [hc] at this
    cases this
  | negSucc k =>
    have hk : toString (Int.negSucc k) = "-" ++ toString (k + 1) := rfl
    rw [hk] at h
    have hl := congrArg String.data h
    rw [String.data_append, hdata] at hl
    have : '-' = c := by
      have hh : ("-" : String).data = ['-'] := rfl
      rw [hh] at hl
      simp only [List.singleton_append, List.cons.injEq] at hl
      exact hl.1
    exact hdash this.symm

theorem kinds_agree_iff (media : MediaEntry) :
    endpointKind media = targetKind media ↔
      media.media_type = JsVal.str "tv" ∨ media.media_type = JsVal.str "movie" := by
  unfold endpointKind targetKind
  cases hm : media.media_type with
  | undefined => simp [JsVal.truthy]
  | null => simp [JsVal.truthy]
  | bool b => cases b <;> simp [JsVal.truthy, JsVal.toStr]
  | num n =>
    have hne : toString n ≠ "movie" :=
      int_numeral_ne_word n "movie" ⟨'m', _, rfl, by decide, by decide⟩
    by_cases h0 : n = 0
    · simp [JsVal.truthy, h0]
    · simp [JsVal.truthy, JsVal.toStr, h0]
      exact fun h => hne h.symm
  | str t =>
    by_cases h1 : t = "tv"
    · subst h1
      simp [JsVal.truthy, JsVal.toStr]
    · by_cases h2 : t = ""
      · subst h2
        simp [JsVal.truthy]
      · simp [JsVal.truthy, JsVal.toStr, h1, h2]
        constructor
        · intro h; exact h.symm
        · intro h; exact h.symm

/-- C28: in `loadTMDBDetailsForRecent` the request goes to
/api/{tv or movie}/{tmdb_id} and the card navigates to /{type}/{response id};
the two types agree exactly when the entry's media_type is tv or movie. An
entry with empty or absent media_type is fetched from the movie endpoint and
navigates to /tv/{id}; an entry with another media_type X is fetched from the
movie endpoint and navigates to /X/{id}. -/
theorem recent_endpoint_and_target (media : MediaEntry) (data : MediaItem) (rating : ℚ)
    (hr : data.vote_average = some rating) :
    recentEndpoint media = "/api/" ++ endpointKind media ++ "/" ++ media.tmdb_id.toStr ∧
      (∃ card, createRecommendationCard { data with media_type := media.media_type } = some card ∧
        card.href = "/" ++ targetKind media ++ "/" ++ data.id.toStr) ∧
      (endpointKind media = targetKind media ↔
        media.media_type = JsVal.str "tv" ∨ media.media_type = JsVal.str "movie") ∧
      (media.media_type = JsVal.str "tv" →
        endpointKind media = "tv" ∧ targetKind media = "tv") ∧
      (media.media_type = JsVal.str "movie" →
        endpointKind media = "movie" ∧ targetKind media = "movie") ∧
      (media.media_type.truthy = false →
        endpointKind media = "movie" ∧ targetKind media = "tv") ∧
      (media.media_type.truthy = true → media.media_type ≠ JsVal.str "tv" →
        endpointKind media = "movie" ∧ targetKind media = media.media_type.toStr) := by
  refine ⟨rfl, ?_, kinds_agree_iff media, ?_, ?_, ?_, ?_⟩
  · unfold createRecommendationCard
    simp only [hr]
    refine ⟨_, rfl, ?_⟩
    unfold targetKind JsVal.orElse
    simp only
    split_ifs <;> simp [JsVal.toStr]
  · intro h
    unfold endpointKind targetKind
    rw [h]
    decide
  · intro h
    unfold endpointKind targetKind
    rw [h]
    decide
  · intro h
    unfold endpointKind targetKind
    have hne : media.media_type ≠ JsVal.str "tv" := by
      intro h2
      rw [h2] at h
      revert h
      decide
    simp [h, hne]
  · intro h hne
    unfold endpointKind targetKind
    simp [h, hne]

/-- Witness of C28: an entry without media type is fetched from the movie
endpoint and its card navigates to /tv/42. -/
theorem recent_endpoint_and_target_witness :
    untypedRecord.vote_average = some 7 ∧
      recentEndpoint untypedEntry = "/api/movie/42" ∧
      (∃ card,
        createRecommendationCard { untypedRecord with media_type := untypedEntry.media_type } =
          some card ∧
        card.href = "/tv/42") :=
  ⟨rfl, by decide,
    (recent_endpoint_and_target untypedEntry untypedRecord 7 rfl).2.1⟩

/-! ## Theorems of Enter during the quiet period -/

/-- C29: pressing Enter does not cancel the pending debounced search. After
an input event whose trimmed query q has at least 2 characters, an Enter key
press within the quiet period issues one search call for q at once and leaves
the timer pending; with no further events the timer then issues a second
call for q. -/
theorem enter_keeps_pending_search (v : Variant) (s0 : SearchState) (t1 t2 T : Nat)
    (value : String) (hs : Reachable v s0) (hnow : s0.now ≤ t1)
    (hlen : 2 ≤ jsLength (jsTrim value)) (h12 : t1 ≤ t2) (hquiet : t2 < t1 + quietPeriod)
    (hT : t1 + quietPeriod ≤ T) :
    (stepAt v (stepAt v s0 t1 (SearchEvent.input value)) t2
        (SearchEvent.keypress "Enter" value)).calls =
        (advance s0 t1).calls ++ [jsTrim value] ∧
      (stepAt v (stepAt v s0 t1 (SearchEvent.input value)) t2
        (SearchEvent.keypress "Enter" value)).timers.length = 1 ∧
      (advance (stepAt v (stepAt v s0 t1 (SearchEvent.input value)) t2
        (SearchEvent.keypress "Enter" value)) T).calls =
        (advance s0 t1).calls ++ [jsTrim value, jsTrim value] ∧
      (advance (stepAt v (stepAt v s0 t1 (SearchEvent.input value)) t2
        (SearchEvent.keypress "Enter" value)) T).timers = [] := by
  have h1 := afterInput_first v s0 t1 value (tracked_of_reachable v s0 hs) hnow
  obtain ⟨hn, hc, ht⟩ := h1
  rw [if_pos hlen] at ht
  obtain ⟨id, hid, _⟩ := ht
  have hne : jsTrim value ≠ "" := jsLength_pos_ne_empty _ hlen
  have hq : ¬ t1 + quietPeriod ≤ t2 := by omega
  have hstep : stepAt v (stepAt v s0 t1 (SearchEvent.input value)) t2
      (SearchEvent.keypress "Enter" value) =
      { (stepAt v s0 t1 (SearchEvent.input value)) with
        now := t2
        calls := (advance s0 t1).calls ++ [jsTrim value] } := by
    generalize stepAt v s0 t1 (SearchEvent.input value) = s1 at hn hc hid
    unfold stepAt handle onKeypress performSearch
    rw [advance_eq]
    cases v <;> simp [hid, hq, hquiet, hne, hlen, hn, hc, Nat.max_eq_right h12]
  have htim : (stepAt v (stepAt v s0 t1 (SearchEvent.input value)) t2
      (SearchEvent.keypress "Enter" value)).timers =
      [{ id := id, due := t1 + quietPeriod, query := jsTrim value }] := by
    rw [hstep]
    exact hid
  have hcal : (stepAt v (stepAt v s0 t1 (SearchEvent.input value)) t2
      (SearchEvent.keypress "Enter" value)).calls =
      (advance s0 t1).calls ++ [jsTrim value] := by
    rw [hstep]
  generalize (advance s0 t1).calls = base at hcal ⊢
  generalize stepAt v (stepAt v s0 t1 (SearchEvent.input value)) t2
    (SearchEvent.keypress "Enter" value) = s2 at htim hcal ⊢
  refine ⟨hcal, by rw [htim]; rfl, ?_, ?_⟩
  · rw [advance_eq]
    simp [htim, hcal, hT, hne]
  · rw [advance_eq]
    simp [htim, hT]

/-- Witness of C29: the query ab typed at time 0, Enter pressed 100 ms
later. -/
theorem enter_keeps_pending_search_witness :
    Reachable Variant.desktop SearchState.init ∧ 2 ≤ jsLength (jsTrim "ab") ∧
      (advance (stepAt Variant.desktop
          (stepAt Variant.desktop SearchState.init 0 (SearchEvent.input "ab")) 100
          (SearchEvent.keypress "Enter" "ab")) 500).calls =
        (advance SearchState.init 0).calls ++ [jsTrim "ab", jsTrim "ab"] :=
  ⟨Reachable.init, by decide,
    (enter_keeps_pending_search Variant.desktop SearchState.init 0 100 500 "ab" Reachable.init
      (by decide) (by decide) (by decide) (by decide) (by decide)).2.2.1⟩

end Strix












